import Mathlib

/-! # SmartEdify auth-service: authentication and token lifecycle

A shallow embedding of the Go sources under `internal/` (package `errors`, `jwt`,
`repository`, `service`, `utils`, `config`) together with the properties of the
specification that are settled against them.

Conventions of the embedding.

* An instant is an integer number of nanoseconds since the Unix epoch, as in the Go type `time.Time`;
  durations are integers of nanoseconds (`time.Duration`, an `int64`).
* Every `time.Now()`, SQL `NOW()` and `uuid.New()` read by an operation is an explicit input.
* Go strings are Unicode text (`String`).
* Stores (the Redis cache, the SQL tables) are explicit values that an operation receives
  and returns.
-/

set_option autoImplicit false

namespace SmartEdify

/-! ## Package `errors` -/

/-- The structured error of `internal/errors/errors.go` (`APIError`). -/
structure APIError where
  Code : String
  Message : String
  Details : Option String
  Status : Nat
  deriving DecidableEq, Repr

/-- The constructor `NewAPIError(code, message, status)`: no details. -/
def NewAPIError (code message : String) (status : Nat) : APIError :=
  { Code := code, Message := message, Details := none, Status := status }

/-- The method `(*APIError).WithDetails`: a copy with the details replaced. -/
def APIError.WithDetails (e : APIError) (details : String) : APIError :=
  { Code := e.Code, Message := e.Message, Details := some details, Status := e.Status }

def ErrUserNotFound : APIError := NewAPIError "USER_NOT_FOUND" "User not found" 404
def ErrInvalidCredentials : APIError := NewAPIError "INVALID_CREDENTIALS" "Invalid credentials" 401
def ErrTokenExpired : APIError := NewAPIError "TOKEN_EXPIRED" "Token has expired" 401
def ErrTokenInvalid : APIError := NewAPIError "TOKEN_INVALID" "Invalid token" 401
def ErrRefreshTokenInvalid : APIError :=
  NewAPIError "REFRESH_TOKEN_INVALID" "Invalid refresh token" 401
def ErrTokenRevoked : APIError := NewAPIError "TOKEN_REVOKED" "Token has been revoked" 401
def ErrInvalidInput : APIError := NewAPIError "INVALID_INPUT" "Invalid input provided" 400
def ErrMissingRequired : APIError := NewAPIError "MISSING_REQUIRED" "Required field is missing" 400
def ErrInvalidFormat : APIError := NewAPIError "INVALID_FORMAT" "Invalid format" 400
def ErrTooManyAttempts : APIError := NewAPIError "TOO_MANY_ATTEMPTS" "Too many attempts" 429
def ErrInvalidSignature : APIError := NewAPIError "INVALID_SIGNATURE" "Invalid signature" 400
def ErrOTPExpired : APIError := NewAPIError "OTP_EXPIRED" "OTP has expired" 400
def ErrOTPInvalid : APIError := NewAPIError "OTP_INVALID" "Invalid OTP" 400
def ErrOTPAlreadyUsed : APIError := NewAPIError "OTP_ALREADY_USED" "OTP has already been used" 400
def ErrOTPMaxAttempts : APIError :=
  NewAPIError "OTP_MAX_ATTEMPTS" "Maximum OTP attempts exceeded" 429
def ErrUserNotActive : APIError := NewAPIError "USER_NOT_ACTIVE" "User account is not active" 403
def ErrWeakPassword : APIError :=
  NewAPIError "WEAK_PASSWORD" "La contraseña no cumple los requisitos de seguridad" 400
def ErrUserAlreadyExists : APIError := NewAPIError "USER_ALREADY_EXISTS" "User already exists" 409
def ErrEmailAlreadyExists : APIError :=
  NewAPIError "EMAIL_ALREADY_EXISTS" "Email already exists" 409
def ErrInternalServer : APIError :=
  NewAPIError "INTERNAL_SERVER_ERROR" "Internal server error" 500

/-- A Go `error` value: either an `*APIError` or an error built by `fmt.Errorf`. -/
inductive GoError where
  | api (e : APIError)
  | errorf (msg : String)
  deriving DecidableEq, Repr

/-- The method `Error()` of an error value: `(*APIError).Error` prints the code and the
message, an error of `fmt.Errorf` prints its text. -/
def GoError.Error : GoError → String
  | .api e => e.Code ++ ": " ++ e.Message
  | .errorf msg => msg

/-- The function `IsAPIError`: the type assertion `err.(*APIError)`. -/
def IsAPIError : GoError → Option APIError
  | .api e => some e
  | .errorf _ => none

/-- The function `WrapError`: an `*APIError` is returned as it is, any other error becomes
`ErrInternalServer.WithDetails(err.Error())`. -/
def WrapError (err : GoError) : APIError :=
  match IsAPIError err with
  | some apiErr => apiErr
  | none => ErrInternalServer.WithDetails err.Error

/-- The outcome of a Go call returning `(value, error)`. -/
inductive Result (α : Type) where
  | ok (v : α)
  | err (e : GoError)
  deriving DecidableEq, Repr

/-- True when the call returned a nil error. -/
def Result.isOk {α : Type} : Result α → Bool
  | .ok _ => true
  | .err _ => false

/-- The returned value, when the error is nil. -/
def Result.value? {α : Type} : Result α → Option α
  | .ok v => some v
  | .err _ => none

/-! ## Time -/

/-! An instant (`time.Time`) is an `Int`: nanoseconds since the Unix epoch. -/

/-- The constant `time.Second`, in nanoseconds. -/
def Second : Int := 1000000000
/-- The constant `time.Minute`. -/
def Minute : Int := 60 * Second
/-- The constant `time.Hour`. -/
def Hour : Int := 60 * Minute

/-- Wrap-around in two-complement form of an `int64` result. -/
def wrapInt64 (x : Int) : Int := (x + 2 ^ 63) % 2 ^ 64 - 2 ^ 63

/-- The range of an `int64`. -/
def inInt64 (n : Int) : Prop := -(2 ^ 63) ≤ n ∧ n < 2 ^ 63

instance (n : Int) : Decidable (inInt64 n) := by unfold inInt64; infer_instance

/-- The expression `time.Duration(n) * time.Second` for a Go `int` n. -/
def secondsDuration (n : Int) : Int := wrapInt64 (n * Second)

/-- The method `Time.Unix`: whole seconds since the epoch. -/
def Unix (t : Int) : Int := t / Second

/-- The method `Time.After`. -/
def After (t u : Int) : Bool := decide (u < t)

/-! ## Tokens on the wire

The library `github.com/golang-jwt/jwt/v5` and `encoding/json` are not part of the
repository; the definitions of this section describe the behaviour of the entry points the
repository calls.  RSA signatures are symbolic: a signature records the method, the key pair
and the signing input, and verifies exactly against those.

Two rules of the libraries shape what follows.  In `encoding/json`, of several struct fields
with one JSON name the field at the least embedding depth is the only one written and the
only one read.  In `jwt/v5` the claims validator reads the registered claims through the
getters `GetExpirationTime`, `GetNotBefore` and so on, which a struct embedding
`jwt.RegisteredClaims` inherits from the embedded value, and it skips a claim whose getter
returns nil.
-/

/-- JSON values of token headers and payloads (numbers are integers, arrays hold strings). -/
inductive JSON where
  | null
  | bool (b : Bool)
  | num (n : Int)
  | str (s : String)
  | arr (xs : List String)
  deriving DecidableEq, Repr

/-- A JSON object in document order. -/
abbrev JObject := List (String × JSON)

/-- Member access on a decoded JSON object; of duplicate keys the last one counts. -/
def JObject.get : JObject → String → Option JSON
  | [], _ => none
  | (k', v) :: rest, k =>
    match JObject.get rest k with
    | some v' => some v'
    | none => if k' = k then some v else none

/-- A symbolic signature: made with method `alg` and key pair `key` over a header and payload. -/
structure Signature where
  alg : String
  key : Nat
  header : JObject
  payload : JObject
  deriving DecidableEq, Repr

/-- A decoded compact JWS: header, payload and signature segment. -/
structure JWS where
  header : JObject
  payload : JObject
  signature : Signature
  deriving DecidableEq, Repr

/-- A Go string as far as token handling tells strings apart: the compact serialisation of
a JWS (three base64url segments of JSON, JSON and signature bytes), given by what it decodes
to, or any other text.  A UUID, having no dot, is always `text`. -/
inductive TokenString where
  | text (s : String)
  | jws (t : JWS)
  deriving DecidableEq, Repr

/-- The registered signing methods of the library, by family. -/
inductive SigningMethod where
  | RSA (alg : String)
  | RSAPSS (alg : String)
  | HMAC (alg : String)
  | ECDSA (alg : String)
  | Ed25519
  | None
  deriving DecidableEq, Repr

/-- The library function `GetSigningMethod`: the method registered under an `alg` name. -/
def GetSigningMethod (alg : String) : Option SigningMethod :=
  if alg = "RS256" ∨ alg = "RS384" ∨ alg = "RS512" then some (.RSA alg)
  else if alg = "PS256" ∨ alg = "PS384" ∨ alg = "PS512" then some (.RSAPSS alg)
  else if alg = "HS256" ∨ alg = "HS384" ∨ alg = "HS512" then some (.HMAC alg)
  else if alg = "ES256" ∨ alg = "ES384" ∨ alg = "ES512" then some (.ECDSA alg)
  else if alg = "EdDSA" then some .Ed25519
  else if alg = "none" then some .None
  else none

/-- The name (`Alg()`) of a signing method. -/
def SigningMethod.Alg : SigningMethod → String
  | .RSA a => a
  | .RSAPSS a => a
  | .HMAC a => a
  | .ECDSA a => a
  | .Ed25519 => "EdDSA"
  | .None => "none"

/-- The method `SigningMethod.Verify` called with an `*rsa.PublicKey`: the RSA families check
the signature against the key and the signing input, every other family rejects the key
type. -/
def SigningMethod.Verify (m : SigningMethod) (header payload : JObject) (sig : Signature)
    (publicKey : Nat) : Option String :=
  match m with
  | .RSA a | .RSAPSS a =>
    if sig.alg = a ∧ sig.key = publicKey ∧ sig.header = header ∧ sig.payload = payload then none
    else some "crypto/rsa: verification error"
  | _ => some "key is of invalid type"

/-- The library type `jwt.RegisteredClaims`; a `NumericDate` is held in whole seconds. -/
structure RegisteredClaims where
  Issuer : String := ""
  Subject : String := ""
  Audience : List String := []
  ExpiresAt : Option Int := none
  NotBefore : Option Int := none
  IssuedAt : Option Int := none
  ID : String := ""
  deriving DecidableEq, Repr

/-- The library function `NewNumericDate`: the time truncated to the second. -/
def NewNumericDate (t : Int) : Int := Unix t

/-- The struct `TokenClaims` of `internal/jwt/jwt.go`: eight fields of its own and an embedded
`jwt.RegisteredClaims`. -/
structure TokenClaims where
  Subject : String := ""
  TenantID : String := ""
  UnitID : String := ""
  JTI : String := ""
  IssuedAt : Int := 0
  ExpiresAt : Int := 0
  Issuer : String := ""
  Audience : String := ""
  RegisteredClaims : RegisteredClaims := {}
  deriving DecidableEq, Repr

/-- A string member carrying the `omitempty` option. -/
def omitemptyStr (k v : String) : JObject := if v = "" then [] else [(k, .str v)]

/-- An optional `NumericDate` member carrying the `omitempty` option. -/
def omitemptyDate (k : String) (v : Option Int) : JObject :=
  match v with
  | none => []
  | some n => [(k, .num n)]

/-- What `json.Marshal` writes for a `TokenClaims`.  The members `sub`, `jti`, `iat`, `exp`,
`iss` and `aud` of the embedded struct are hidden by the outer fields of the same JSON name,
so of the embedded struct only `nbf` is written. -/
def TokenClaims.marshalJSON (c : TokenClaims) : JObject :=
  [("sub", .str c.Subject)] ++ omitemptyStr "tenant_id" c.TenantID
    ++ omitemptyStr "unit_id" c.UnitID
    ++ [("jti", .str c.JTI), ("iat", .num c.IssuedAt), ("exp", .num c.ExpiresAt),
        ("iss", .str c.Issuer), ("aud", .str c.Audience)]
    ++ omitemptyDate "nbf" c.RegisteredClaims.NotBefore

/-- What `json.Marshal` writes for a `jwt.RegisteredClaims`; the audience is written as an
array (the library default `MarshalSingleStringAsArray = true`). -/
def RegisteredClaims.marshalJSON (c : RegisteredClaims) : JObject :=
  omitemptyStr "iss" c.Issuer ++ omitemptyStr "sub" c.Subject
    ++ (if c.Audience = [] then [] else [("aud", .arr c.Audience)])
    ++ omitemptyDate "exp" c.ExpiresAt ++ omitemptyDate "nbf" c.NotBefore
    ++ omitemptyDate "iat" c.IssuedAt ++ omitemptyStr "jti" c.ID

/-- Decoding of a JSON value into a Go `string` field. -/
def decodeString (field : String) (v : JSON) (old : String) : Except String String :=
  match v with
  | .str s => .ok s
  | .null => .ok old
  | .num _ => .error ("json: cannot unmarshal number into Go struct field " ++ field ++ " of type string")
  | .bool _ => .error ("json: cannot unmarshal bool into Go struct field " ++ field ++ " of type string")
  | .arr _ => .error ("json: cannot unmarshal array into Go struct field " ++ field ++ " of type string")

/-- Decoding of a JSON value into a Go `int64` field. -/
def decodeInt64 (field : String) (v : JSON) (old : Int) : Except String Int :=
  match v with
  | .num n =>
    if inInt64 n then .ok n
    else .error ("json: cannot unmarshal number into Go struct field " ++ field ++ " of type int64")
  | .null => .ok old
  | .str _ => .error ("json: cannot unmarshal string into Go struct field " ++ field ++ " of type int64")
  | .bool _ => .error ("json: cannot unmarshal bool into Go struct field " ++ field ++ " of type int64")
  | .arr _ => .error ("json: cannot unmarshal array into Go struct field " ++ field ++ " of type int64")

/-- Decoding of a JSON value into a `*jwt.NumericDate` field. -/
def decodeNumericDate (v : JSON) : Except String (Option Int) :=
  match v with
  | .num n => .ok (some n)
  | .null => .ok none
  | _ => .error "could not parse NumericDate"

/-- Decoding of one member of the payload into a `TokenClaims`: a member goes to the outer
field of its name, `nbf` to the embedded struct, and an unknown member is skipped. -/
def TokenClaims.setMember (c : TokenClaims) (k : String) (v : JSON) : Except String TokenClaims :=
  if k = "sub" then (decodeString "TokenClaims.sub" v c.Subject).map fun s => { c with Subject := s }
  else if k = "tenant_id" then
    (decodeString "TokenClaims.tenant_id" v c.TenantID).map fun s => { c with TenantID := s }
  else if k = "unit_id" then
    (decodeString "TokenClaims.unit_id" v c.UnitID).map fun s => { c with UnitID := s }
  else if k = "jti" then (decodeString "TokenClaims.jti" v c.JTI).map fun s => { c with JTI := s }
  else if k = "iat" then
    (decodeInt64 "TokenClaims.iat" v c.IssuedAt).map fun n => { c with IssuedAt := n }
  else if k = "exp" then
    (decodeInt64 "TokenClaims.exp" v c.ExpiresAt).map fun n => { c with ExpiresAt := n }
  else if k = "iss" then (decodeString "TokenClaims.iss" v c.Issuer).map fun s => { c with Issuer := s }
  else if k = "aud" then
    (decodeString "TokenClaims.aud" v c.Audience).map fun s => { c with Audience := s }
  else if k = "nbf" then
    (decodeNumericDate v).map fun d =>
      { c with RegisteredClaims := { c.RegisteredClaims with NotBefore := d } }
  else .ok c

/-- What `json.Unmarshal` does with a payload and a `TokenClaims` target: the members are
decoded in document order. -/
def TokenClaims.unmarshalFrom : TokenClaims → JObject → Except String TokenClaims
  | c, [] => .ok c
  | c, (k, v) :: rest =>
    match TokenClaims.setMember c k v with
    | .ok c' => TokenClaims.unmarshalFrom c' rest
    | .error e => .error e

/-- The errors of `ParseWithClaims`, by the sentinel they wrap. -/
inductive ParseError where
  | malformed (msg : String)
  | unverifiable (msg : String)
  | signatureInvalid (msg : String)
  | invalidClaims (msg : String)
  deriving DecidableEq, Repr

/-- The method `Error()` of a parse error: the text of the sentinel, a colon, the cause. -/
def ParseError.Error : ParseError → String
  | .malformed m => "token is malformed: " ++ m
  | .unverifiable m => "token is unverifiable: " ++ m
  | .signatureInvalid m => "token signature is invalid: " ++ m
  | .invalidClaims m => "token has invalid claims: " ++ m

/-- The default claims validator of the library applied through the `Claims` interface, whose
getters are promoted from the embedded `RegisteredClaims`: `exp` must lie after now and
`nbf` not after now, each only when present. -/
def validateRegistered (now : Int) (c : RegisteredClaims) : Option String :=
  let expired : Bool := match c.ExpiresAt with
    | some e => !decide (now < e * Second)
    | none => false
  let early : Bool := match c.NotBefore with
    | some n => decide (now < n * Second)
    | none => false
  if expired ∧ early then some "token is expired, token is not valid yet"
  else if expired then some "token is expired"
  else if early then some "token is not valid yet"
  else none

/-- The library function `jwt.ParseWithClaims` with a `TokenClaims` target, at time `now`:
split and decode, look the method up, ask `keyFunc` for the key, verify the signature,
validate the claims. -/
def ParseWithClaims (now : Int) (tokenString : TokenString)
    (keyFunc : SigningMethod → JObject → Except String Nat) : Except ParseError TokenClaims :=
  match tokenString with
  | .text _ => .error (.malformed "token contains an invalid number of segments")
  | .jws t =>
    match TokenClaims.unmarshalFrom {} t.payload with
    | .error e => .error (.malformed ("could not JSON decode claim: " ++ e))
    | .ok claims =>
      match t.header.get "alg" with
      | some (.str alg) =>
        match GetSigningMethod alg with
        | none => .error (.unverifiable "signing method (alg) is unavailable")
        | some method =>
          match keyFunc method t.header with
          | .error e => .error (.unverifiable ("error while executing keyfunc: " ++ e))
          | .ok key =>
            match method.Verify t.header t.payload t.signature key with
            | some e => .error (.signatureInvalid e)
            | none =>
              match validateRegistered now claims.RegisteredClaims with
              | some e => .error (.invalidClaims e)
              | none => .ok claims
      | _ => .error (.unverifiable "signing method (alg) is unspecified")

/-- The library calls `NewWithClaims(SigningMethodRS256, claims)` followed by
`token.Header["kid"] = kid` and `SignedString(privateKey)`. -/
def SignedString (kid : String) (privateKey : Nat) (payload : JObject) : TokenString :=
  let header : JObject := [("alg", .str "RS256"), ("kid", .str kid), ("typ", .str "JWT")]
  .jws { header := header, payload := payload,
         signature := { alg := "RS256", key := privateKey, header := header, payload := payload } }

/-! ## Package `jwt` -/

/-- The struct `config.JWTConfig` (the fields the token service reads). -/
structure JWTConfig where
  Issuer : String
  Audience : String
  AccessTokenTTL : Int
  RefreshTokenTTL : Int
  KeyVersion : String
  deriving DecidableEq, Repr

/-- The struct `jwtService`; a key pair is named by a number, the public key of private key
`k` being `k`. -/
structure jwtService where
  config : JWTConfig
  privateKey : Nat
  publicKey : Nat
  keyID : String
  deriving DecidableEq, Repr

/-- The constructor `NewJWTService`. -/
def NewJWTService (cfg : JWTConfig) (privateKey : Nat) : jwtService :=
  { config := cfg, privateKey := privateKey, publicKey := privateKey, keyID := cfg.KeyVersion }

/-- The claims built by `GenerateAccessToken` at time `now` with the fresh UUID `jti`. -/
def accessClaims (s : jwtService) (now : Int) (jti userID tenantID unitID : String) : TokenClaims :=
  { Subject := userID
    TenantID := tenantID
    UnitID := unitID
    JTI := jti
    IssuedAt := Unix now
    ExpiresAt := Unix (now + secondsDuration s.config.AccessTokenTTL)
    Issuer := s.config.Issuer
    Audience := s.config.Audience
    RegisteredClaims :=
      { Subject := userID
        ID := jti
        IssuedAt := some (NewNumericDate now)
        ExpiresAt := some (NewNumericDate (now + secondsDuration s.config.AccessTokenTTL))
        Issuer := s.config.Issuer
        Audience := [s.config.Audience] } }

/-- The method `jwtService.GenerateAccessToken`: the signed token and its claims. -/
def GenerateAccessToken (s : jwtService) (now : Int) (jti userID tenantID unitID : String) :
    TokenString × TokenClaims :=
  let claims := accessClaims s now jti userID tenantID unitID
  (SignedString s.keyID s.privateKey claims.marshalJSON, claims)

/-- The method `jwtService.GenerateRefreshToken`: the signed token and its jti. -/
def GenerateRefreshToken (s : jwtService) (now : Int) (jti : String) : TokenString × String :=
  let claims : RegisteredClaims :=
    { ID := jti
      IssuedAt := some (NewNumericDate now)
      ExpiresAt := some (NewNumericDate (now + secondsDuration s.config.RefreshTokenTTL))
      Issuer := s.config.Issuer
      Audience := [s.config.Audience] }
  (SignedString s.keyID s.privateKey claims.marshalJSON, jti)

/-- The key function that `ValidateToken` hands to the parser: the method must be of the
RSA family, the header `kid` a string equal to the key id of the service. -/
def keyFunc (s : jwtService) (method : SigningMethod) (header : JObject) : Except String Nat :=
  match method with
  | .RSA _ =>
    match header.get "kid" with
    | some (.str kid) => if kid ≠ s.keyID then .error ("invalid key ID: " ++ kid) else .ok s.publicKey
    | _ => .error "invalid key ID: "
  | m => .error ("unexpected signing method: " ++ m.Alg)

/-- The method `jwtService.ValidateToken` at time `now`. -/
def ValidateToken (s : jwtService) (now : Int) (tokenString : TokenString) : Result TokenClaims :=
  match ParseWithClaims now tokenString (keyFunc s) with
  | .error err =>
    if err.Error = "token is expired" then .err (.api ErrTokenExpired)
    else if err.Error = "signature is invalid" then .err (.api ErrInvalidSignature)
    else if err.Error = "token is malformed" then
      .err (.api (ErrTokenInvalid.WithDetails "malformed token"))
    else .err (.api (ErrTokenInvalid.WithDetails err.Error))
  | .ok claims =>
    if claims.Issuer ≠ s.config.Issuer then .err (.api (ErrTokenInvalid.WithDetails "invalid issuer"))
    else if claims.Audience ≠ s.config.Audience then
      .err (.api (ErrTokenInvalid.WithDetails "invalid audience"))
    else .ok claims

/-! ## The shared cache (Redis)

The cache is explicit keyed state with expiry.  A stored string that is the decimal form of
a 64-bit integer is held as `.int`, any other string as `.text`.
-/

/-- A string value stored in the cache. -/
inductive RedisValue where
  | int (n : Int)
  | text (s : String)
  deriving DecidableEq, Repr

/-- A stored value and the instant at which it expires, when it has one. -/
structure CacheEntry where
  value : RedisValue
  expireAt : Option Int
  deriving DecidableEq, Repr

/-- The cache server: whether it can be reached, and what it holds under each key. -/
structure Redis where
  up : Bool
  entries : String → Option CacheEntry

/-- The reply to a read: a value, `redis.Nil` for a missing key, or a failure. -/
inductive RedisReply where
  | ok (v : RedisValue)
  | nil
  | fail
  deriving DecidableEq, Repr

/-- The entry under a key as far as it has not expired at `now`. -/
def Redis.live (r : Redis) (now : Int) (key : String) : Option CacheEntry :=
  match r.entries key with
  | none => none
  | some e =>
    match e.expireAt with
    | none => some e
    | some x => if x ≤ now then none else some e

/-- Replacement of the entry under one key. -/
def Redis.put (r : Redis) (key : String) (e : CacheEntry) : Redis :=
  { r with entries := fun k => if k = key then some e else r.entries k }

/-- The command `GET key`. -/
def Redis.Get (r : Redis) (now : Int) (key : String) : RedisReply :=
  if r.up then
    match r.live now key with
    | some e => .ok e.value
    | none => .nil
  else .fail

/-- The command `INCR key`: a missing key counts from 0 and gets no expiry, an integer below
the largest `int64` is increased and keeps its expiry, anything else is an error.  The
reply is `none` on an error. -/
def Redis.Incr (r : Redis) (now : Int) (key : String) : Redis × Option Int :=
  if r.up then
    match r.live now key with
    | none => (r.put key { value := .int 1, expireAt := none }, some 1)
    | some e =>
      match e.value with
      | .int n =>
        if n < 2 ^ 63 - 1 then (r.put key { e with value := .int (n + 1) }, some (n + 1))
        else (r, none)
      | .text _ => (r, none)
  else (r, none)

/-- The command `EXPIRE key ttl`: an existing key expires `ttl` from now. -/
def Redis.Expire (r : Redis) (now : Int) (key : String) (ttl : Int) : Redis :=
  if r.up then
    match r.live now key with
    | some e => r.put key { e with expireAt := some (now + ttl) }
    | none => r
  else r

/-- The command `SET key value` with a positive expiration `ttl`: the cache after it and the
error of the command, which a cache that is not reachable returns without storing. -/
def Redis.Set (r : Redis) (now : Int) (key : String) (v : RedisValue) (ttl : Int) :
    Redis × Option GoError :=
  if r.up then (r.put key { value := v, expireAt := some (now + ttl) }, none)
  else (r, some (.errorf "redis: connection refused"))

/-! ## Package `models` and the relational store

A table is the list of its rows in the order of `created_at DESC`: an insert adds at the
head.  A string column that token text can reach is a `TokenString`.
-/

/-- The struct `models.User` (the columns the engine reads or writes). -/
structure User where
  ID : String
  Email : String
  PasswordHash : String
  TenantID : String
  UnitID : String
  Status : String
  LastLoginAt : Option Int := none
  LastLoginIP : String := ""
  FirstName : String := ""
  LastName : String := ""
  Role : String := ""
  FailedLogins : Int := 0
  LockedUntil : Option Int := none
  CreatedAt : Int := 0
  UpdatedAt : Int := 0
  Phone : String := ""
  Name : String := ""
  deriving DecidableEq, Repr

/-- The struct `models.UserUnitRole` (the columns the engine reads). -/
structure UserUnitRole where
  UserID : String
  TenantID : String
  UnitID : String
  Status : String
  deriving DecidableEq, Repr

/-- The struct `models.RefreshToken`. -/
structure RefreshToken where
  ID : String
  JTI : TokenString
  UserID : String
  TenantID : Option String
  UnitID : Option String
  TokenHash : TokenString
  ExpiresAt : Int
  Revoked : Bool := false
  RevokedAt : Option Int := none
  RevokedReason : Option String := none
  DeviceInfo : List (String × String) := []
  CreatedAt : Int := 0
  UpdatedAt : Int := 0
  deriving DecidableEq, Repr

/-- The struct `models.OTPCode`. -/
structure OTPCode where
  ID : String
  Phone : String
  Code : String
  CodeHash : String
  Purpose : String
  ExpiresAt : Int
  Used : Bool := false
  UsedAt : Option Int := none
  Attempts : Int := 0
  MaxAttempts : Int := 3
  CreatedAt : Int := 0
  deriving DecidableEq, Repr

/-- The relational store: the tables `users`, `user_unit_roles`, `refresh_tokens` and
`otp_codes`. -/
structure DB where
  users : List User := []
  roles : List UserUnitRole := []
  refreshTokens : List RefreshToken := []
  otpCodes : List OTPCode := []
  deriving DecidableEq, Repr

/-- The struct `models.LoginRequest`. -/
structure LoginRequest where
  Email : String
  Password : String
  deriving DecidableEq, Repr

/-- The struct `models.WhatsAppLoginRequest`. -/
structure WhatsAppLoginRequest where
  Phone : String
  OTP : String
  deriving DecidableEq, Repr

/-- The struct `models.RefreshTokenRequest`. -/
structure RefreshTokenRequest where
  RefreshToken : TokenString
  deriving DecidableEq, Repr

/-- The struct `models.LoginResponse`. -/
structure LoginResponse where
  AccessToken : TokenString
  RefreshToken : TokenString
  ExpiresIn : Int := 0
  TokenType : String := ""
  UserID : String
  TenantID : String
  UnitID : String
  deriving DecidableEq, Repr

/-! ## Package `repository` -/

/-- The interface `repository.UserRepository` (the methods the engine calls). -/
structure UserRepository where
  GetUserByID : DB → String → Result User
  GetUserByEmail : DB → String → Result User
  GetUserByPhone : DB → String → Result User
  GetUserRoles : DB → String → Result (List UserUnitRole)
  UpdateLastLogin : DB → Int → String → String → String → DB × Option GoError
  CreateUser : DB → Int → User → DB × Option GoError
  EmailExists : DB → String → Result Bool

/-- The interface `repository.TokenRepository` (refresh-token and OTP methods). -/
structure TokenRepository where
  CreateRefreshToken : DB → Int → RefreshToken → DB × Option GoError
  GetRefreshToken : DB → TokenString → Result RefreshToken
  RevokeRefreshToken : DB → Int → TokenString → String → DB × Option GoError
  RevokeAllUserTokens : DB → Int → String → String → DB × Option GoError
  CreateOTPCode : DB → Int → OTPCode → DB × Option GoError
  GetOTPCode : DB → Int → String → String → Result OTPCode
  UseOTPCode : DB → Int → String → DB × Option GoError
  IncrementOTPAttempts : DB → String → DB × Option GoError

namespace userRepository

/-- The method `userRepository.GetUserByID`: `SELECT .. FROM users WHERE id = $1`. -/
def GetUserByID (db : DB) (id : String) : Result User :=
  match db.users.find? (fun u => decide (u.ID = id)) with
  | some u => .ok u
  | none => .err (.api ErrUserNotFound)

/-- The method `userRepository.GetUserByEmail`: `SELECT .. FROM users WHERE email = $1`. -/
def GetUserByEmail (db : DB) (email : String) : Result User :=
  match db.users.find? (fun u => decide (u.Email = email)) with
  | some u => .ok u
  | none => .err (.api ErrUserNotFound)

/-- The method `userRepository.GetUserByPhone`: the phone is no column of `users`, the call
returns not found. -/
def GetUserByPhone (_db : DB) (_phone : String) : Result User :=
  .err (.api (ErrUserNotFound.WithDetails "phone lookup not supported in current schema"))

/-- The method `userRepository.GetUserRoles`: the active roles of a user, newest first. -/
def GetUserRoles (db : DB) (userID : String) : Result (List UserUnitRole) :=
  .ok (db.roles.filter fun r => decide (r.UserID = userID) && decide (r.Status = "active"))

/-- The method `userRepository.UpdateLastLogin`:
`UPDATE users SET last_login_at = NOW(), last_login_ip = $2, updated_at = NOW() WHERE id = $1`. -/
def UpdateLastLogin (db : DB) (now : Int) (userID ipAddress _userAgent : String) :
    DB × Option GoError :=
  ({ db with users := db.users.map fun u =>
      if u.ID = userID then
        { u with LastLoginAt := some now, LastLoginIP := ipAddress, UpdatedAt := now }
      else u },
   none)

/-- The method `userRepository.CreateUser`: `INSERT INTO users (id, email, password_hash,
first_name, last_name, tenant_id, unit_id, role, status) .. RETURNING created_at, updated_at`.
The columns that are not listed take their defaults.  A unique violation is mapped by the
constraint that reports it: `users_email_key` (the email is already in the table) to
`ErrEmailAlreadyExists`, any other (the primary key) to `ErrUserAlreadyExists`. -/
def CreateUser (db : DB) (now : Int) (user : User) : DB × Option GoError :=
  if db.users.any (fun u => decide (u.Email = user.Email)) then
    (db, some (.api ErrEmailAlreadyExists))
  else if db.users.any (fun u => decide (u.ID = user.ID)) then
    (db, some (.api ErrUserAlreadyExists))
  else
    ({ db with users :=
        { ID := user.ID, Email := user.Email, PasswordHash := user.PasswordHash,
          FirstName := user.FirstName, LastName := user.LastName, TenantID := user.TenantID,
          UnitID := user.UnitID, Role := user.Role, Status := user.Status,
          CreatedAt := now, UpdatedAt := now } :: db.users }, none)

/-- The method `userRepository.EmailExists`:
`SELECT EXISTS(SELECT 1 FROM users WHERE email = $1)`. -/
def EmailExists (db : DB) (email : String) : Result Bool :=
  .ok (db.users.any fun u => decide (u.Email = email))

/-- The method `userRepository.EmailExistsInTenant`:
`SELECT EXISTS(SELECT 1 FROM users WHERE email = $1 AND tenant_id = $2)`. -/
def EmailExistsInTenant (db : DB) (email tenantID : String) : Result Bool :=
  .ok (db.users.any fun u => decide (u.Email = email) && decide (u.TenantID = tenantID))

/-- The method `userRepository.IncrementFailedLogins`:
`UPDATE users SET failed_logins = failed_logins + 1, updated_at = NOW() WHERE id = $1`. -/
def IncrementFailedLogins (db : DB) (now : Int) (userID : String) : DB × Option GoError :=
  ({ db with users := db.users.map fun u =>
      if u.ID = userID then { u with FailedLogins := u.FailedLogins + 1, UpdatedAt := now }
      else u },
   none)

/-- The method `userRepository.ResetFailedLogins`:
`UPDATE users SET failed_logins = 0, locked_until = NULL, updated_at = NOW() WHERE id = $1`. -/
def ResetFailedLogins (db : DB) (now : Int) (userID : String) : DB × Option GoError :=
  ({ db with users := db.users.map fun u =>
      if u.ID = userID then { u with FailedLogins := 0, LockedUntil := none, UpdatedAt := now }
      else u },
   none)

/-- The method `userRepository.LockUser`: `UPDATE users SET status = 'locked',
locked_until = NOW() + INTERVAL 'n minutes', updated_at = NOW() WHERE id = $1`. -/
def LockUser (db : DB) (now : Int) (userID : String) (lockDurationMinutes : Int) :
    DB × Option GoError :=
  ({ db with users := db.users.map fun u =>
      if u.ID = userID then
        { u with Status := "locked", LockedUntil := some (now + lockDurationMinutes * Minute),
                 UpdatedAt := now }
      else u },
   none)

end userRepository

/-- The SQL implementation `userRepository` of the interface. -/
def sqlUserRepository : UserRepository :=
  { GetUserByID := userRepository.GetUserByID
    GetUserByEmail := userRepository.GetUserByEmail
    GetUserByPhone := userRepository.GetUserByPhone
    GetUserRoles := userRepository.GetUserRoles
    UpdateLastLogin := userRepository.UpdateLastLogin
    CreateUser := userRepository.CreateUser
    EmailExists := userRepository.EmailExists }

namespace tokenRepository

/-- Modelled from the spec: the unique constraint of table `refresh_tokens`, whose schema is
not among the sources ("create fails if a record with the same jti already exists"). -/
def uniqueViolation (db : DB) (token : RefreshToken) : Bool :=
  db.refreshTokens.any fun t => decide (t.JTI = token.JTI)

/-- The method `tokenRepository.CreateRefreshToken`: an `INSERT` with all revocation columns
at their defaults; a unique violation (code 23505) is "token already exists". -/
def CreateRefreshToken (db : DB) (now : Int) (token : RefreshToken) : DB × Option GoError :=
  if uniqueViolation db token then
    (db, some (.api (ErrTokenInvalid.WithDetails "token already exists")))
  else
    ({ db with refreshTokens :=
        { token with Revoked := false, RevokedAt := none, RevokedReason := none,
                     CreatedAt := now, UpdatedAt := now } :: db.refreshTokens }, none)

/-- The method `tokenRepository.GetRefreshToken`:
`SELECT .. FROM refresh_tokens WHERE jti = $1`. -/
def GetRefreshToken (db : DB) (jti : TokenString) : Result RefreshToken :=
  match db.refreshTokens.find? (fun t => decide (t.JTI = jti)) with
  | some t => .ok t
  | none => .err (.api ErrRefreshTokenInvalid)

/-- The method `tokenRepository.RevokeRefreshToken`: `UPDATE refresh_tokens SET revoked =
true, revoked_at = NOW(), revoked_reason = $2, updated_at = NOW() WHERE jti = $1`; no row
affected is `ErrRefreshTokenInvalid`. -/
def RevokeRefreshToken (db : DB) (now : Int) (jti : TokenString) (reason : String) :
    DB × Option GoError :=
  if db.refreshTokens.any (fun t => decide (t.JTI = jti)) then
    ({ db with refreshTokens := db.refreshTokens.map fun t =>
        if t.JTI = jti then
          { t with Revoked := true, RevokedAt := some now, RevokedReason := some reason,
                   UpdatedAt := now }
        else t }, none)
  else (db, some (.api ErrRefreshTokenInvalid))

/-- The method `tokenRepository.RevokeAllUserTokens`: the same update
`WHERE user_id = $1 AND revoked = false`. -/
def RevokeAllUserTokens (db : DB) (now : Int) (userID reason : String) : DB × Option GoError :=
  ({ db with refreshTokens := db.refreshTokens.map fun t =>
      if t.UserID = userID ∧ t.Revoked = false then
        { t with Revoked := true, RevokedAt := some now, RevokedReason := some reason,
                 UpdatedAt := now }
      else t }, none)

/-- The method `tokenRepository.UpdateRefreshToken`: `UPDATE refresh_tokens SET expires_at =
$2, revoked = $3, revoked_at = $4, revoked_reason = $5, device_info = $6, updated_at = NOW()
WHERE jti = $1`, the values taken from the record passed in; no row affected is
`ErrRefreshTokenInvalid`. -/
def UpdateRefreshToken (db : DB) (now : Int) (token : RefreshToken) : DB × Option GoError :=
  if db.refreshTokens.any (fun t => decide (t.JTI = token.JTI)) then
    ({ db with refreshTokens := db.refreshTokens.map fun t =>
        if t.JTI = token.JTI then
          { t with ExpiresAt := token.ExpiresAt, Revoked := token.Revoked,
                   RevokedAt := token.RevokedAt, RevokedReason := token.RevokedReason,
                   DeviceInfo := token.DeviceInfo, UpdatedAt := now }
        else t }, none)
  else (db, some (.api ErrRefreshTokenInvalid))

/-- The method `tokenRepository.CleanupExpiredTokens`:
`DELETE FROM refresh_tokens WHERE expires_at < NOW()`. -/
def CleanupExpiredTokens (db : DB) (now : Int) : DB × Option GoError :=
  ({ db with refreshTokens := db.refreshTokens.filter fun t => !decide (t.ExpiresAt < now) }, none)

/-- The method `tokenRepository.CreateOTPCode`: an `INSERT` of id, phone, code, code_hash,
purpose, expires_at and max_attempts; the other columns take their defaults. -/
def CreateOTPCode (db : DB) (now : Int) (otp : OTPCode) : DB × Option GoError :=
  ({ db with otpCodes :=
      { otp with Used := false, UsedAt := none, Attempts := 0, CreatedAt := now } :: db.otpCodes },
   none)

/-- The method `tokenRepository.GetOTPCode`: `SELECT .. FROM otp_codes WHERE phone = $1 AND
purpose = $2 AND used = false AND expires_at > NOW() ORDER BY created_at DESC LIMIT 1`; no
row is `ErrOTPInvalid`. -/
def GetOTPCode (db : DB) (now : Int) (phone purpose : String) : Result OTPCode :=
  match db.otpCodes.find? (fun o =>
      decide (o.Phone = phone) && decide (o.Purpose = purpose) && !o.Used
        && decide (now < o.ExpiresAt)) with
  | some o => .ok o
  | none => .err (.api ErrOTPInvalid)

/-- The method `tokenRepository.UseOTPCode`:
`UPDATE otp_codes SET used = true, used_at = NOW() WHERE id = $1`; no row affected is
`ErrOTPInvalid`. -/
def UseOTPCode (db : DB) (now : Int) (id : String) : DB × Option GoError :=
  if db.otpCodes.any (fun o => decide (o.ID = id)) then
    ({ db with otpCodes := db.otpCodes.map fun o =>
        if o.ID = id then { o with Used := true, UsedAt := some now } else o }, none)
  else (db, some (.api ErrOTPInvalid))

/-- The method `tokenRepository.IncrementOTPAttempts`:
`UPDATE otp_codes SET attempts = attempts + 1 WHERE id = $1`. -/
def IncrementOTPAttempts (db : DB) (id : String) : DB × Option GoError :=
  ({ db with otpCodes := db.otpCodes.map fun o =>
      if o.ID = id then { o with Attempts := o.Attempts + 1 } else o }, none)

end tokenRepository

/-- The SQL implementation `tokenRepository` of the interface. -/
def sqlTokenRepository : TokenRepository :=
  { CreateRefreshToken := tokenRepository.CreateRefreshToken
    GetRefreshToken := tokenRepository.GetRefreshToken
    RevokeRefreshToken := tokenRepository.RevokeRefreshToken
    RevokeAllUserTokens := tokenRepository.RevokeAllUserTokens
    CreateOTPCode := tokenRepository.CreateOTPCode
    GetOTPCode := tokenRepository.GetOTPCode
    UseOTPCode := tokenRepository.UseOTPCode
    IncrementOTPAttempts := tokenRepository.IncrementOTPAttempts }

/-! ## Package `service` -/

/-- The functions of package `utils` that the login and registration flows call, with
`HashPassword` of package `service`; their bodies are regular expression matching
(`ValidateEmail`, `ValidateName`, `ValidateUUID`), bcrypt (`VerifyPassword`, `HashPassword`)
and argon2id with a constant-time comparison (`VerifyOTP`, and `HashOTP`, which gets the
random salt it draws as its first argument), and are taken as given. -/
structure Utils where
  ValidateEmail : String → Option GoError
  VerifyPassword : String → String → Bool
  VerifyOTP : String → String → Bool
  HashOTP : String → String → Result String
  ValidateName : String → String → Option GoError
  ValidateUUID : String → Option GoError
  HashPassword : String → Result String

/-- The struct `whatsapp.WhatsAppService` as the engine sees it: `SendLoginOTP(phone, otp)`
hands the code to the delivery channel and reports its error. -/
structure WhatsAppService where
  SendLoginOTP : String → String → Option GoError

/-- The service over `MockWhatsAppClient`, whose `SendOTP` records the message and returns
nil. -/
def mockWhatsAppService : WhatsAppService := { SendLoginOTP := fun _ _ => none }

/-- The struct `authService`. -/
structure authService where
  config : JWTConfig
  userRepo : UserRepository
  tokenRepo : TokenRepository
  jwtService : jwtService
  utils : Utils
  whatsappSvc : WhatsAppService := mockWhatsAppService

/-- The state outside the process: the shared cache and the relational store. -/
structure World where
  redis : Redis
  db : DB

/-- The calls of an operation that the properties speak about, in the order made. -/
inductive Event where
  | userLookup (key : String)
  | passwordCompare
  | accessTokenMinted (token : TokenString)
  | refreshTokenMinted (token : TokenString)
  | otpMarkedUsed (id : String)
  | otpPersisted (otp : OTPCode)
  | otpSent (phone code : String)
  deriving DecidableEq, Repr

/-- What an operation of the service leaves behind: its return value, the stores and the
calls it made. -/
structure Outcome (α : Type) where
  result : Result α
  world : World
  events : List Event

/-- The values `uuid.New()` yields during one operation. -/
structure FreshIDs where
  accessJTI : String
  refreshJTI : String
  recordID : String
  deriving DecidableEq, Repr

/-- The error both rate-limit exits of `LoginWithPassword` return. -/
def blockedError : GoError :=
  .api (ErrInvalidCredentials.WithDetails "ACCOUNT_TEMPORARILY_BLOCKED")

/-- The cache key of the attempt counter of an email. -/
def attemptsKey (email : String) : String := "login_attempts:" ++ email

/-- The cache key of the block flag of an email. -/
def blockKey (email : String) : String := "login_blocked:" ++ email

/-- The part of `LoginWithPassword` after the rate limiter: input validation, user
lookup, password check, status check and token issue. -/
def authService.authenticate (s : authService) (w : World) (now : Int) (ids : FreshIDs)
    (req : LoginRequest) : Outcome LoginResponse :=
  if req.Email = "" then
    ⟨.err (.api (ErrMissingRequired.WithDetails "email required")), w, []⟩
  else
    match s.utils.ValidateEmail req.Email with
    | some e => ⟨.err e, w, []⟩
    | none =>
      match s.userRepo.GetUserByEmail w.db req.Email with
      | .err _ => ⟨.err (.api ErrInvalidCredentials), w, [.userLookup req.Email]⟩
      | .ok user =>
        if user.PasswordHash = "" ∨ req.Password = "" then
          ⟨.err (.api ErrInvalidCredentials), w, [.userLookup req.Email]⟩
        else if s.utils.VerifyPassword req.Password user.PasswordHash = false then
          ⟨.err (.api ErrInvalidCredentials), w, [.userLookup req.Email, .passwordCompare]⟩
        else if user.Status ≠ "active" then
          ⟨.err (.api ErrUserNotActive), w, [.userLookup req.Email, .passwordCompare]⟩
        else
          let scope : String × String :=
            match s.userRepo.GetUserRoles w.db user.ID with
            | .ok (r :: _) => (r.TenantID, r.UnitID)
            | _ => ("", "")
          let tenantID := scope.1
          let unitID := scope.2
          let db1 := (s.userRepo.UpdateLastLogin w.db now user.ID tenantID unitID).1
          let accessToken := (GenerateAccessToken s.jwtService now ids.accessJTI user.ID tenantID unitID).1
          let refresh := GenerateRefreshToken s.jwtService now ids.refreshJTI
          let refreshTokenString := refresh.1
          let jti := refresh.2
          let refreshToken : RefreshToken :=
            { ID := ids.recordID
              JTI := .text jti
              UserID := user.ID
              TenantID := some tenantID
              UnitID := some unitID
              TokenHash := refreshTokenString
              ExpiresAt := now + secondsDuration s.config.RefreshTokenTTL
              DeviceInfo := [("login_method", "password")] }
          let db2 := (s.tokenRepo.CreateRefreshToken db1 now refreshToken).1
          ⟨.ok { AccessToken := accessToken
                 RefreshToken := refreshTokenString
                 ExpiresIn := s.config.AccessTokenTTL
                 TokenType := "Bearer"
                 UserID := user.ID
                 TenantID := tenantID
                 UnitID := unitID },
           { w with db := db2 },
           [.userLookup req.Email, .passwordCompare, .accessTokenMinted accessToken,
            .refreshTokenMinted refreshTokenString]⟩

/-- The method `authService.LoginWithPassword` at time `now`.  The errors of the cache calls
are dropped as in the source: a failed `Get` is not "blocked", a failed `Incr` leaves
`attempts` at 0. -/
def authService.LoginWithPassword (s : authService) (w : World) (now : Int) (ids : FreshIDs)
    (req : LoginRequest) : Outcome LoginResponse :=
  let key := attemptsKey req.Email
  let blockKey := blockKey req.Email
  if w.redis.Get now blockKey = .ok (.int 1) then ⟨.err blockedError, w, []⟩
  else
    let incr := w.redis.Incr now key
    let attempts : Int := incr.2.getD 0
    let r1 := if attempts = 1 then incr.1.Expire now key (15 * Minute) else incr.1
    if attempts > 5 then
      ⟨.err blockedError, { w with redis := (r1.Set now blockKey (.int 1) (30 * Minute)).1 }, []⟩
    else s.authenticate { w with redis := r1 } now ids req

/-- The method `authService.RefreshToken` at time `now`. -/
def authService.RefreshToken (s : authService) (w : World) (now : Int) (ids : FreshIDs)
    (req : RefreshTokenRequest) : Outcome LoginResponse :=
  if req.RefreshToken = .text "" then
    ⟨.err (.api (ErrInvalidInput.WithDetails "refresh token required")), w, []⟩
  else
    match ValidateToken s.jwtService now req.RefreshToken with
    | .err _ => ⟨.err (.api (ErrInvalidInput.WithDetails "invalid refresh token")), w, []⟩
    | .ok _ =>
      match s.tokenRepo.GetRefreshToken w.db req.RefreshToken with
      | .err e => ⟨.err e, w, []⟩
      | .ok refreshToken =>
        if refreshToken.Revoked then ⟨.err (.api ErrTokenRevoked), w, []⟩
        else if After now refreshToken.ExpiresAt then ⟨.err (.api ErrTokenExpired), w, []⟩
        else
          match s.userRepo.GetUserByID w.db refreshToken.UserID with
          | .err e => ⟨.err e, w, [.userLookup refreshToken.UserID]⟩
          | .ok user =>
            if user.Status ≠ "active" then
              ⟨.err (.api ErrUserNotActive), w, [.userLookup refreshToken.UserID]⟩
            else
              let tenantID := refreshToken.TenantID.getD ""
              let unitID := refreshToken.UnitID.getD ""
              let accessToken :=
                (GenerateAccessToken s.jwtService now ids.accessJTI user.ID tenantID unitID).1
              ⟨.ok { AccessToken := accessToken
                     RefreshToken := req.RefreshToken
                     ExpiresIn := s.config.AccessTokenTTL
                     TokenType := "Bearer"
                     UserID := user.ID
                     TenantID := tenantID
                     UnitID := unitID },
               w, [.userLookup refreshToken.UserID, .accessTokenMinted accessToken]⟩

/-- The method `authService.RevokeToken`. -/
def authService.RevokeToken (s : authService) (w : World) (now : Int) (jti : TokenString) :
    World × Option GoError :=
  if jti = .text "" then (w, some (.api (ErrInvalidInput.WithDetails "JTI required")))
  else
    match s.tokenRepo.RevokeRefreshToken w.db now jti "manual revocation" with
    | (_, some e) => (w, some e)
    | (db1, none) => ({ w with db := db1 }, none)

/-- The method `authService.LoginWithWhatsApp` at time `now`. -/
def authService.LoginWithWhatsApp (s : authService) (w : World) (now : Int) (ids : FreshIDs)
    (req : WhatsAppLoginRequest) : Outcome LoginResponse :=
  if req.Phone = "" then ⟨.err (.api (ErrMissingRequired.WithDetails "phone required")), w, []⟩
  else if req.OTP = "" then ⟨.err (.api (ErrMissingRequired.WithDetails "OTP required")), w, []⟩
  else
    match s.tokenRepo.GetOTPCode w.db now req.Phone "login" with
    | .err _ => ⟨.err (.api ErrOTPInvalid), w, []⟩
    | .ok otpCode =>
      if After now otpCode.ExpiresAt then ⟨.err (.api ErrOTPExpired), w, []⟩
      else if otpCode.Used then ⟨.err (.api ErrOTPAlreadyUsed), w, []⟩
      else if otpCode.Attempts ≥ otpCode.MaxAttempts then ⟨.err (.api ErrOTPMaxAttempts), w, []⟩
      else if s.utils.VerifyOTP req.OTP otpCode.CodeHash = false then
        ⟨.err (.api ErrOTPInvalid), w, []⟩
      else
        match s.tokenRepo.UseOTPCode w.db now otpCode.ID with
        | (db1, some e) => ⟨.err e, { w with db := db1 }, [.otpMarkedUsed otpCode.ID]⟩
        | (db1, none) =>
          let w1 : World := { w with db := db1 }
          match s.userRepo.GetUserByPhone db1 req.Phone with
          | .err e => ⟨.err e, w1, [.otpMarkedUsed otpCode.ID, .userLookup req.Phone]⟩
          | .ok user =>
            let accessToken :=
              (GenerateAccessToken s.jwtService now ids.accessJTI user.ID user.TenantID user.UnitID).1
            let refreshToken := (GenerateRefreshToken s.jwtService now ids.refreshJTI).1
            ⟨.ok { AccessToken := accessToken
                   RefreshToken := refreshToken
                   UserID := user.ID
                   TenantID := user.TenantID
                   UnitID := user.UnitID },
             w1,
             [.otpMarkedUsed otpCode.ID, .userLookup req.Phone, .accessTokenMinted accessToken,
              .refreshTokenMinted refreshToken]⟩

/-- The method `authService.RevokeAllUserTokens`. -/
def authService.RevokeAllUserTokens (s : authService) (w : World) (now : Int) (userID : String) :
    World × Option GoError :=
  if userID = "" then (w, some (.api (ErrInvalidInput.WithDetails "userID required")))
  else
    match s.tokenRepo.RevokeAllUserTokens w.db now userID "manual revocation" with
    | (_, some e) => (w, some e)
    | (db1, none) => ({ w with db := db1 }, none)

/-- What one `SendWhatsAppOTP` call takes from outside while it runs: the random values it
draws (the code from `utils.GenerateOTP(6)`, the salt inside `utils.HashOTP`, the id from
`uuid.New()`) and whether the cache still answers when the call, having read the counter,
hashed, stored and sent the code, comes to write the counter. -/
structure OTPDraw where
  code : String
  salt : String
  id : String
  cacheUpAtWrite : Bool := true
  deriving DecidableEq, Repr

/-- The cache key of the issuance throttle of a phone. -/
def otpRateKey (phone : String) : String := "otp_rate_limit:" ++ phone

/-- The expression `s.redis.Get(ctx, key).Int()`: the count and whether the error is one
that `SendWhatsAppOTP` returns on (anything but nil and `redis.Nil`). -/
def Redis.GetInt (r : Redis) (now : Int) (key : String) : Int × Bool :=
  match r.Get now key with
  | .ok (.int n) => (n, false)
  | .ok (.text _) => (0, true)
  | .nil => (0, false)
  | .fail => (0, true)

/-- The method `authService.SendWhatsAppOTP` at time `now`.  An error of the final `Set` is
logged as a warning and the call returns nil all the same. -/
def authService.SendWhatsAppOTP (s : authService) (w : World) (now : Int) (draw : OTPDraw)
    (phone : String) : Outcome Unit :=
  let rateLimitKey := otpRateKey phone
  let got := w.redis.GetInt now rateLimitKey
  let count := got.1
  if got.2 then ⟨.err (.errorf "failed to check rate limit"), w, []⟩
  else if count ≥ 3 then
    ⟨.err (.api (ErrTooManyAttempts.WithDetails "too many OTP requests")), w, []⟩
  else
    let otp := draw.code
    match s.utils.HashOTP draw.salt otp with
    | .err _ => ⟨.err (.errorf "failed to hash OTP"), w, []⟩
    | .ok otpHash =>
      let otpCode : OTPCode :=
        { ID := draw.id
          Phone := phone
          Code := otp
          CodeHash := otpHash
          Purpose := "login"
          ExpiresAt := now + 5 * Minute
          MaxAttempts := 3 }
      match s.tokenRepo.CreateOTPCode w.db now otpCode with
      | (db1, some e) => ⟨.err e, { w with db := db1 }, [.otpPersisted otpCode]⟩
      | (db1, none) =>
        match s.whatsappSvc.SendLoginOTP phone otp with
        | some e => ⟨.err e, { w with db := db1 }, [.otpPersisted otpCode, .otpSent phone otp]⟩
        | none =>
          let set : Redis × Option GoError :=
            if draw.cacheUpAtWrite then w.redis.Set now rateLimitKey (.int (count + 1)) Hour
            else (w.redis, some (.errorf "redis: connection refused"))
          ⟨.ok (), { redis := set.1, db := db1 }, [.otpPersisted otpCode, .otpSent phone otp]⟩

/-- The method `jwtService.RotateKeys`: a placeholder that returns an error and leaves the
service as it is. -/
def jwtService.RotateKeys (s : jwtService) : jwtService × Option GoError :=
  (s, some (.errorf "key rotation not implemented - requires HSM integration"))

/-! ## Package `hsm` -/

/-- The struct `config.HSMConfig` (the field the key manager reads). -/
structure HSMConfig where
  KeyID : String
  deriving DecidableEq, Repr

/-- The struct `MockHSMClient`: the map from key id to key pair, as an association list. -/
structure MockHSMClient where
  config : HSMConfig
  keys : List (String × Nat)
  deriving DecidableEq, Repr

/-- The map read `m.keys[keyID]`. -/
def MockHSMClient.key? (m : MockHSMClient) (keyID : String) : Option Nat :=
  (m.keys.find? fun e => decide (e.1 = keyID)).map fun e => e.2

/-- The method `MockHSMClient.GenerateKeyPair`: the key pair `fresh` that `rsa.GenerateKey`
draws replaces whatever the map holds under the configured key id. -/
def MockHSMClient.GenerateKeyPair (m : MockHSMClient) (fresh : Nat) : MockHSMClient × Nat :=
  ({ m with keys :=
      (m.config.KeyID, fresh) :: m.keys.filter fun e => !decide (e.1 = m.config.KeyID) }, fresh)

/-- The method `MockHSMClient.GetPrivateKey`: the stored key, or a newly generated one. -/
def MockHSMClient.GetPrivateKey (m : MockHSMClient) (fresh : Nat) (keyID : String) :
    MockHSMClient × Nat :=
  match m.key? keyID with
  | some k => (m, k)
  | none => m.GenerateKeyPair fresh

/-- The method `MockHSMClient.RotateKey`: a new key pair is generated, nothing else. -/
def MockHSMClient.RotateKey (m : MockHSMClient) (fresh : Nat) (_keyID : String) :
    MockHSMClient × Nat :=
  m.GenerateKeyPair fresh

/-- The struct `KeyManager`. -/
structure KeyManager where
  hsmClient : MockHSMClient
  config : HSMConfig
  deriving DecidableEq, Repr

/-- The method `KeyManager.GetCurrentPrivateKey`. -/
def KeyManager.GetCurrentPrivateKey (km : KeyManager) (fresh : Nat) : KeyManager × Nat :=
  ({ km with hsmClient := (km.hsmClient.GetPrivateKey fresh km.config.KeyID).1 },
   (km.hsmClient.GetPrivateKey fresh km.config.KeyID).2)

/-- The method `KeyManager.RotateKeys`. -/
def KeyManager.RotateKeys (km : KeyManager) (fresh : Nat) : KeyManager × Option GoError :=
  ({ km with hsmClient := (km.hsmClient.RotateKey fresh km.config.KeyID).1 }, none)

/-! ## Character classes (package `unicode`) and password policy -/

/-- The predicates of the Go package `unicode` that the password checks call, with
`strings.ToLower`; the tables behind them are taken as given. -/
structure UnicodeTables where
  IsUpper : Char → Bool
  IsLower : Char → Bool
  IsDigit : Char → Bool
  IsNumber : Char → Bool
  IsPunct : Char → Bool
  IsSymbol : Char → Bool
  ToLower : String → String

/-- The ASCII characters of the general category P (punctuation). -/
def asciiPunct : List Char :=
  ['!', Char.ofNat 34, '#', '%', '&', Char.ofNat 39, '(', ')', '*', ',', '-', '.', '/', ':', ';',
   '?', '@', '[', Char.ofNat 92, ']', '_', Char.ofNat 123, Char.ofNat 125]

/-- The ASCII characters of the general category S (symbols). -/
def asciiSymbol : List Char := ['$', '+', '<', '=', '>', '^', Char.ofNat 96, '|', '~']

/-- The tables cut down to ASCII: the classes of the characters below U+0080 are those of
the Unicode tables, a character from U+0080 on is in no class and is left alone by
`ToLower`. -/
def asciiTables : UnicodeTables :=
  { IsUpper := fun c => decide (65 ≤ c.toNat) && decide (c.toNat ≤ 90)
    IsLower := fun c => decide (97 ≤ c.toNat) && decide (c.toNat ≤ 122)
    IsDigit := fun c => decide (48 ≤ c.toNat) && decide (c.toNat ≤ 57)
    IsNumber := fun c => decide (48 ≤ c.toNat) && decide (c.toNat ≤ 57)
    IsPunct := fun c => asciiPunct.contains c
    IsSymbol := fun c => asciiSymbol.contains c
    ToLower := fun s => String.mk (s.data.map Char.toLower) }

/-- What the properties use of the Unicode tables: a character has one general category (so
the classes Lu, Ll, N, P and S exclude each other, and a decimal digit is a number), and
below U+0080 the classes are the ones listed in `asciiTables`. -/
structure UnicodeTables.Sound (u : UnicodeTables) : Prop where
  lower_not_upper : ∀ c, u.IsLower c = true → u.IsUpper c = false
  number_not_letter : ∀ c, u.IsNumber c = true → u.IsUpper c = false ∧ u.IsLower c = false
  digit_number : ∀ c, u.IsDigit c = true → u.IsNumber c = true
  special_not_alnum : ∀ c, (u.IsPunct c || u.IsSymbol c) = true →
    u.IsUpper c = false ∧ u.IsLower c = false ∧ u.IsNumber c = false
  ascii : ∀ c : Char, c.toNat < 128 →
    u.IsUpper c = asciiTables.IsUpper c ∧ u.IsLower c = asciiTables.IsLower c ∧
    u.IsDigit c = asciiTables.IsDigit c ∧ u.IsNumber c = asciiTables.IsNumber c ∧
    u.IsPunct c = asciiTables.IsPunct c ∧ u.IsSymbol c = asciiTables.IsSymbol c

/-- The flags `hasUpper, hasLower, hasNumber, hasSpecial` of the two password checks. -/
structure PasswordFlags where
  hasUpper : Bool := false
  hasLower : Bool := false
  hasNumber : Bool := false
  hasSpecial : Bool := false
  deriving DecidableEq, Repr

namespace service

/-- The map `commonPasswords` of `service/password.go`. -/
def commonPasswords : List String :=
  ["123456", "password", "123456789", "qwerty", "abc123", "password1"]

/-- The struct `PasswordPolicyError`; its `Error()` is the reason. -/
structure PasswordPolicyError where
  Reason : String
  deriving DecidableEq, Repr

/-- The characters of the class that the regular expression of `ValidatePassword` matches:
`! @ # $ % ^ & * - _`. -/
def specialChars : List Char := ['!', '@', '#', '$', '%', '^', '&', '*', '-', '_']

/-- One turn of the loop of `ValidatePassword`: the `switch` takes the first case that
holds for the character. -/
def flagsStep (u : UnicodeTables) (f : PasswordFlags) (c : Char) : PasswordFlags :=
  if u.IsUpper c then { f with hasUpper := true }
  else if u.IsLower c then { f with hasLower := true }
  else if u.IsDigit c then { f with hasNumber := true }
  else if specialChars.contains c then { f with hasSpecial := true }
  else f

/-- The function `ValidatePassword` of package `service` (`len` counts bytes). -/
def ValidatePassword (u : UnicodeTables) (password : String) : Option PasswordPolicyError :=
  if password.utf8ByteSize < 8 then
    some { Reason := "La contraseña debe tener al menos 8 caracteres." }
  else
    let f := password.data.foldl (flagsStep u) {}
    if !f.hasUpper then some { Reason := "Debe contener al menos una mayúscula." }
    else if !f.hasLower then some { Reason := "Debe contener al menos una minúscula." }
    else if !f.hasNumber then some { Reason := "Debe contener al menos un número." }
    else if !f.hasSpecial then some { Reason := "Debe contener al menos un carácter especial." }
    else if commonPasswords.contains password then
      some { Reason := "La contraseña es demasiado común." }
    else none

end service

namespace utils

/-- The variable `minPasswordLength`. -/
def minPasswordLength : Nat := 8

/-- The map `weakPasswords` of `utils/validation.go`. -/
def weakPasswords : List String :=
  ["password", "123456", "123456789", "qwerty", "abc123", "password123", "admin", "letmein",
   "welcome", "monkey", "12345678", "qwerty123", "1q2w3e4r", "admin123", "root", "toor", "pass",
   "test", "guest", "user"]

/-- One turn of the loop of `ValidatePassword`: the `switch` takes the first case that
holds for the character. -/
def flagsStep (u : UnicodeTables) (f : PasswordFlags) (c : Char) : PasswordFlags :=
  if u.IsUpper c then { f with hasUpper := true }
  else if u.IsLower c then { f with hasLower := true }
  else if u.IsNumber c then { f with hasNumber := true }
  else if u.IsPunct c || u.IsSymbol c then { f with hasSpecial := true }
  else f

/-- The list `missingRequirements` that `ValidatePassword` builds from the flags. -/
def missingRequirements (f : PasswordFlags) : List String :=
  (if !f.hasUpper then ["uppercase letter"] else []) ++
  (if !f.hasLower then ["lowercase letter"] else []) ++
  (if !f.hasNumber then ["number"] else []) ++
  (if !f.hasSpecial then ["special character"] else [])

/-- The function `ValidatePassword` of package `utils` (`len` counts bytes). -/
def ValidatePassword (u : UnicodeTables) (password : String) : Option GoError :=
  if password = "" then some (.api (ErrMissingRequired.WithDetails "password is required"))
  else if password.utf8ByteSize < minPasswordLength then
    some (.api (ErrWeakPassword.WithDetails "password must be at least 8 characters"))
  else if password.utf8ByteSize > 128 then
    some (.api (ErrInvalidFormat.WithDetails "password too long (max 128 characters)"))
  else if weakPasswords.contains (u.ToLower password) then
    some (.api (ErrWeakPassword.WithDetails "password is too common and weak"))
  else
    let f := password.data.foldl (flagsStep u) {}
    let missing := missingRequirements f
    if missing.length > 0 then
      some (.api (ErrWeakPassword.WithDetails
        ("password must contain: " ++ ", ".intercalate missing)))
    else none

end utils

/-! ## Registration -/

/-- The struct `models.CreateUserRequest`. -/
structure CreateUserRequest where
  Email : String
  Phone : String := ""
  Name : String
  Password : String
  TenantID : String
  TermsAccepted : Bool
  deriving DecidableEq, Repr

/-- The method `authService.RegisterUser`; `id` is the value of `uuid.New()`, `u` the Unicode
tables read by `ValidatePassword`.  The user it builds carries the email, the phone, the name
and the status `inactive`; the tenant of the request is not copied into it. -/
def authService.RegisterUser (s : authService) (u : UnicodeTables) (w : World) (now : Int)
    (id : String) (req : CreateUserRequest) : World × Result User :=
  if (s.utils.ValidateEmail req.Email).isSome then
    (w, .err (.api (ErrInvalidInput.WithDetails "INVALID_EMAIL_FORMAT")))
  else if (s.utils.ValidateName req.Name "Nombre").isSome then
    (w, .err (.api (ErrInvalidInput.WithDetails "MISSING_REQUIRED_FIELDS")))
  else if (s.utils.ValidateUUID req.TenantID).isSome then
    (w, .err (.api (ErrInvalidInput.WithDetails "MISSING_REQUIRED_FIELDS")))
  else if !req.TermsAccepted then
    (w, .err (.api (ErrInvalidInput.WithDetails "TERMS_NOT_ACCEPTED")))
  else
    match s.userRepo.EmailExists w.db req.Email with
    | .err e => (w, .err e)
    | .ok true => (w, .err (.api (ErrEmailAlreadyExists.WithDetails "EMAIL_ALREADY_EXISTS")))
    | .ok false =>
      if req.Password = "" then
        (w, .err (.api (ErrInvalidInput.WithDetails "MISSING_REQUIRED_FIELDS")))
      else
        match service.ValidatePassword u req.Password with
        | some e => (w, .err (.api (ErrInvalidInput.WithDetails ("WEAK_PASSWORD: " ++ e.Reason))))
        | none =>
          let user : User :=
            { ID := id, Email := req.Email, Phone := req.Phone, Name := req.Name,
              Status := "inactive", PasswordHash := "", TenantID := "", UnitID := "" }
          match s.utils.HashPassword req.Password with
          | .err e => (w, .err (.errorf ("failed to hash password: " ++ e.Error)))
          | .ok hashedPassword =>
            let user := { user with PasswordHash := hashedPassword }
            match s.userRepo.CreateUser w.db now user with
            | (_, some e) => (w, .err e)
            | (db, none) =>
              ({ w with db := db }, .ok { user with CreatedAt := now, UpdatedAt := now })

/-! ## Package `config` -/

/-- The process environment: the variables that are set, with their values. -/
abbrev Env := List (String × String)

/-- The call `os.Getenv(key)`: the value of the variable, empty when it is not set. -/
def Getenv (env : Env) (key : String) : String := (env.lookup key).getD ""

/-- The function `getEnv`: the default stands in for an unset or empty variable. -/
def getEnv (env : Env) (key defaultValue : String) : String :=
  if Getenv env key ≠ "" then Getenv env key else defaultValue

/-- The function `strconv.Atoi`: an optional sign and a non-empty run of decimal digits,
within the range of `int`. -/
def Atoi (s : String) : Option Int :=
  let (neg, ds) : Bool × List Char :=
    match s.data with
    | '-' :: r => (true, r)
    | '+' :: r => (false, r)
    | r => (false, r)
  if ds.isEmpty || !ds.all (fun c => decide (48 ≤ c.toNat) && decide (c.toNat ≤ 57)) then none
  else
    let v : Int := ds.foldl (fun a c => 10 * a + ((c.toNat : Int) - 48)) 0
    let n : Int := if neg then -v else v
    if inInt64 n then some n else none

/-- The function `getEnvAsInt`: the default stands in for an unset, empty or unparsable
variable. -/
def getEnvAsInt (env : Env) (key : String) (defaultValue : Int) : Int :=
  if Getenv env key ≠ "" then
    match Atoi (Getenv env key) with
    | some intValue => intValue
    | none => defaultValue
  else defaultValue

/-- The struct `config.DatabaseConfig` (the fields that make the connection URL). -/
structure DatabaseConfig where
  Host : String
  Port : Int
  Database : String
  Username : String
  Password : String
  SSLMode : String
  URL : String
  deriving DecidableEq, Repr

/-- The struct `config.RedisConfig` (the fields that make the address). -/
structure RedisConfig where
  Host : String
  Port : Int
  Password : String
  Database : Int
  Address : String
  deriving DecidableEq, Repr

/-- The struct `config.Config`: the database and the cache section; the other sections are
read from the environment in the same way, each from variables of its own. -/
structure Config where
  Database : DatabaseConfig
  Redis : RedisConfig
  deriving DecidableEq, Repr

/-- The function `config.Load` over the environment left by `godotenv.Load()`; it returns a
nil error on every path. -/
def Load (env : Env) : Config :=
  let config : Config :=
    { Database :=
        { Host := getEnv env "DB_HOST" "localhost"
          Port := getEnvAsInt env "DB_PORT" 5432
          Database := getEnv env "DB_NAME" "smartedify_auth"
          Username := getEnv env "DB_USER" "postgres"
          Password := getEnv env "DB_PASSWORD" ""
          SSLMode := getEnv env "DB_SSL_MODE" "require"
          URL := getEnv env "DATABASE_URL" "" }
      Redis :=
        { Host := getEnv env "REDIS_HOST" "localhost"
          Port := getEnvAsInt env "REDIS_PORT" 6379
          Password := getEnv env "REDIS_PASSWORD" ""
          Database := getEnvAsInt env "REDIS_DB" 0
          Address := getEnv env "REDIS_ADDRESS" "localhost:6379" } }
  let config : Config :=
    if config.Database.URL = "" then
      let url : String :=
        "postgres://" ++ config.Database.Username ++ ":" ++ config.Database.Password ++ "@" ++
        config.Database.Host ++ ":" ++ toString config.Database.Port ++ "/" ++
        config.Database.Database ++ "?sslmode=" ++ config.Database.SSLMode
      { config with Database := { config.Database with URL := url } }
    else config
  if config.Redis.Address = "" then
    let address : String := config.Redis.Host ++ ":" ++ toString config.Redis.Port
    { config with Redis := { config.Redis with Address := address } }
  else config

/-! ## Package `utils`: one-time codes, base64 and the key set -/

/-- A byte. -/
abbrev Byte := Fin 256

/-- The low eight bits of a number, as a byte. -/
def toByte (n : Nat) : Byte := ⟨n % 256, Nat.mod_lt _ (by decide)⟩

/-- The verb `%0*d` of `fmt.Sprintf` on a number that is not negative: its decimal digits,
zeros added on the left up to the width. -/
def padDecimal (width n : Nat) : String :=
  String.mk (List.replicate (width - (Nat.toDigits 10 n).length) '0' ++ Nat.toDigits 10 n)

/-- The function `GenerateOTP`; `rand max` is the number that `rand.Int(rand.Reader, max)`
draws below `max`. -/
def GenerateOTP (rand : Nat → Nat) (length : Int) : Result String :=
  let length : Int := if length < 4 ∨ length > 8 then 6 else length
  let max : Nat := (List.range length.toNat).foldl (fun m _ => m * 10) 1
  let num := rand max
  .ok (padDecimal length.toNat num)

/-- A base64 encoding without padding: its alphabet of 64 characters. -/
structure Encoding where
  alphabet : List Char
  deriving DecidableEq, Repr

/-- The encoding `base64.RawStdEncoding`. -/
def RawStdEncoding : Encoding :=
  { alphabet := "ABCDEFGHIJKLMNOPQRSTUVWXYZabcdefghijklmnopqrstuvwxyz0123456789+/".data }

/-- The encoding `base64.RawURLEncoding`. -/
def RawURLEncoding : Encoding :=
  { alphabet := "ABCDEFGHIJKLMNOPQRSTUVWXYZabcdefghijklmnopqrstuvwxyz0123456789-_".data }

/-- The character of a 6-bit value. -/
def Encoding.char (enc : Encoding) (i : Nat) : Char := enc.alphabet.getD i 'A'

/-- The 6-bit value of a character, if it is in the alphabet. -/
def Encoding.value (enc : Encoding) (c : Char) : Option Nat :=
  if enc.alphabet.indexOf c < 64 then some (enc.alphabet.indexOf c) else none

/-- The 6-bit groups of a byte string: three bytes make four groups, a rest of two bytes
makes three and a rest of one byte makes two. -/
def encodeSextets : List Byte → List Nat
  | a :: b :: c :: rest =>
    a.val / 4 :: (a.val % 4 * 16 + b.val / 16) :: (b.val % 16 * 4 + c.val / 64) :: c.val % 64 ::
      encodeSextets rest
  | [a, b] => [a.val / 4, a.val % 4 * 16 + b.val / 16, b.val % 16 * 4]
  | [a] => [a.val / 4, a.val % 4 * 16]
  | [] => []

/-- The bytes of a run of 6-bit groups: four groups make three bytes, a rest of three makes
two and a rest of two makes one (the bits left over are dropped); a rest of one group is
corrupt input. -/
def decodeSextets : List Nat → Option (List Byte)
  | w :: x :: y :: z :: rest =>
    (decodeSextets rest).map fun bs =>
      toByte (w * 4 + x / 16) :: toByte (x % 16 * 16 + y / 4) :: toByte (y % 4 * 64 + z) :: bs
  | [w, x, y] => some [toByte (w * 4 + x / 16), toByte (x % 16 * 16 + y / 4)]
  | [w, x] => some [toByte (w * 4 + x / 16)]
  | [_] => none
  | [] => some []

/-- The 6-bit values of a run of characters; a character outside the alphabet is corrupt
input. -/
def Encoding.values (enc : Encoding) : List Char → Option (List Nat)
  | [] => some []
  | c :: cs =>
    match enc.value c, enc.values cs with
    | some v, some vs => some (v :: vs)
    | _, _ => none

/-- The method `EncodeToString`. -/
def Encoding.EncodeToString (enc : Encoding) (src : List Byte) : String :=
  String.mk ((encodeSextets src).map enc.char)

/-- The method `DecodeString`, with `none` for a `CorruptInputError`: line breaks in the
input are skipped. -/
def Encoding.DecodeString (enc : Encoding) (s : String) : Option (List Byte) :=
  match enc.values (s.data.filter fun c => !(c == '\r' || c == '\n')) with
  | some vs => decodeSextets vs
  | none => none

/-- The call `strings.Split(s, sep)` for a separator of one character, on the characters
of `s`. -/
def splitChar (sep : Char) : List Char → List (List Char)
  | [] => [[]]
  | c :: cs =>
    if c = sep then [] :: splitChar sep cs
    else
      match splitChar sep cs with
      | [] => [[c]]
      | part :: parts => (c :: part) :: parts

/-- The function `argon2.IDKey(password, salt, time, memory, threads, keyLen)`, taken as
given. -/
structure Argon2 where
  IDKey : String → List Byte → Nat → Nat → Nat → Nat → List Byte

/-- The function `HashOTP`; `salt` is the value of `GenerateRandomBytes(16)`. -/
def HashOTP (a : Argon2) (salt : List Byte) (otp : String) : Result String :=
  let hash := a.IDKey otp salt 1 (32 * 1024) 2 32
  let encodedSalt := RawStdEncoding.EncodeToString salt
  let encodedHash := RawStdEncoding.EncodeToString hash
  .ok (encodedSalt ++ "$" ++ encodedHash)

/-- The function `VerifyOTP`; `subtle.ConstantTimeCompare` is 1 on equal byte strings
only. -/
def VerifyOTP (a : Argon2) (otp hashedOTP : String) : Bool :=
  match splitChar '$' hashedOTP.data with
  | [part0, part1] =>
    match RawStdEncoding.DecodeString (String.mk part0) with
    | none => false
    | some salt =>
      match RawStdEncoding.DecodeString (String.mk part1) with
      | none => false
      | some expectedHash =>
        let actualHash := a.IDKey otp salt 1 (32 * 1024) 2 32
        decide (expectedHash = actualHash)
  | _ => false

/-- The bytes of a number, lowest first, by repeated division; `fuel` bounds the number of
bytes. -/
def bytesLE : Nat → Nat → List Byte
  | 0, _ => []
  | fuel + 1, n => if n = 0 then [] else toByte (n % 256) :: bytesLE fuel (n / 256)

/-- The method `(*big.Int).Bytes` on a number that is not negative: its big-endian bytes,
without leading zeros. -/
def Bytes (n : Nat) : List Byte := (bytesLE n n).reverse

/-- The struct `rsa.PublicKey`: modulus and public exponent. -/
structure RSAPublicKey where
  N : Nat
  E : Int
  deriving DecidableEq, Repr

/-- The struct `JWK`. -/
structure JWK where
  KeyType : String
  KeyID : String
  Use : String
  Algorithm : String
  N : String
  E : String
  deriving DecidableEq, Repr

/-- The struct `JWKSResponse`. -/
structure JWKSResponse where
  Keys : List JWK
  deriving DecidableEq, Repr

/-- The method `jwtService.GenerateJWKS`; `publicKey` is the modulus and exponent of the
key pair that the service holds. -/
def GenerateJWKS (s : jwtService) (publicKey : RSAPublicKey) : Result JWKSResponse :=
  let n := Bytes publicKey.N
  let e := Bytes publicKey.E.natAbs
  let nEncoded := RawURLEncoding.EncodeToString n
  let eEncoded := RawURLEncoding.EncodeToString e
  let jwk : JWK :=
    { KeyType := "RSA", KeyID := s.keyID, Use := "sig", Algorithm := "RS256", N := nEncoded,
      E := eEncoded }
  .ok { Keys := [jwk] }

/-! ## The mock user repository

A Go map is the list of its keys with their values, each key once; the users are stored by
value, an update through the stored pointer is a write of the changed user under its key.
-/

/-- The assignment `m[k] = v` of a Go map. -/
def mapSet {α : Type} (m : List (String × α)) (k : String) (v : α) : List (String × α) :=
  (k, v) :: m.filter fun e => !decide (e.1 = k)

/-- The struct `MockDB`. -/
structure MockDB where
  Users : List (String × User) := []
  EmailTenantIndex : List (String × String) := []
  deriving DecidableEq, Repr

namespace MockUserRepository

/-- The constructor `NewMockDB`: two empty maps. -/
def NewMockDB : MockDB := {}

/-- The method `GetUserByEmailAndTenant`. -/
def GetUserByEmailAndTenant (db : MockDB) (email tenantID : String) : Result User :=
  let key := email ++ ":" ++ tenantID
  match db.EmailTenantIndex.lookup key with
  | none => .err (.api ErrUserNotFound)
  | some userID =>
    match db.Users.lookup userID with
    | none => .err (.api ErrUserNotFound)
    | some user => .ok user

/-- The method `CreateUser`. -/
def CreateUser (db : MockDB) (now : Int) (user : User) : MockDB × Option GoError :=
  let emailTenantKey := user.Email ++ ":" ++ user.TenantID
  if (db.EmailTenantIndex.lookup emailTenantKey).isSome then
    (db, some (.api ErrEmailAlreadyExists))
  else
    let user := { user with CreatedAt := now, UpdatedAt := now }
    let userID := user.ID
    ({ Users := mapSet db.Users userID user
       EmailTenantIndex := mapSet db.EmailTenantIndex emailTenantKey userID }, none)

/-- The method `GetUserByID`. -/
def GetUserByID (db : MockDB) (id : String) : Result User :=
  match db.Users.lookup id with
  | none => .err (.api ErrUserNotFound)
  | some user => .ok user

/-- A write through the pointer stored under `userID`: `ErrUserNotFound` when the key is
absent. -/
def modify (db : MockDB) (userID : String) (f : User → User) : MockDB × Option GoError :=
  match db.Users.lookup userID with
  | none => (db, some (.api ErrUserNotFound))
  | some user => ({ db with Users := mapSet db.Users userID (f user) }, none)

/-- The method `UpdateLastLogin`. -/
def UpdateLastLogin (db : MockDB) (now : Int) (userID ipAddress _userAgent : String) :
    MockDB × Option GoError :=
  modify db userID fun user =>
    { user with LastLoginAt := some now, LastLoginIP := ipAddress, UpdatedAt := now }

/-- The method `IncrementFailedLogins`. -/
def IncrementFailedLogins (db : MockDB) (now : Int) (userID : String) : MockDB × Option GoError :=
  modify db userID fun user =>
    { user with FailedLogins := wrapInt64 (user.FailedLogins + 1), UpdatedAt := now }

/-- The method `LockUser`. -/
def LockUser (db : MockDB) (now : Int) (userID : String) (durationMinutes : Int) :
    MockDB × Option GoError :=
  modify db userID fun user =>
    let lockedUntil : Int :=
      if durationMinutes ≤ 0 then now + 1 * Second
      else now + wrapInt64 (durationMinutes * Minute)
    { user with LockedUntil := some lockedUntil, Status := "locked", UpdatedAt := now }

/-- The method `EmailExistsInTenant`. -/
def EmailExistsInTenant (db : MockDB) (email tenantID : String) : Result Bool :=
  .ok (db.EmailTenantIndex.lookup (email ++ ":" ++ tenantID)).isSome

/-- The method `ResetFailedLogins`. -/
def ResetFailedLogins (db : MockDB) (now : Int) (userID : String) : MockDB × Option GoError :=
  modify db userID fun user => { user with FailedLogins := 0, UpdatedAt := now }

/-- The method `UpdateUser`. -/
def UpdateUser (db : MockDB) (now : Int) (user : User) : MockDB × Option GoError :=
  modify db user.ID fun existing =>
    { existing with
      Email := user.Email, PasswordHash := user.PasswordHash, FirstName := user.FirstName,
      LastName := user.LastName, TenantID := user.TenantID, UnitID := user.UnitID,
      Role := user.Role, Status := user.Status, FailedLogins := user.FailedLogins,
      LockedUntil := user.LockedUntil, UpdatedAt := now }

/-- The method `UpdateUserStatus`. -/
def UpdateUserStatus (db : MockDB) (now : Int) (userID status : String) :
    MockDB × Option GoError :=
  modify db userID fun user => { user with Status := status, UpdatedAt := now }

/-- The method `EmailExists`: a user of any tenant with the email. -/
def EmailExists (db : MockDB) (email : String) : Result Bool :=
  .ok (db.Users.any fun e => decide (e.2.Email = email))

end MockUserRepository

/-! ## Concrete scenarios

A service with one registered user, used to run the operations on explicit inputs.
-/

/-- A token configuration: 15-minute access tokens, 7-day refresh tokens. -/
def demoConfig : JWTConfig :=
  { Issuer := "smartedify-auth", Audience := "smartedify-api", AccessTokenTTL := 900,
    RefreshTokenTTL := 604800, KeyVersion := "key-1" }

/-- A token service over key pair 7. -/
def demoJWT : jwtService := NewJWTService demoConfig 7

/-- Stand-ins for the hashing functions: the hash of `x` is `"h(" ++ x ++ ")"`; every email
of the scenarios is well-formed, and so is every name and tenant id that is not empty. -/
def demoUtils : Utils :=
  { ValidateEmail := fun _ => none
    VerifyPassword := fun password hash => decide (hash = "h(" ++ password ++ ")")
    VerifyOTP := fun otp hash => decide (hash = "h(" ++ otp ++ ")")
    HashOTP := fun _ otp => .ok ("h(" ++ otp ++ ")")
    ValidateName := fun name fieldName =>
      if name = "" then some (.api (ErrMissingRequired.WithDetails (fieldName ++ " is required")))
      else none
    ValidateUUID := fun uuid =>
      if uuid = "" then some (.api (ErrMissingRequired.WithDetails "UUID is required")) else none
    HashPassword := fun password => .ok ("h(" ++ password ++ ")") }

/-- The service wired to the SQL repositories. -/
def demoService : authService :=
  { config := demoConfig, userRepo := sqlUserRepository, tokenRepo := sqlTokenRepository,
    jwtService := demoJWT, utils := demoUtils }

/-- An active user whose password is `"Abcdef1!"`. -/
def ana : User :=
  { ID := "u-1", Email := "ana@example.com", PasswordHash := "h(Abcdef1!)", TenantID := "t-1",
    UnitID := "n-1", Status := "active" }

/-- An empty, reachable cache. -/
def emptyRedis : Redis := { up := true, entries := fun _ => none }

/-- The world with an empty cache and `ana` as the only user. -/
def world0 : World := { redis := emptyRedis, db := { users := [ana] } }

/-- The ids drawn during the scenarios. -/
def demoIDs : FreshIDs := { accessJTI := "jti-a", refreshJTI := "jti-r", recordID := "rec-1" }

/-- Further ids, told apart by a tag. -/
def idsFor (tag : String) : FreshIDs :=
  { accessJTI := "jti-a-" ++ tag, refreshJTI := "jti-r-" ++ tag, recordID := "rec-" ++ tag }

/-- A login request of `ana` with the right password. -/
def goodLogin : LoginRequest := { Email := "ana@example.com", Password := "Abcdef1!" }

/-- A login request of `ana` with a wrong password. -/
def badLogin : LoginRequest := { Email := "ana@example.com", Password := "guess" }

/-- A pending OTP challenge for the phone of `ana`, as `SendWhatsAppOTP` builds it at time 0:
code `"123456"`, five minutes of validity, three attempts. -/
def demoOTP : OTPCode :=
  { ID := "otp-1", Phone := "+51987654321", Code := "123456", CodeHash := "h(123456)",
    Purpose := "login", ExpiresAt := 5 * Minute, MaxAttempts := 3 }

/-- The world in which `demoOTP` has been issued at time 0. -/
def worldOTP : World :=
  { world0 with db := (sqlTokenRepository.CreateOTPCode world0.db 0 demoOTP).1 }

/-- A forged token: the header names the HMAC method `HS256`. -/
def hs256Token : JWS :=
  { header := [("alg", .str "HS256"), ("kid", .str "key-1"), ("typ", .str "JWT")]
    payload := [("sub", .str "u-1"), ("iss", .str "smartedify-auth"), ("aud", .str "smartedify-api")]
    signature :=
      { alg := "HS256", key := 7
        header := [("alg", .str "HS256"), ("kid", .str "key-1"), ("typ", .str "JWT")]
        payload := [("sub", .str "u-1"), ("iss", .str "smartedify-auth"),
                    ("aud", .str "smartedify-api")] } }

/-- The outcomes of a sequence of password logins `(time, ids, request)`, each run in the
world the one before it left. -/
def loginRun (s : authService) : World → List (Int × FreshIDs × LoginRequest) →
    List (Outcome LoginResponse)
  | _, [] => []
  | w, (t, ids, req) :: rest =>
    s.LoginWithPassword w t ids req :: loginRun s (s.LoginWithPassword w t ids req).world rest

/-- The world a sequence of password logins leaves. -/
def loginsFrom (s : authService) : World → List (Int × FreshIDs × LoginRequest) → World
  | w, [] => w
  | w, (t, ids, req) :: rest => loginsFrom s (s.LoginWithPassword w t ids req).world rest

/-- The service with the SQL repositories of the repository package. -/
def sqlService (cfg : JWTConfig) (jwt : jwtService) (utils : Utils) : authService :=
  { config := cfg, userRepo := sqlUserRepository, tokenRepo := sqlTokenRepository,
    jwtService := jwt, utils := utils }

/-- The cache after the rate-limit section of `LoginWithPassword` that did not block. -/
def limited (r : Redis) (now : Int) (email : String) : Redis :=
  if ((r.Incr now (attemptsKey email)).2.getD 0) = 1 then
    (r.Incr now (attemptsKey email)).1.Expire now (attemptsKey email) (15 * Minute)
  else (r.Incr now (attemptsKey email)).1

/-- The attempt counter of an email stands at `n` and expires at `x`, in a reachable cache. -/
def Counting (r : Redis) (email : String) (n x : Int) : Prop :=
  r.up = true ∧ r.entries (attemptsKey email) = some ⟨.int n, some x⟩

/-- The world after `ana` logged in with her password at time 0. -/
def worldLoggedIn : World := (demoService.LoginWithPassword world0 0 demoIDs goodLogin).world

/-- The refresh token that login returned. -/
def anasRefreshToken : TokenString := (GenerateRefreshToken demoJWT 0 "jti-r").1

/-- The outcomes of a sequence of WhatsApp logins `(time, request)`, each run in the world
the one before it left. -/
def otpLoginRun (s : authService) (ids : FreshIDs) : World → List (Int × WhatsAppLoginRequest) →
    List (Outcome LoginResponse)
  | _, [] => []
  | w, (t, req) :: rest =>
    s.LoginWithWhatsApp w t ids req :: otpLoginRun s ids (s.LoginWithWhatsApp w t ids req).world rest

/-- The world a sequence of WhatsApp logins leaves. -/
def otpLoginsFrom (s : authService) (ids : FreshIDs) : World → List (Int × WhatsAppLoginRequest) →
    World
  | w, [] => w
  | w, (t, req) :: rest => otpLoginsFrom s ids (s.LoginWithWhatsApp w t ids req).world rest

/-- The outcomes of a sequence of OTP requests `(time, draw)` for one phone, each run in the
world the one before it left. -/
def sendRun (s : authService) (phone : String) : World → List (Int × OTPDraw) → List (Outcome Unit)
  | _, [] => []
  | w, (t, d) :: rest =>
    s.SendWhatsAppOTP w t d phone :: sendRun s phone (s.SendWhatsAppOTP w t d phone).world rest

/-- The world a sequence of OTP requests for one phone leaves. -/
def sendsFrom (s : authService) (phone : String) : World → List (Int × OTPDraw) → World
  | w, [] => w
  | w, (t, d) :: rest => sendsFrom s phone (s.SendWhatsAppOTP w t d phone).world rest

/-- The caller is rejected by the rate limiter of `LoginWithPassword`: the block flag of the
email reads `"1"`, or the incremented attempt counter exceeds 5. -/
def Redis.blocks (r : Redis) (now : Int) (email : String) : Bool :=
  decide (r.Get now (blockKey email) = .ok (.int 1))
    || decide ((r.Incr now (attemptsKey email)).2.getD 0 > 5)

/-- No record that is revoked in ledger `db` has a record of its jti in `db2` that is not
revoked. -/
def StaysRevoked (db db2 : DB) : Prop :=
  ∀ t ∈ db.refreshTokens, t.Revoked = true →
    ∀ t2 ∈ db2.refreshTokens, t2.JTI = t.JTI → t2.Revoked = true

/-- The draws of the OTP scenarios, told apart by a tag; the code is `"123456"`. -/
def drawFor (tag : String) : OTPDraw :=
  { code := "123456", salt := "salt-" ++ tag, id := "otp-" ++ tag }

/-- The cache of a server that cannot be reached. -/
def downRedis : Redis := { up := false, entries := fun _ => none }

/-- The world of `ana` with the cache unreachable. -/
def worldCacheDown : World := { world0 with redis := downRedis }

/-- The world after six wrong guesses for `ana` in seconds 0 to 5, which set the block flag,
with the cache unreachable from then on. -/
def worldBlockedCacheDown : World :=
  { db := world0.db
    redis :=
      { (loginsFrom demoService world0
          [(0, demoIDs, badLogin), (1 * Second, demoIDs, badLogin),
           (2 * Second, demoIDs, badLogin), (3 * Second, demoIDs, badLogin),
           (4 * Second, demoIDs, badLogin), (5 * Second, demoIDs, badLogin)]).redis with
        up := false } }

/-- The ledger after `ana` logged in at time 0 and her record was revoked at second 1. -/
def worldRevoked : World := (demoService.RevokeToken worldLoggedIn (1 * Second) (.text "jti-r")).1

/-- A second user. -/
def ben : User :=
  { ID := "u-2", Email := "ben@example.com", PasswordHash := "h(Zyxwvu9?)", TenantID := "t-1",
    UnitID := "n-2", Status := "active" }

/-- A ledger with one record of `ana` and one of `ben`, neither revoked. -/
def ledgerTwoUsers : DB :=
  { users := [ana, ben]
    refreshTokens :=
      [{ ID := "rec-2", JTI := .text "jti-ben", UserID := "u-2", TenantID := none, UnitID := none,
         TokenHash := .text "fp-ben", ExpiresAt := 7 * 24 * Hour },
       { ID := "rec-1", JTI := .text "jti-ana", UserID := "u-1", TenantID := none, UnitID := none,
         TokenHash := .text "fp-ana", ExpiresAt := 7 * 24 * Hour }] }

/-- The key manager at start-up: the mock HSM holds key pair 7 under the configured id. -/
def demoKeyManager : KeyManager :=
  { hsmClient := { config := { KeyID := "hsm-key" }, keys := [("hsm-key", 7)] }
    config := { KeyID := "hsm-key" } }

/-- A user registered under the tenant `11111111-1111-1111-1111-111111111111`. -/
def eva : User :=
  { ID := "u-3", Email := "eva@example.com", PasswordHash := "h(Abcdef1!)",
    TenantID := "11111111-1111-1111-1111-111111111111", UnitID := "n-1", Status := "active" }

/-- The world with an empty cache and `eva` as the only user. -/
def worldTenants : World := { redis := emptyRedis, db := { users := [eva] } }

/-- A registration with the email of `eva` under another tenant. -/
def otherTenantRequest : CreateUserRequest :=
  { Email := "eva@example.com", Name := "Eva Luna", Password := "Abcdef1!",
    TenantID := "22222222-2222-2222-2222-222222222222", TermsAccepted := true }

/-- An environment that names the cache host and port, and nothing else. -/
def customRedisEnv : Env := [("REDIS_HOST", "custom-redis"), ("REDIS_PORT", "6380")]

/-- The number that a run of decimal digits writes. -/
def decimalValue (s : String) : Nat :=
  s.data.foldl (fun a c => 10 * a + (c.toNat - 48)) 0

/-- The number of digits of a code asked for with `length`: `length` itself from 4 to 8,
otherwise 6. -/
def otpLength (length : Int) : Nat := if 4 ≤ length ∧ length ≤ 8 then length.toNat else 6

/-- The number that a big-endian byte string writes. -/
def beValue (bs : List Byte) : Nat := bs.foldl (fun a b => 256 * a + b.val) 0

/-- A stand-in for Argon2id: the key is the salt followed by the bytes of the characters of
the password, cut to `keyLen` bytes. -/
def toyArgon2 : Argon2 :=
  { IDKey := fun password salt _ _ _ keyLen =>
      (salt ++ password.data.map fun c => toByte c.toNat).take keyLen }

/-- The mock repository after `CreateUser(eva)` at time 0. -/
def mockWithEva : MockDB := (MockUserRepository.CreateUser MockUserRepository.NewMockDB 0 eva).1

/-- The mock repository after `LockUser("u-3", 15)` one second later. -/
def mockLocked : MockDB := (MockUserRepository.LockUser mockWithEva (1 * Second) "u-3" 15).1

/-- The SQL table after `CreateUser(eva)` at time 0. -/
def sqlWithEva : DB := (userRepository.CreateUser {} 0 eva).1

/-- The SQL table after `LockUser("u-3", 15)` one second later. -/
def sqlLocked : DB := (userRepository.LockUser sqlWithEva (1 * Second) "u-3" 15).1

/-- The mock repository after `UpdateUser` has given `eva` a new email. -/
def mockRenamed : MockDB :=
  (MockUserRepository.UpdateUser mockWithEva (1 * Second)
    { eva with Email := "eva.luna@example.com" }).1

/-- The two maps of the mock agree: the index maps the key of every stored user to the id
of the user, and every entry of the index leads to a stored user with that key. -/
def MockDB.Consistent (db : MockDB) : Prop :=
  (∀ e ∈ db.Users,
    db.EmailTenantIndex.lookup (e.2.Email ++ ":" ++ e.2.TenantID) = some e.1) ∧
  (∀ e ∈ db.EmailTenantIndex,
    (db.Users.lookup e.2).map (fun u => u.Email ++ ":" ++ u.TenantID) = some e.1)

instance (db : MockDB) : Decidable db.Consistent := by
  unfold MockDB.Consistent; infer_instance

/-- The values of a call whose counter write does not reach the cache. -/
def drawLost (tag : String) : OTPDraw := { drawFor tag with cacheUpAtWrite := false }

/-- The world of `world0` with a throttle counter of -1 for the phone of `ana`, a value that
no call of the service writes. -/
def worldNegativeCount : World :=
  { world0 with redis :=
      emptyRedis.put (otpRateKey "+51987654321") { value := .int (-1), expireAt := none } }

/-! ## Properties -/

/-! ### The login rate limiter -/

theorem attemptsKey_ne_blockKey (e : String) : attemptsKey e ≠ blockKey e := by
  intro h
  have h2 := congrArg (fun s : String => s.data.take 7) h
  simp [attemptsKey, blockKey, String.data_append] at h2

theorem authenticate_redis (s : authService) (w : World) (now : Int) (ids : FreshIDs)
    (req : LoginRequest) : (s.authenticate w now ids req).world.redis = w.redis := by
  unfold authService.authenticate
  split_ifs
  · rfl
  · split
    · rfl
    · split
      · rfl
      · split_ifs <;> rfl

theorem login_not_blocked (s : authService) (w : World) (now : Int) (ids : FreshIDs)
    (req : LoginRequest)
    (h : (s.LoginWithPassword w now ids req).result ≠ .err blockedError) :
    w.redis.Get now (blockKey req.Email) ≠ .ok (.int 1) ∧
    (w.redis.Incr now (attemptsKey req.Email)).2.getD 0 ≤ 5 ∧
    (s.LoginWithPassword w now ids req).world.redis = limited w.redis now req.Email := by
  unfold authService.LoginWithPassword at h ⊢
  dsimp only at h ⊢
  by_cases hb : w.redis.Get now (blockKey req.Email) = .ok (.int 1)
  · rw [if_pos hb] at h
    exact absurd rfl h
  · rw [if_neg hb] at h ⊢
    by_cases ha : (w.redis.Incr now (attemptsKey req.Email)).2.getD 0 > 5
    · rw [if_pos ha] at h
      exact absurd rfl h
    · rw [if_neg ha]
      refine ⟨hb, not_lt.mp ha, ?_⟩
      rw [authenticate_redis]
      rfl

theorem limited_fresh (r : Redis) (now : Int) (email : String) (hup : r.up = true)
    (hfresh : r.live now (attemptsKey email) = none) :
    (r.Incr now (attemptsKey email)).2.getD 0 = 1 ∧
    Counting (limited r now email) email 1 (now + 15 * Minute) ∧
    (limited r now email).entries (blockKey email) = r.entries (blockKey email) := by
  have hne : blockKey email ≠ attemptsKey email := fun h => attemptsKey_ne_blockKey email h.symm
  have hincr : r.Incr now (attemptsKey email)
      = (r.put (attemptsKey email) { value := .int 1, expireAt := none }, some 1) := by
    simp [Redis.Incr, hup, hfresh]
  refine ⟨by rw [hincr]; rfl, ?_, ?_⟩
  · unfold Counting limited
    rw [hincr]
    simp [Redis.Expire, Redis.put, Redis.live, hup]
  · unfold limited
    rw [hincr]
    simp [Redis.Expire, Redis.put, Redis.live, hup, hne]

theorem limited_counting (r : Redis) (now : Int) (email : String) (n x : Int)
    (hc : Counting r email n x) (hlive : now < x) (h1 : 1 ≤ n) (h2 : n < 2 ^ 63 - 1) :
    (r.Incr now (attemptsKey email)).2.getD 0 = n + 1 ∧
    Counting (limited r now email) email (n + 1) x ∧
    (limited r now email).entries (blockKey email) = r.entries (blockKey email) := by
  obtain ⟨hup, hent⟩ := hc
  have hne : blockKey email ≠ attemptsKey email := fun h => attemptsKey_ne_blockKey email h.symm
  have hl : r.live now (attemptsKey email) = some ⟨.int n, some x⟩ := by
    simp [Redis.live, hent, not_le.mpr hlive]
  have hincr : r.Incr now (attemptsKey email)
      = (r.put (attemptsKey email) { value := .int (n + 1), expireAt := some x }, some (n + 1)) := by
    have h3 : n < 9223372036854775807 := by omega
    simp [Redis.Incr, hup, hl, h3]
  have hn1 : ¬ (n + 1 = 1) := by omega
  refine ⟨by rw [hincr]; rfl, ?_, ?_⟩
  · unfold Counting limited
    rw [hincr]
    simp [Redis.put, hup, hn1]
  · unfold limited
    rw [hincr]
    simp [Redis.put, hne, hn1]

/-- One login that was not rejected as blocked, made while the counter stands at `n`. -/
theorem login_step (s : authService) (w : World) (now : Int) (ids : FreshIDs) (req : LoginRequest)
    (n x : Int) (hc : Counting w.redis req.Email n x) (hlive : now < x) (h1 : 1 ≤ n)
    (h2 : n < 2 ^ 63 - 1)
    (h : (s.LoginWithPassword w now ids req).result ≠ .err blockedError) :
    Counting (s.LoginWithPassword w now ids req).world.redis req.Email (n + 1) x ∧
    (s.LoginWithPassword w now ids req).world.redis.entries (blockKey req.Email)
      = w.redis.entries (blockKey req.Email) ∧
    w.redis.Get now (blockKey req.Email) ≠ .ok (.int 1) := by
  obtain ⟨hb, _, hw⟩ := login_not_blocked s w now ids req h
  obtain ⟨_, hcount, hblock⟩ := limited_counting w.redis now req.Email n x hc hlive h1 h2
  rw [hw]
  exact ⟨hcount, hblock, hb⟩

/-- One login that was not rejected as blocked, made while the counter is absent. -/
theorem login_first (s : authService) (w : World) (now : Int) (ids : FreshIDs) (req : LoginRequest)
    (hup : w.redis.up = true) (hfresh : w.redis.live now (attemptsKey req.Email) = none)
    (h : (s.LoginWithPassword w now ids req).result ≠ .err blockedError) :
    Counting (s.LoginWithPassword w now ids req).world.redis req.Email 1 (now + 15 * Minute) ∧
    (s.LoginWithPassword w now ids req).world.redis.entries (blockKey req.Email)
      = w.redis.entries (blockKey req.Email) ∧
    w.redis.Get now (blockKey req.Email) ≠ .ok (.int 1) := by
  obtain ⟨hb, _, hw⟩ := login_not_blocked s w now ids req h
  obtain ⟨_, hcount, hblock⟩ := limited_fresh w.redis now req.Email hup hfresh
  rw [hw]
  exact ⟨hcount, hblock, hb⟩

/-- A login made while the counter stands at five or more is rejected as blocked, and
nothing but the cache is touched; unless the block flag was already set, it is set now for
30 minutes. -/
theorem login_over_limit (s : authService) (w : World) (now : Int) (ids : FreshIDs)
    (req : LoginRequest) (n x : Int) (hc : Counting w.redis req.Email n x) (hlive : now < x)
    (h5 : 5 ≤ n) (h2 : n < 2 ^ 63 - 1) :
    (s.LoginWithPassword w now ids req).result = .err blockedError ∧
    (s.LoginWithPassword w now ids req).events = [] ∧
    (s.LoginWithPassword w now ids req).world.db = w.db ∧
    (w.redis.Get now (blockKey req.Email) ≠ .ok (.int 1) →
      (s.LoginWithPassword w now ids req).world.redis.up = true ∧
      (s.LoginWithPassword w now ids req).world.redis.entries (blockKey req.Email)
        = some ⟨.int 1, some (now + 30 * Minute)⟩) := by
  obtain ⟨hval, hcount, _⟩ := limited_counting w.redis now req.Email n x hc hlive (by omega) h2
  unfold authService.LoginWithPassword
  dsimp only
  by_cases hb : w.redis.Get now (blockKey req.Email) = .ok (.int 1)
  · rw [if_pos hb]
    exact ⟨rfl, rfl, rfl, fun h => absurd hb h⟩
  · rw [if_neg hb]
    have ha : (w.redis.Incr now (attemptsKey req.Email)).2.getD 0 > 5 := by rw [hval]; omega
    rw [if_pos ha]
    refine ⟨rfl, rfl, rfl, fun _ => ?_⟩
    have hup : (limited w.redis now req.Email).up = true := hcount.1
    unfold limited at hup
    simp [Redis.Set, Redis.put, hup]

/-- A login made while the block flag is set is rejected as blocked and changes nothing. -/
theorem login_while_blocked (s : authService) (w : World) (now : Int) (ids : FreshIDs)
    (req : LoginRequest) (y : Int) (hup : w.redis.up = true)
    (hflag : w.redis.entries (blockKey req.Email) = some ⟨.int 1, some y⟩) (hlive : now < y) :
    (s.LoginWithPassword w now ids req).result = .err blockedError ∧
    (s.LoginWithPassword w now ids req).events = [] ∧
    (s.LoginWithPassword w now ids req).world = w := by
  have hb : w.redis.Get now (blockKey req.Email) = .ok (.int 1) := by
    simp [Redis.Get, Redis.live, hup, hflag, not_le.mpr hlive]
  unfold authService.LoginWithPassword
  dsimp only
  rw [if_pos hb]
  exact ⟨rfl, rfl, rfl⟩

theorem Get_earlier (r r' : Redis) (k : String) (t t' : Int) (v : RedisValue)
    (hent : r'.entries k = r.entries k) (hup : r.up = true) (htt : t ≤ t')
    (h : r'.Get t' k = .ok v) : r.Get t k = .ok v := by
  unfold Redis.Get Redis.live at h ⊢
  rw [hent] at h
  rw [hup]
  cases hup' : r'.up
  · simp [hup'] at h
  · simp only [hup', if_true] at h
    simp only [if_true]
    cases he : r.entries k with
    | none => simp [he] at h
    | some e =>
      simp only [he] at h ⊢
      cases hx : e.expireAt with
      | none => simpa [hx] using h
      | some x =>
        simp only [hx] at h ⊢
        by_cases hle : x ≤ t'
        · simp [hle] at h
        · have hle2 : ¬ x ≤ t := by omega
          simpa [hle, hle2] using h

theorem invalidCredentials_ne_blocked :
    (Result.err (.api ErrInvalidCredentials) : Result LoginResponse) ≠ .err blockedError := by
  decide

theorem blocked_run (s : authService) (email : String) (y : Int) :
    ∀ (further : List (Int × FreshIDs × LoginRequest)) (w : World), w.redis.up = true →
      w.redis.entries (blockKey email) = some ⟨.int 1, some y⟩ →
      (∀ c ∈ further, c.2.2.Email = email ∧ c.1 < y) →
      ∀ o ∈ loginRun s w further, o.result = .err blockedError ∧ o.events = [] := by
  intro further
  induction further with
  | nil => intro w _ _ _ o ho; simp [loginRun] at ho
  | cons c rest ih =>
    intro w hup hflag hall o ho
    obtain ⟨t, ids, req⟩ := c
    have hc := hall (t, ids, req) (List.mem_cons_self _ _)
    simp only at hc
    obtain ⟨hmail, hlt⟩ := hc
    have hflag2 : w.redis.entries (blockKey req.Email) = some ⟨.int 1, some y⟩ := by
      rw [hmail]; exact hflag
    obtain ⟨hr, he, hw⟩ := login_while_blocked s w t ids req y hup hflag2 hlt
    simp only [loginRun, List.mem_cons] at ho
    rcases ho with ho | ho
    · subst ho
      exact ⟨hr, he⟩
    · rw [hw] at ho
      exact ih w hup hflag (fun c hc => hall c (List.mem_cons_of_mem _ hc)) o ho

/-- C1 (amended): when the attempt counter of an email is absent or expired at the first of
five logins that each fail with INVALID_CREDENTIALS, and a sixth login comes less than 15
minutes after that first one, then the sixth is rejected as blocked whatever password it
carries, without a user lookup, a password comparison or a token being minted, and so is
every further login for the email during the 30 minutes after the sixth. -/
theorem lockout_within_counter_window (s : authService) (w0 : World) (email : String)
    (t1 t2 t3 t4 t5 t6 : Int) (i1 i2 i3 i4 i5 i6 : FreshIDs) (p1 p2 p3 p4 p5 p6 : String)
    (hup : w0.redis.up = true)
    (hfresh : w0.redis.live t1 (attemptsKey email) = none)
    (_h12 : t1 ≤ t2) (h23 : t2 ≤ t3) (h34 : t3 ≤ t4) (h45 : t4 ≤ t5) (h56 : t5 ≤ t6)
    (hwin : t6 < t1 + 15 * Minute)
    (hfail : ∀ o ∈ loginRun s w0 [(t1, i1, ⟨email, p1⟩), (t2, i2, ⟨email, p2⟩),
        (t3, i3, ⟨email, p3⟩), (t4, i4, ⟨email, p4⟩), (t5, i5, ⟨email, p5⟩)],
      o.result = .err (.api ErrInvalidCredentials)) :
    (s.LoginWithPassword
        (loginsFrom s w0 [(t1, i1, ⟨email, p1⟩), (t2, i2, ⟨email, p2⟩), (t3, i3, ⟨email, p3⟩),
          (t4, i4, ⟨email, p4⟩), (t5, i5, ⟨email, p5⟩)]) t6 i6 ⟨email, p6⟩).result
      = .err blockedError ∧
    (s.LoginWithPassword
        (loginsFrom s w0 [(t1, i1, ⟨email, p1⟩), (t2, i2, ⟨email, p2⟩), (t3, i3, ⟨email, p3⟩),
          (t4, i4, ⟨email, p4⟩), (t5, i5, ⟨email, p5⟩)]) t6 i6 ⟨email, p6⟩).events = [] ∧
    ∀ further : List (Int × FreshIDs × LoginRequest),
      (∀ c ∈ further, c.2.2.Email = email ∧ t6 ≤ c.1 ∧ c.1 < t6 + 30 * Minute) →
      ∀ o ∈ loginRun s
          (s.LoginWithPassword
            (loginsFrom s w0 [(t1, i1, ⟨email, p1⟩), (t2, i2, ⟨email, p2⟩),
              (t3, i3, ⟨email, p3⟩), (t4, i4, ⟨email, p4⟩), (t5, i5, ⟨email, p5⟩)])
            t6 i6 ⟨email, p6⟩).world further,
        o.result = .err blockedError ∧ o.events = [] := by
  simp only [loginRun, loginsFrom, List.mem_cons, List.mem_singleton, List.not_mem_nil,
    or_false, forall_eq_or_imp, forall_eq] at hfail ⊢
  obtain ⟨hf1, hf2, hf3, hf4, hf5⟩ := hfail
  have hne : ∀ {r : Result LoginResponse}, r = .err (.api ErrInvalidCredentials) →
      r ≠ .err blockedError := fun h => h ▸ invalidCredentials_ne_blocked
  have hbig : (1 : Int) < 2 ^ 63 - 1 := by decide
  obtain ⟨hc1, -, -⟩ := login_first s w0 t1 i1 ⟨email, p1⟩ hup hfresh (hne hf1)
  generalize (s.LoginWithPassword w0 t1 i1 ⟨email, p1⟩).world = w1 at hc1 hf2 hf3 hf4 hf5 ⊢
  obtain ⟨hc2, -, -⟩ := login_step s w1 t2 i2 ⟨email, p2⟩ 1 _ hc1 (by omega) (by omega)
    (by omega) (hne hf2)
  generalize (s.LoginWithPassword w1 t2 i2 ⟨email, p2⟩).world = w2 at hc2 hf3 hf4 hf5 ⊢
  obtain ⟨hc3, -, -⟩ := login_step s w2 t3 i3 ⟨email, p3⟩ (1 + 1) _ hc2 (by omega) (by omega)
    (by omega) (hne hf3)
  generalize (s.LoginWithPassword w2 t3 i3 ⟨email, p3⟩).world = w3 at hc3 hf4 hf5 ⊢
  obtain ⟨hc4, -, -⟩ := login_step s w3 t4 i4 ⟨email, p4⟩ (1 + 1 + 1) _ hc3 (by omega)
    (by omega) (by omega) (hne hf4)
  generalize (s.LoginWithPassword w3 t4 i4 ⟨email, p4⟩).world = w4 at hc4 hf5 ⊢
  obtain ⟨hc5, hblock5, hnb5⟩ := login_step s w4 t5 i5 ⟨email, p5⟩ (1 + 1 + 1 + 1) _ hc4
    (by omega) (by omega) (by omega) (hne hf5)
  generalize (s.LoginWithPassword w4 t5 i5 ⟨email, p5⟩).world = w5 at hc5 hblock5 ⊢
  obtain ⟨hr6, he6, -, hflag6⟩ := login_over_limit s w5 t6 i6 ⟨email, p6⟩ _ _ hc5 (by omega)
    (by omega) (by omega)
  refine ⟨hr6, he6, ?_⟩
  have hnb6 : w5.redis.Get t6 (blockKey email) ≠ .ok (.int 1) := fun h =>
    hnb5 (Get_earlier w4.redis w5.redis _ t5 t6 _ hblock5 hc4.1 h56 h)
  obtain ⟨hup6, hent6⟩ := hflag6 hnb6
  intro further hall
  exact blocked_run s email (t6 + 30 * Minute) further _ hup6 hent6
    (fun c hc => ⟨(hall c hc).1, (hall c hc).2.2⟩)

/-- C1 as stated fails: after one failed login at minute 0, which starts the counter, four
failed logins in minute 14 and a fifth in minute 16 lie inside one 15-minute window, yet the
login with the right password in minute 17, inside that window too, succeeds: the counter
expired at minute 15. -/
theorem lockout_counterexample :
    ((loginRun demoService world0
        [(0, demoIDs, badLogin), (840 * Second, demoIDs, badLogin),
         (841 * Second, demoIDs, badLogin), (842 * Second, demoIDs, badLogin),
         (843 * Second, demoIDs, badLogin), (960 * Second, demoIDs, badLogin)]).map
        fun o => o.result) = List.replicate 6 (.err (.api ErrInvalidCredentials)) ∧
    1020 * Second < 840 * Second + 15 * Minute ∧
    (demoService.LoginWithPassword
        (loginsFrom demoService world0
          [(0, demoIDs, badLogin), (840 * Second, demoIDs, badLogin),
           (841 * Second, demoIDs, badLogin), (842 * Second, demoIDs, badLogin),
           (843 * Second, demoIDs, badLogin), (960 * Second, demoIDs, badLogin)])
        (1020 * Second) demoIDs goodLogin).result.isOk = true := by
  refine ⟨by decide, by decide, by decide⟩

/-- C1 (amended) at five wrong guesses for `ana` in seconds 0 to 4 from an empty cache: the
login with the right password in second 5 is rejected as blocked and nothing is looked up,
compared or minted. -/
theorem lockout_within_counter_window_witness :
    (demoService.LoginWithPassword
        (loginsFrom demoService world0
          [(0, demoIDs, ⟨"ana@example.com", "guess"⟩),
           (1 * Second, demoIDs, ⟨"ana@example.com", "guess"⟩),
           (2 * Second, demoIDs, ⟨"ana@example.com", "guess"⟩),
           (3 * Second, demoIDs, ⟨"ana@example.com", "guess"⟩),
           (4 * Second, demoIDs, ⟨"ana@example.com", "guess"⟩)])
        (5 * Second) demoIDs ⟨"ana@example.com", "Abcdef1!"⟩).result = .err blockedError ∧
    (demoService.LoginWithPassword
        (loginsFrom demoService world0
          [(0, demoIDs, ⟨"ana@example.com", "guess"⟩),
           (1 * Second, demoIDs, ⟨"ana@example.com", "guess"⟩),
           (2 * Second, demoIDs, ⟨"ana@example.com", "guess"⟩),
           (3 * Second, demoIDs, ⟨"ana@example.com", "guess"⟩),
           (4 * Second, demoIDs, ⟨"ana@example.com", "guess"⟩)])
        (5 * Second) demoIDs ⟨"ana@example.com", "Abcdef1!"⟩).events = [] :=
  have h := lockout_within_counter_window demoService world0 "ana@example.com"
    0 (1 * Second) (2 * Second) (3 * Second) (4 * Second) (5 * Second)
    demoIDs demoIDs demoIDs demoIDs demoIDs demoIDs
    "guess" "guess" "guess" "guess" "guess" "Abcdef1!"
    rfl rfl (by decide) (by decide) (by decide) (by decide) (by decide) (by decide)
    (by
      intro o ho
      simp only [loginRun, List.mem_cons, List.mem_singleton, List.not_mem_nil, or_false] at ho
      rcases ho with ho | ho | ho | ho | ho <;> subst ho <;> decide)
  ⟨h.1, h.2.1⟩

/-- C2, at six logins of `ana` with the right password, one a minute: the first five
succeed, the counter stands at 1 after the first instead of 0, and the sixth is rejected as
blocked. -/
theorem successful_logins_are_counted :
    ((loginRun demoService world0
        [(0, demoIDs, goodLogin), (60 * Second, idsFor "2", goodLogin),
         (120 * Second, idsFor "3", goodLogin), (180 * Second, idsFor "4", goodLogin),
         (240 * Second, idsFor "5", goodLogin)]).map fun o => o.result.isOk)
      = [true, true, true, true, true] ∧
    (demoService.LoginWithPassword world0 0 demoIDs goodLogin).world.redis.Get (1 * Second)
        (attemptsKey "ana@example.com") = .ok (.int 1) ∧
    (demoService.LoginWithPassword
        (loginsFrom demoService world0
          [(0, demoIDs, goodLogin), (60 * Second, idsFor "2", goodLogin),
           (120 * Second, idsFor "3", goodLogin), (180 * Second, idsFor "4", goodLogin),
           (240 * Second, idsFor "5", goodLogin)])
        (300 * Second) (idsFor "6") goodLogin).result = .err blockedError := by
  refine ⟨by decide, by decide, by decide⟩

theorem RefreshToken_revoked_record (s : authService) (w : World) (now : Int) (ids : FreshIDs)
    (req : RefreshTokenRequest) (claims : TokenClaims) (record : RefreshToken)
    (hne : req.RefreshToken ≠ .text "")
    (hvalid : ValidateToken s.jwtService now req.RefreshToken = .ok claims)
    (hget : s.tokenRepo.GetRefreshToken w.db req.RefreshToken = .ok record)
    (hrev : record.Revoked = true) :
    (s.RefreshToken w now ids req).result = .err (.api ErrTokenRevoked) ∧
    (s.RefreshToken w now ids req).events = [] := by
  unfold authService.RefreshToken
  simp only [hne, if_false, hvalid, hget, hrev, if_true, and_self]

/-! ### The refresh flow -/

/-- C3, after `ana` logs in, her refresh-token record is revoked through `RevokeToken` and
she then presents the refresh token: the record is revoked, and `RefreshToken` fails with
INVALID_INPUT, not with TOKEN_REVOKED; the ledger lookup under the key `RefreshToken`
passes, the token string, finds no record to check. -/
theorem refresh_after_revocation_not_token_revoked :
    (demoService.LoginWithPassword world0 0 demoIDs goodLogin).result.isOk = true ∧
    ((demoService.LoginWithPassword world0 0 demoIDs goodLogin).world.db.refreshTokens.map
        fun t => (t.JTI, t.UserID, t.Revoked)) = [(.text "jti-r", "u-1", false)] ∧
    (demoService.RevokeToken worldLoggedIn (1 * Second) (.text "jti-r")).2 = none ∧
    ((demoService.RevokeToken worldLoggedIn (1 * Second) (.text "jti-r")).1.db.refreshTokens.map
        fun t => (t.JTI, t.UserID, t.Revoked)) = [(.text "jti-r", "u-1", true)] ∧
    (demoService.RefreshToken (demoService.RevokeToken worldLoggedIn (1 * Second) (.text "jti-r")).1
        (2 * Second) demoIDs ⟨anasRefreshToken⟩).result
      = .err (.api (ErrInvalidInput.WithDetails "invalid refresh token")) ∧
    (Result.err (.api (ErrInvalidInput.WithDetails "invalid refresh token")) : Result LoginResponse)
      ≠ .err (.api ErrTokenRevoked) ∧
    sqlTokenRepository.GetRefreshToken
        (demoService.RevokeToken worldLoggedIn (1 * Second) (.text "jti-r")).1.db anasRefreshToken
      = .err (.api ErrRefreshTokenInvalid) := by
  refine ⟨by decide, by decide, by decide, by decide, by decide, by decide, by decide⟩

/-- C4, after `ana` logs in: the ledger holds her record under the jti `"jti-r"`, the
lookup with the key `RefreshToken` passes, the token string itself, finds nothing, and
`RefreshToken` with the token just issued fails. -/
theorem refresh_lookup_key_is_token_string :
    (demoService.LoginWithPassword world0 0 demoIDs goodLogin).result.isOk = true ∧
    ((demoService.LoginWithPassword world0 0 demoIDs goodLogin).result.value?.map
        fun resp => resp.RefreshToken) = some anasRefreshToken ∧
    (sqlTokenRepository.GetRefreshToken worldLoggedIn.db (.text "jti-r")).isOk = true ∧
    sqlTokenRepository.GetRefreshToken worldLoggedIn.db anasRefreshToken
      = .err (.api ErrRefreshTokenInvalid) ∧
    (demoService.RefreshToken worldLoggedIn (1 * Second) demoIDs ⟨anasRefreshToken⟩).result.isOk
      = false := by
  refine ⟨by decide, by decide, by decide, by decide, by decide⟩

/-! ### Token issue and validation -/

theorem secondsDuration_of_range (n : Int) (h0 : 0 ≤ n) (h1 : n * Second < 2 ^ 63) :
    secondsDuration n = n * Second := by
  unfold secondsDuration wrapInt64
  have h2 : 0 ≤ n * Second := Int.mul_nonneg h0 (by unfold Second; decide)
  omega

theorem Unix_add_seconds (now n : Int) : Unix (now + n * Second) = Unix now + n := by
  unfold Unix Second
  exact Int.add_mul_ediv_right now n (by decide)

theorem unmarshal_marshal (c : TokenClaims) (hiat : inInt64 c.IssuedAt) (hexp : inInt64 c.ExpiresAt)
    (hnbf : c.RegisteredClaims.NotBefore = none) :
    TokenClaims.unmarshalFrom {} c.marshalJSON = .ok { c with RegisteredClaims := {} } := by
  obtain ⟨sub, ten, unit, jti, iat, exp, iss, aud, rc⟩ := c
  simp only at hiat hexp hnbf
  by_cases ht : ten = "" <;> by_cases hu : unit = "" <;>
    simp [TokenClaims.marshalJSON, omitemptyStr, omitemptyDate, TokenClaims.unmarshalFrom,
      TokenClaims.setMember, decodeString, decodeInt64, Except.map, hnbf, ht, hu, hiat, hexp]

theorem ValidateToken_access (cfg : JWTConfig) (key : Nat) (now validatedAt : Int)
    (jti userID tenantID unitID : String)
    (hiat : inInt64 (Unix now))
    (hexp : inInt64 (Unix (now + secondsDuration cfg.AccessTokenTTL))) :
    ValidateToken (NewJWTService cfg key) validatedAt
        (GenerateAccessToken (NewJWTService cfg key) now jti userID tenantID unitID).1
      = .ok { accessClaims (NewJWTService cfg key) now jti userID tenantID unitID with
              RegisteredClaims := {} } := by
  have hdec := unmarshal_marshal (accessClaims (NewJWTService cfg key) now jti userID tenantID unitID)
    hiat hexp rfl
  simp only [ValidateToken, GenerateAccessToken, SignedString, ParseWithClaims, hdec]
  simp [JObject.get, GetSigningMethod, keyFunc, NewJWTService, SigningMethod.Verify,
    validateRegistered, accessClaims]

theorem ValidateToken_refresh (s : jwtService) (now validatedAt : Int) (jti : String) :
    ValidateToken s validatedAt (GenerateRefreshToken s now jti).1
      = .err (.api (ErrTokenInvalid.WithDetails
          ("token is malformed: could not JSON decode claim: json: cannot unmarshal array into Go struct field TokenClaims.aud of type string"))) := by
  by_cases hi : s.config.Issuer = "" <;>
    simp [ValidateToken, GenerateRefreshToken, SignedString, ParseWithClaims,
      RegisteredClaims.marshalJSON, omitemptyStr, omitemptyDate, TokenClaims.unmarshalFrom,
      TokenClaims.setMember, decodeString, Except.map, hi, ParseError.Error]

/-- C5, at a fresh refresh token of the demo service: `ValidateToken` rejects it as
malformed one second after issue, long before its expiry. -/
theorem fresh_refresh_token_rejected :
    ValidateToken demoJWT (1 * Second) (GenerateRefreshToken demoJWT 0 "jti-r").1
      = .err (.api (ErrTokenInvalid.WithDetails
          "token is malformed: could not JSON decode claim: json: cannot unmarshal array into Go struct field TokenClaims.aud of type string")) :=
  ValidateToken_refresh demoJWT 0 (1 * Second) "jti-r"

/-- C7, at a 15-minute access token of the demo service minted at second 1000, so with
exp = 1900, and validated at second 5000: `ValidateToken` returns the claims instead of
failing with the token-expired error. -/
theorem expired_access_token_still_validates :
    (GenerateAccessToken demoJWT (1000 * Second) "jti-a" "u-1" "t-1" "n-1").2.ExpiresAt = 1900 ∧
    After (5000 * Second) (1900 * Second) = true ∧
    ValidateToken demoJWT (5000 * Second)
        (GenerateAccessToken demoJWT (1000 * Second) "jti-a" "u-1" "t-1" "n-1").1
      = .ok { Subject := "u-1", TenantID := "t-1", UnitID := "n-1", JTI := "jti-a",
              IssuedAt := 1000, ExpiresAt := 1900, Issuer := "smartedify-auth",
              Audience := "smartedify-api" } := by
  refine ⟨by decide, by decide, ?_⟩
  decide

theorem ParseError_Error_ne_expired (e : ParseError) : e.Error ≠ "token is expired" := by
  intro h
  have h2 := congrArg (fun s : String => s.data.take 10) h
  cases e <;> simp [ParseError.Error, String.data_append] at h2

theorem ValidateToken_ne_expired (s : jwtService) (now : Int) (tokenString : TokenString) :
    ValidateToken s now tokenString ≠ .err (.api ErrTokenExpired) := by
  unfold ValidateToken
  cases hp : ParseWithClaims now tokenString (keyFunc s) with
  | error e =>
    simp only [if_neg (ParseError_Error_ne_expired e)]
    split_ifs <;> simp [ErrTokenExpired, ErrInvalidSignature, ErrTokenInvalid, NewAPIError,
      APIError.WithDetails]
  | ok c =>
    dsimp only
    split_ifs <;> simp [ErrTokenExpired, ErrTokenInvalid, NewAPIError, APIError.WithDetails]

/-- C6: for every subject, tenant and unit, a token from `GenerateAccessToken` validated
before its expiry by the same service is accepted, and the claims `ValidateToken` returns
carry the same sub, tenant_id, unit_id, jti, iat, exp, iss and aud as the claims
`GenerateAccessToken` returned, which are the inputs, the configured issuer and audience,
and exp = iat + access TTL.  The hypotheses say that the clock and the TTL are in the range
of the nanosecond counters of Go. -/
theorem access_token_validates_with_minted_claims (cfg : JWTConfig) (key : Nat)
    (now validatedAt : Int) (jti userID tenantID unitID : String)
    (hnow : 0 ≤ now) (hrep : now < 2 ^ 63)
    (httl : 0 ≤ cfg.AccessTokenTTL) (hdur : cfg.AccessTokenTTL * Second < 2 ^ 63)
    (_hbefore : validatedAt <
      (GenerateAccessToken (NewJWTService cfg key) now jti userID tenantID unitID).2.ExpiresAt
        * Second) :
    ∃ c : TokenClaims,
      ValidateToken (NewJWTService cfg key) validatedAt
        (GenerateAccessToken (NewJWTService cfg key) now jti userID tenantID unitID).1 = .ok c ∧
      c.Subject = (GenerateAccessToken (NewJWTService cfg key) now jti userID tenantID unitID).2.Subject ∧
      c.TenantID = (GenerateAccessToken (NewJWTService cfg key) now jti userID tenantID unitID).2.TenantID ∧
      c.UnitID = (GenerateAccessToken (NewJWTService cfg key) now jti userID tenantID unitID).2.UnitID ∧
      c.JTI = (GenerateAccessToken (NewJWTService cfg key) now jti userID tenantID unitID).2.JTI ∧
      c.IssuedAt = (GenerateAccessToken (NewJWTService cfg key) now jti userID tenantID unitID).2.IssuedAt ∧
      c.ExpiresAt = (GenerateAccessToken (NewJWTService cfg key) now jti userID tenantID unitID).2.ExpiresAt ∧
      c.Issuer = (GenerateAccessToken (NewJWTService cfg key) now jti userID tenantID unitID).2.Issuer ∧
      c.Audience = (GenerateAccessToken (NewJWTService cfg key) now jti userID tenantID unitID).2.Audience ∧
      c.Subject = userID ∧ c.TenantID = tenantID ∧ c.UnitID = unitID ∧ c.JTI = jti ∧
      c.ExpiresAt = c.IssuedAt + cfg.AccessTokenTTL ∧
      c.Issuer = cfg.Issuer ∧ c.Audience = cfg.Audience := by
  have hd : secondsDuration cfg.AccessTokenTTL = cfg.AccessTokenTTL * Second :=
    secondsDuration_of_range _ httl hdur
  have hu : Unix (now + secondsDuration cfg.AccessTokenTTL) = Unix now + cfg.AccessTokenTTL := by
    rw [hd, Unix_add_seconds]
  have h0 : 0 ≤ Unix now := by
    unfold Unix Second
    exact Int.ediv_nonneg hnow (by decide)
  have h1 : Unix now ≤ now := by
    unfold Unix Second
    exact Int.ediv_le_self _ hnow
  have h2 : cfg.AccessTokenTTL < 2 ^ 62 := by
    unfold Second at hdur
    omega
  have hiat : inInt64 (Unix now) := by
    unfold inInt64
    omega
  have hexp : inInt64 (Unix (now + secondsDuration cfg.AccessTokenTTL)) := by
    rw [hu]
    unfold inInt64
    have h3 : Unix now = now / 1000000000 := rfl
    omega
  refine ⟨_, ValidateToken_access cfg key now validatedAt jti userID tenantID unitID hiat hexp, ?_⟩
  simp [GenerateAccessToken, accessClaims, NewJWTService, hu]

/-- C6 at 15-minute tokens: minted at second 1000, validated one second before expiry. -/
theorem access_token_validates_with_minted_claims_witness :
    ∃ c : TokenClaims,
      ValidateToken (NewJWTService demoConfig 7) (1899 * Second)
        (GenerateAccessToken (NewJWTService demoConfig 7) (1000 * Second) "jti-a" "u-1" "t-1" "n-1").1
          = .ok c ∧
      c.Subject = "u-1" ∧ c.TenantID = "t-1" ∧ c.UnitID = "n-1" ∧ c.JTI = "jti-a" ∧
      c.IssuedAt = 1000 ∧ c.ExpiresAt = 1900 ∧ c.Issuer = "smartedify-auth" ∧
      c.Audience = "smartedify-api" := by
  obtain ⟨c, hc, -, -, -, -, hiat, -, -, -, h1, h2, h3, h4, h5, h6, h7⟩ :=
    access_token_validates_with_minted_claims demoConfig 7 (1000 * Second) (1899 * Second)
      "jti-a" "u-1" "t-1" "n-1" (by decide) (by decide) (by decide) (by decide) (by decide)
  have hi : c.IssuedAt = 1000 := by rw [hiat]; decide
  exact ⟨c, hc, h1, h2, h3, h4, hi, by rw [h5, hi]; decide, h6, h7⟩

/-- C8: `ValidateToken` rejects every token whose header `alg` does not name a method of the
RSA family (RS256, RS384, RS512), and every token whose header `kid` is absent, not a
string or not the key id of the service, whatever its payload and signature. -/
theorem validate_rejects_foreign_alg_or_kid (s : jwtService) (now : Int) (t : JWS)
    (h : (¬ ∃ a n, t.header.get "alg" = some (.str a) ∧ GetSigningMethod a = some (.RSA n)) ∨
         t.header.get "kid" ≠ some (.str s.keyID)) :
    (ValidateToken s now (.jws t)).isOk = false := by
  have hparse : ∃ e, ParseWithClaims now (.jws t) (keyFunc s) = .error e := by
    unfold ParseWithClaims
    dsimp only
    cases hu : TokenClaims.unmarshalFrom {} t.payload with
    | error e => exact ⟨_, rfl⟩
    | ok claims =>
      dsimp only
      cases ha : t.header.get "alg" with
      | none => exact ⟨_, rfl⟩
      | some v =>
        cases v with
        | str a =>
          dsimp only
          cases hm : GetSigningMethod a with
          | none => exact ⟨_, rfl⟩
          | some m =>
            dsimp only
            have hk : ∃ e, keyFunc s m t.header = .error e := by
              cases m with
              | RSA n =>
                rcases h with h | h
                · exact absurd ⟨a, n, ha, hm⟩ h
                · unfold keyFunc
                  dsimp only
                  cases hkid : t.header.get "kid" with
                  | none => exact ⟨_, rfl⟩
                  | some kv =>
                    cases kv with
                    | str kid =>
                      have hne : kid ≠ s.keyID := by
                        intro heq
                        apply h
                        rw [hkid, heq]
                      dsimp only
                      rw [if_pos hne]
                      exact ⟨_, rfl⟩
                    | _ => exact ⟨_, rfl⟩
              | _ => exact ⟨_, rfl⟩
            obtain ⟨e, he⟩ := hk
            rw [he]
            exact ⟨_, rfl⟩
        | _ => exact ⟨_, rfl⟩
  obtain ⟨e, he⟩ := hparse
  unfold ValidateToken
  rw [he]
  dsimp only
  split_ifs <;> rfl

/-- C8 at a token whose header names `HS256`: the hypothesis holds and the token is
rejected. -/
theorem validate_rejects_foreign_alg_or_kid_witness :
    (¬ ∃ a n, hs256Token.header.get "alg" = some (.str a) ∧ GetSigningMethod a = some (.RSA n)) ∧
    (ValidateToken demoJWT 0 (.jws hs256Token)).isOk = false :=
  have hyp : ¬ ∃ a n, hs256Token.header.get "alg" = some (.str a) ∧
      GetSigningMethod a = some (.RSA n) := by
    rintro ⟨a, n, ha, hm⟩
    have ha2 : a = "HS256" := by
      have h3 : hs256Token.header.get "alg" = some (.str "HS256") := by decide
      rw [h3] at ha
      injection ha with ha
      injection ha with ha
      exact ha.symm
    subst ha2
    have hm2 : GetSigningMethod "HS256" = some (.HMAC "HS256") := by decide
    rw [hm2] at hm
    injection hm with hm
    cases hm
  ⟨hyp, validate_rejects_foreign_alg_or_kid demoJWT 0 hs256Token (Or.inl hyp)⟩

/-! ### One-time codes -/

theorem GetOTPCode_none_after_use (db : DB) (now later : Int) (phone : String) (id : String)
    (hle : now ≤ later)
    (honly : ∀ o ∈ db.otpCodes, o.Phone = phone → o.Purpose = "login" → o.Used = false →
      now < o.ExpiresAt → o.ID = id) :
    tokenRepository.GetOTPCode (tokenRepository.UseOTPCode db now id).1 later phone "login"
      = .err (.api ErrOTPInvalid) := by
  have hnone : ∀ (l : List OTPCode), (∀ o ∈ l, o.Phone = phone → o.Purpose = "login" →
      o.Used = false → now < o.ExpiresAt → o.ID = id) →
      (l.map fun o => if o.ID = id then { o with Used := true, UsedAt := some now } else o).find?
        (fun o => decide (o.Phone = phone) && decide (o.Purpose = "login") && !o.Used
          && decide (later < o.ExpiresAt)) = none := by
    intro l hl
    rw [List.find?_eq_none]
    intro o' ho'
    rw [List.mem_map] at ho'
    obtain ⟨o, ho, rfl⟩ := ho'
    by_cases hid : o.ID = id
    · simp [hid]
    · simp only [hid, if_false]
      intro hp
      simp only [Bool.and_eq_true, decide_eq_true_eq, Bool.not_eq_true'] at hp
      obtain ⟨⟨⟨h1, h2⟩, h3⟩, h4⟩ := hp
      exact hid (hl o ho h1 h2 h3 (by omega))
  unfold tokenRepository.GetOTPCode tokenRepository.UseOTPCode
  split_ifs with hany
  · simp only
    rw [hnone db.otpCodes honly]
  · simp only
    have : db.otpCodes.find? (fun o => decide (o.Phone = phone) && decide (o.Purpose = "login")
        && !o.Used && decide (later < o.ExpiresAt)) = none := by
      rw [List.find?_eq_none]
      intro o ho hp
      simp only [Bool.and_eq_true, decide_eq_true_eq, Bool.not_eq_true'] at hp
      obtain ⟨⟨⟨h1, h2⟩, h3⟩, h4⟩ := hp
      have hid := honly o ho h1 h2 h3 (by omega)
      apply hany
      rw [List.any_eq_true]
      exact ⟨o, ho, by simp [hid]⟩
    rw [this]

theorem GetOTPCode_ok_mem (db : DB) (now : Int) (phone purpose : String) (c : OTPCode)
    (h : tokenRepository.GetOTPCode db now phone purpose = .ok c) :
    c ∈ db.otpCodes ∧ c.Used = false ∧ now < c.ExpiresAt := by
  unfold tokenRepository.GetOTPCode at h
  cases hf : db.otpCodes.find? (fun o => decide (o.Phone = phone) && decide (o.Purpose = purpose)
      && !o.Used && decide (now < o.ExpiresAt)) with
  | none => rw [hf] at h; cases h
  | some o =>
    rw [hf] at h
    injection h with h
    subst h
    have hp := List.find?_some hf
    simp only [Bool.and_eq_true, decide_eq_true_eq, Bool.not_eq_true'] at hp
    exact ⟨List.mem_of_find?_eq_some hf, hp.1.2, hp.2⟩

theorem LoginWithWhatsApp_sql_match (cfg : JWTConfig) (jwt : jwtService) (utils : Utils)
    (w : World) (now : Int) (ids : FreshIDs) (phone code : String) (c : OTPCode)
    (hphone : phone ≠ "") (hcode : code ≠ "")
    (hget : tokenRepository.GetOTPCode w.db now phone "login" = .ok c)
    (hatt : c.Attempts < c.MaxAttempts)
    (hverify : utils.VerifyOTP code c.CodeHash = true) :
    (sqlService cfg jwt utils).LoginWithWhatsApp w now ids ⟨phone, code⟩
      = ⟨.err (.api (ErrUserNotFound.WithDetails "phone lookup not supported in current schema")),
         { w with db := (tokenRepository.UseOTPCode w.db now c.ID).1 },
         [.otpMarkedUsed c.ID, .userLookup phone]⟩ := by
  obtain ⟨hmem, hused, hexp⟩ := GetOTPCode_ok_mem w.db now phone "login" c hget
  have hany : (w.db.otpCodes.any fun o => decide (o.ID = c.ID)) = true := by
    rw [List.any_eq_true]
    exact ⟨c, hmem, by simp⟩
  have hnotafter : After now c.ExpiresAt = false := by
    unfold After
    simp only [decide_eq_false_iff_not]
    omega
  have huse : tokenRepository.UseOTPCode w.db now c.ID
      = ({ w.db with otpCodes := w.db.otpCodes.map fun o =>
            if o.ID = c.ID then { o with Used := true, UsedAt := some now } else o }, none) := by
    unfold tokenRepository.UseOTPCode
    rw [if_pos hany]
  have hge : ¬ c.Attempts ≥ c.MaxAttempts := by omega
  simp only [authService.LoginWithWhatsApp, sqlService, sqlTokenRepository, sqlUserRepository,
    hphone, hcode, if_false, hget, hnotafter, hused, hge, hverify, huse,
    userRepository.GetUserByPhone, Bool.false_eq_true, Bool.true_eq_false]

/-- C9 (amended): with the SQL repositories, when the ledger returns challenge `c` for the
phone, `c` is the only unused, unexpired login challenge of that phone and its attempts are
below the maximum, the first call carrying the code that verifies against `c` marks `c`
used and returns USER_NOT_FOUND, the phone lookup not being supported; every later call
carrying that code fails as well, looks up no user, mints no token and leaves the stores as
they are. -/
theorem otp_consumed_then_refused (cfg : JWTConfig) (jwt : jwtService) (utils : Utils)
    (w : World) (now : Int) (ids : FreshIDs) (phone code : String) (c : OTPCode)
    (hphone : phone ≠ "") (hcode : code ≠ "")
    (hget : tokenRepository.GetOTPCode w.db now phone "login" = .ok c)
    (honly : ∀ o ∈ w.db.otpCodes, o.Phone = phone → o.Purpose = "login" → o.Used = false →
      now < o.ExpiresAt → o.ID = c.ID)
    (hatt : c.Attempts < c.MaxAttempts)
    (hverify : utils.VerifyOTP code c.CodeHash = true) :
    ((sqlService cfg jwt utils).LoginWithWhatsApp w now ids ⟨phone, code⟩).result
      = .err (.api (ErrUserNotFound.WithDetails "phone lookup not supported in current schema")) ∧
    ((sqlService cfg jwt utils).LoginWithWhatsApp w now ids ⟨phone, code⟩).events
      = [.otpMarkedUsed c.ID, .userLookup phone] ∧
    ((sqlService cfg jwt utils).LoginWithWhatsApp w now ids ⟨phone, code⟩).world.db
      = (tokenRepository.UseOTPCode w.db now c.ID).1 ∧
    (∀ o ∈ ((sqlService cfg jwt utils).LoginWithWhatsApp w now ids ⟨phone, code⟩).world.db.otpCodes,
      o.ID = c.ID → o.Used = true) ∧
    ∀ (later : Int) (ids2 : FreshIDs), now ≤ later →
      ((sqlService cfg jwt utils).LoginWithWhatsApp
          ((sqlService cfg jwt utils).LoginWithWhatsApp w now ids ⟨phone, code⟩).world
          later ids2 ⟨phone, code⟩).result.isOk = false ∧
      ((sqlService cfg jwt utils).LoginWithWhatsApp
          ((sqlService cfg jwt utils).LoginWithWhatsApp w now ids ⟨phone, code⟩).world
          later ids2 ⟨phone, code⟩).events = [] ∧
      ((sqlService cfg jwt utils).LoginWithWhatsApp
          ((sqlService cfg jwt utils).LoginWithWhatsApp w now ids ⟨phone, code⟩).world
          later ids2 ⟨phone, code⟩).world.db
        = ((sqlService cfg jwt utils).LoginWithWhatsApp w now ids ⟨phone, code⟩).world.db := by
  rw [LoginWithWhatsApp_sql_match cfg jwt utils w now ids phone code c hphone hcode hget hatt
    hverify]
  refine ⟨rfl, rfl, rfl, ?_, ?_⟩
  · intro o ho hid
    obtain ⟨hmem, -, -⟩ := GetOTPCode_ok_mem w.db now phone "login" c hget
    have hany : (w.db.otpCodes.any fun o => decide (o.ID = c.ID)) = true := by
      rw [List.any_eq_true]
      exact ⟨c, hmem, by simp⟩
    simp only [tokenRepository.UseOTPCode, if_pos hany, List.mem_map] at ho
    obtain ⟨o', -, rfl⟩ := ho
    by_cases h : o'.ID = c.ID
    · simp only [h, if_true]
    · rw [if_neg h] at hid
      exact absurd hid h
  · intro later ids2 hle
    have hnone := GetOTPCode_none_after_use w.db now later phone c.ID hle honly
    simp only [authService.LoginWithWhatsApp, sqlService, sqlTokenRepository, hphone, hcode,
      if_false, hnone, Result.isOk, and_self]

/-- C9 (amended) at the challenge issued to the phone of `ana`: the call with the code
`"123456"` one minute after issue returns USER_NOT_FOUND, the same call a minute later
fails too. -/
theorem otp_consumed_then_refused_witness :
    ((sqlService demoConfig demoJWT demoUtils).LoginWithWhatsApp worldOTP (1 * Minute) demoIDs
        ⟨"+51987654321", "123456"⟩).result
      = .err (.api (ErrUserNotFound.WithDetails "phone lookup not supported in current schema")) ∧
    ((sqlService demoConfig demoJWT demoUtils).LoginWithWhatsApp
        ((sqlService demoConfig demoJWT demoUtils).LoginWithWhatsApp worldOTP (1 * Minute) demoIDs
          ⟨"+51987654321", "123456"⟩).world
        (2 * Minute) demoIDs ⟨"+51987654321", "123456"⟩).result.isOk = false :=
  have h := otp_consumed_then_refused demoConfig demoJWT demoUtils worldOTP (1 * Minute) demoIDs
    "+51987654321" "123456" demoOTP (by decide) (by decide) (by decide)
    (by
      intro o ho _ _ _ _
      have hl : worldOTP.db.otpCodes = [{ demoOTP with CreatedAt := 0 }] := by decide
      rw [hl, List.mem_singleton] at ho
      subst ho
      rfl)
    (by decide) (by decide)
  ⟨h.1, (h.2.2.2.2 (2 * Minute) demoIDs (by decide)).1⟩

/-- C9 as stated fails: for the challenge issued to the phone of `ana`, the first call with
the right code before expiry does not succeed, it returns USER_NOT_FOUND after marking the
challenge used, and the second call with that code fails with OTP_INVALID, which is not
OTP_ALREADY_USED. -/
theorem otp_single_use_counterexample :
    (demoService.LoginWithWhatsApp worldOTP (1 * Minute) demoIDs
        ⟨"+51987654321", "123456"⟩).result.isOk = false ∧
    ((demoService.LoginWithWhatsApp worldOTP (1 * Minute) demoIDs
        ⟨"+51987654321", "123456"⟩).world.db.otpCodes.map fun o => (o.ID, o.Used))
      = [("otp-1", true)] ∧
    (demoService.LoginWithWhatsApp
        (demoService.LoginWithWhatsApp worldOTP (1 * Minute) demoIDs
          ⟨"+51987654321", "123456"⟩).world
        (2 * Minute) demoIDs ⟨"+51987654321", "123456"⟩).result = .err (.api ErrOTPInvalid) ∧
    (Result.err (.api ErrOTPInvalid) : Result LoginResponse) ≠ .err (.api ErrOTPAlreadyUsed) := by
  refine ⟨by decide, by decide, by decide, by decide⟩

/-- C10: for every challenge that the ledger hands to `LoginWithWhatsApp` and every code,
the outcome is OTP_EXPIRED if now is after the expiry; otherwise OTP_ALREADY_USED if the
used flag is set; otherwise OTP_MAX_ATTEMPTS if attempts >= max attempts; otherwise
OTP_INVALID if the code does not verify against the stored hash, and in these four cases
nothing is written; only when none of them holds is the challenge marked used. -/
theorem otp_check_precedence (s : authService) (w : World) (now : Int) (ids : FreshIDs)
    (req : WhatsAppLoginRequest) (c : OTPCode)
    (hphone : req.Phone ≠ "") (hcode : req.OTP ≠ "")
    (hget : s.tokenRepo.GetOTPCode w.db now req.Phone "login" = .ok c) :
    (c.ExpiresAt < now →
      (s.LoginWithWhatsApp w now ids req).result = .err (.api ErrOTPExpired) ∧
      (s.LoginWithWhatsApp w now ids req).world = w ∧
      (s.LoginWithWhatsApp w now ids req).events = []) ∧
    (¬ c.ExpiresAt < now → c.Used = true →
      (s.LoginWithWhatsApp w now ids req).result = .err (.api ErrOTPAlreadyUsed) ∧
      (s.LoginWithWhatsApp w now ids req).world = w ∧
      (s.LoginWithWhatsApp w now ids req).events = []) ∧
    (¬ c.ExpiresAt < now → c.Used = false → c.Attempts ≥ c.MaxAttempts →
      (s.LoginWithWhatsApp w now ids req).result = .err (.api ErrOTPMaxAttempts) ∧
      (s.LoginWithWhatsApp w now ids req).world = w ∧
      (s.LoginWithWhatsApp w now ids req).events = []) ∧
    (¬ c.ExpiresAt < now → c.Used = false → c.Attempts < c.MaxAttempts →
        s.utils.VerifyOTP req.OTP c.CodeHash = false →
      (s.LoginWithWhatsApp w now ids req).result = .err (.api ErrOTPInvalid) ∧
      (s.LoginWithWhatsApp w now ids req).world = w ∧
      (s.LoginWithWhatsApp w now ids req).events = []) ∧
    (¬ c.ExpiresAt < now → c.Used = false → c.Attempts < c.MaxAttempts →
        s.utils.VerifyOTP req.OTP c.CodeHash = true →
      (s.LoginWithWhatsApp w now ids req).world.db = (s.tokenRepo.UseOTPCode w.db now c.ID).1 ∧
      (s.LoginWithWhatsApp w now ids req).world.redis = w.redis ∧
      .otpMarkedUsed c.ID ∈ (s.LoginWithWhatsApp w now ids req).events) := by
  unfold authService.LoginWithWhatsApp
  simp only [hphone, hcode, if_false, hget, After, decide_eq_true_eq]
  refine ⟨?_, ?_, ?_, ?_, ?_⟩
  · intro h1
    simp [h1]
  · intro h1 h2
    simp [h1, h2]
  · intro h1 h2 h3
    simp [h1, h2, h3]
  · intro h1 h2 h3 h4
    have h3' : ¬ c.Attempts ≥ c.MaxAttempts := by omega
    simp [h1, h2, h3', h4]
  · intro h1 h2 h3 h4
    have h3' : ¬ c.Attempts ≥ c.MaxAttempts := by omega
    simp only [h1, h2, h3', h4, if_false, Bool.false_eq_true, Bool.true_eq_false]
    cases hu : s.tokenRepo.UseOTPCode w.db now c.ID with
    | mk db1 e =>
      cases e with
      | some e => simp
      | none =>
        simp only
        split <;> simp

/-- C10 at the challenge issued to the phone of `ana` and a wrong code, one minute after
issue: the ledger hands the challenge over and the outcome is OTP_INVALID with nothing
written. -/
theorem otp_check_precedence_witness :
    demoService.tokenRepo.GetOTPCode worldOTP.db (1 * Minute) "+51987654321" "login"
      = .ok { demoOTP with CreatedAt := 0 } ∧
    (demoService.LoginWithWhatsApp worldOTP (1 * Minute) demoIDs
        ⟨"+51987654321", "000000"⟩).result = .err (.api ErrOTPInvalid) ∧
    (demoService.LoginWithWhatsApp worldOTP (1 * Minute) demoIDs
        ⟨"+51987654321", "000000"⟩).events = [] :=
  have hget : demoService.tokenRepo.GetOTPCode worldOTP.db (1 * Minute) "+51987654321" "login"
      = .ok { demoOTP with CreatedAt := 0 } := by decide
  have h := (otp_check_precedence demoService worldOTP (1 * Minute) demoIDs
    ⟨"+51987654321", "000000"⟩ { demoOTP with CreatedAt := 0 } (by decide) (by decide)
    hget).2.2.2.1 (by decide) (by decide) (by decide) (by decide)
  ⟨hget, h.1, h.2.2⟩

/-! ### OTP attempts and issuance throttle -/

/-- C11, at the challenge issued to the phone of `ana`: three calls with the wrong code
`"000000"` each fail with OTP_INVALID and leave the attempt counter at 0, and the fourth
call, with the right code, passes the attempt check and marks the challenge used instead of
failing with OTP_MAX_ATTEMPTS. -/
theorem otp_mismatch_not_counted :
    ((otpLoginRun demoService demoIDs worldOTP
        [(1 * Minute, ⟨"+51987654321", "000000"⟩), (2 * Minute, ⟨"+51987654321", "000000"⟩),
         (3 * Minute, ⟨"+51987654321", "000000"⟩)]).map fun o => o.result)
      = List.replicate 3 (.err (.api ErrOTPInvalid)) ∧
    ((otpLoginsFrom demoService demoIDs worldOTP
        [(1 * Minute, ⟨"+51987654321", "000000"⟩), (2 * Minute, ⟨"+51987654321", "000000"⟩),
         (3 * Minute, ⟨"+51987654321", "000000"⟩)]).db.otpCodes.map
        fun o => (o.ID, o.Attempts, o.MaxAttempts, o.Used)) = [("otp-1", 0, 3, false)] ∧
    (demoService.LoginWithWhatsApp
        (otpLoginsFrom demoService demoIDs worldOTP
          [(1 * Minute, ⟨"+51987654321", "000000"⟩), (2 * Minute, ⟨"+51987654321", "000000"⟩),
           (3 * Minute, ⟨"+51987654321", "000000"⟩)])
        (4 * Minute) demoIDs ⟨"+51987654321", "123456"⟩).events
      = [.otpMarkedUsed "otp-1", .userLookup "+51987654321"] ∧
    (demoService.LoginWithWhatsApp
        (otpLoginsFrom demoService demoIDs worldOTP
          [(1 * Minute, ⟨"+51987654321", "000000"⟩), (2 * Minute, ⟨"+51987654321", "000000"⟩),
           (3 * Minute, ⟨"+51987654321", "000000"⟩)])
        (4 * Minute) demoIDs ⟨"+51987654321", "123456"⟩).result
      ≠ .err (.api ErrOTPMaxAttempts) := by
  refine ⟨by decide, by decide, by decide, by decide⟩

theorem GetInt_not_failed_up (r : Redis) (now : Int) (key : String)
    (h : (r.GetInt now key).2 = false) : r.up = true := by
  cases hup : r.up
  · simp [Redis.GetInt, Redis.Get, hup] at h
  · rfl

theorem GetInt_after_Set (r : Redis) (now later : Int) (key : String) (n : Int)
    (hup : r.up = true) (hlt : later < now + Hour) :
    (r.Set now key (.int n) Hour).1.GetInt later key = (n, false) := by
  have hle : ¬ now + Hour ≤ later := by omega
  simp [Redis.GetInt, Redis.Get, Redis.Set, Redis.put, Redis.live, hup, hle]

theorem send_succeeded (s : authService) (w : World) (now : Int) (draw : OTPDraw) (phone : String)
    (hwrite : draw.cacheUpAtWrite = true)
    (h : (s.SendWhatsAppOTP w now draw phone).result = .ok ()) :
    (w.redis.GetInt now (otpRateKey phone)).2 = false ∧
    (w.redis.GetInt now (otpRateKey phone)).1 < 3 ∧
    (s.SendWhatsAppOTP w now draw phone).world.redis
      = (w.redis.Set now (otpRateKey phone)
          (.int ((w.redis.GetInt now (otpRateKey phone)).1 + 1)) Hour).1 := by
  unfold authService.SendWhatsAppOTP at h ⊢
  dsimp only at h ⊢
  cases hg : (w.redis.GetInt now (otpRateKey phone)).2
  · by_cases hc : (w.redis.GetInt now (otpRateKey phone)).1 ≥ 3
    · simp [hg, hc] at h
    · simp only [hg, hc, if_false, Bool.false_eq_true, hwrite, if_true] at h ⊢
      refine ⟨trivial, by omega, ?_⟩
      revert h
      split
      · intro h; cases h
      · split
        · intro h; cases h
        · split
          · intro h; cases h
          · intro _; rfl
  · simp [hg] at h

/-- C12 (amended): when the throttle counter of a phone, where the first call finds one,
holds a count that is not negative, then after three `SendWhatsAppOTP` calls for the phone
have succeeded, each with its counter write accepted by the cache, a fourth call less than
60 minutes after the first fails with TOO_MANY_ATTEMPTS, hands no challenge to the ledger and
nothing to the notifier, and leaves the stores as they are. -/
theorem otp_issuance_throttle (s : authService) (w0 : World) (phone : String)
    (t1 t2 t3 t4 : Int) (d1 d2 d3 d4 : OTPDraw)
    (hcount : 0 ≤ (w0.redis.GetInt t1 (otpRateKey phone)).1)
    (hwrite : d1.cacheUpAtWrite = true ∧ d2.cacheUpAtWrite = true ∧ d3.cacheUpAtWrite = true)
    (h12 : t1 ≤ t2) (h23 : t2 ≤ t3) (h34 : t3 ≤ t4) (hwin : t4 < t1 + 60 * Minute)
    (hok : ∀ o ∈ sendRun s phone w0 [(t1, d1), (t2, d2), (t3, d3)], o.result = .ok ()) :
    (s.SendWhatsAppOTP (sendsFrom s phone w0 [(t1, d1), (t2, d2), (t3, d3)]) t4 d4 phone).result
      = .err (.api (ErrTooManyAttempts.WithDetails "too many OTP requests")) ∧
    (s.SendWhatsAppOTP (sendsFrom s phone w0 [(t1, d1), (t2, d2), (t3, d3)]) t4 d4 phone).events
      = [] ∧
    (s.SendWhatsAppOTP (sendsFrom s phone w0 [(t1, d1), (t2, d2), (t3, d3)]) t4 d4 phone).world.db
      = (sendsFrom s phone w0 [(t1, d1), (t2, d2), (t3, d3)]).db := by
  simp only [sendRun, sendsFrom, List.mem_cons, List.mem_singleton, List.not_mem_nil,
    or_false, forall_eq_or_imp, forall_eq] at hok ⊢
  obtain ⟨hs1, hs2, hs3⟩ := hok
  obtain ⟨hd1, hd2, hd3⟩ := hwrite
  have hH : Hour = 60 * Minute := rfl
  obtain ⟨hg1, _, hw1⟩ := send_succeeded s w0 t1 d1 phone hd1 hs1
  have hup0 := GetInt_not_failed_up _ _ _ hg1
  generalize (s.SendWhatsAppOTP w0 t1 d1 phone).world = w1 at hw1 hs2 hs3 ⊢
  have hget2 : w1.redis.GetInt t2 (otpRateKey phone)
      = ((w0.redis.GetInt t1 (otpRateKey phone)).1 + 1, false) := by
    rw [hw1]; exact GetInt_after_Set _ _ _ _ _ hup0 (by omega)
  obtain ⟨hg2, _, hw2⟩ := send_succeeded s w1 t2 d2 phone hd2 hs2
  have hup1 := GetInt_not_failed_up _ _ _ hg2
  generalize (s.SendWhatsAppOTP w1 t2 d2 phone).world = w2 at hw2 hs3 ⊢
  have hget3 : w2.redis.GetInt t3 (otpRateKey phone)
      = ((w0.redis.GetInt t1 (otpRateKey phone)).1 + 1 + 1, false) := by
    rw [hw2, hget2]; exact GetInt_after_Set _ _ _ _ _ hup1 (by omega)
  obtain ⟨hg3, _, hw3⟩ := send_succeeded s w2 t3 d3 phone hd3 hs3
  have hup2 := GetInt_not_failed_up _ _ _ hg3
  generalize (s.SendWhatsAppOTP w2 t3 d3 phone).world = w3 at hw3 ⊢
  have hget4 : w3.redis.GetInt t4 (otpRateKey phone)
      = ((w0.redis.GetInt t1 (otpRateKey phone)).1 + 1 + 1 + 1, false) := by
    rw [hw3, hget3]; exact GetInt_after_Set _ _ _ _ _ hup2 (by omega)
  have hge : (w0.redis.GetInt t1 (otpRateKey phone)).1 + 1 + 1 + 1 ≥ 3 := by omega
  unfold authService.SendWhatsAppOTP
  simp only [hget4, hge, if_true, Bool.false_eq_true, if_false, and_self]

/-- C12 (amended) at three requests for the phone of `ana` in minutes 0, 10 and 20 from an
empty cache that takes every write: all three succeed and the fourth, in minute 30, fails
with TOO_MANY_ATTEMPTS. -/
theorem otp_issuance_throttle_witness :
    (∀ o ∈ sendRun demoService "+51987654321" world0
        [(0, drawFor "1"), (10 * Minute, drawFor "2"), (20 * Minute, drawFor "3")],
      o.result = .ok ()) ∧
    (demoService.SendWhatsAppOTP
        (sendsFrom demoService "+51987654321" world0
          [(0, drawFor "1"), (10 * Minute, drawFor "2"), (20 * Minute, drawFor "3")])
        (30 * Minute) (drawFor "4") "+51987654321").result
      = .err (.api (ErrTooManyAttempts.WithDetails "too many OTP requests")) ∧
    (demoService.SendWhatsAppOTP
        (sendsFrom demoService "+51987654321" world0
          [(0, drawFor "1"), (10 * Minute, drawFor "2"), (20 * Minute, drawFor "3")])
        (30 * Minute) (drawFor "4") "+51987654321").events = [] :=
  have hok : ∀ o ∈ sendRun demoService "+51987654321" world0
      [(0, drawFor "1"), (10 * Minute, drawFor "2"), (20 * Minute, drawFor "3")],
      o.result = .ok () := by
    intro o ho
    simp only [sendRun, List.mem_cons, List.mem_singleton, List.not_mem_nil, or_false] at ho
    rcases ho with ho | ho | ho <;> subst ho <;> decide
  have h := otp_issuance_throttle demoService world0 "+51987654321" 0 (10 * Minute) (20 * Minute)
    (30 * Minute) (drawFor "1") (drawFor "2") (drawFor "3") (drawFor "4")
    (by decide) (by decide) (by decide) (by decide) (by decide) (by decide) hok
  ⟨hok, h.1, h.2.1⟩

/-- C12 as stated fails.  Three requests for the phone of `ana` in minutes 0, 10 and 20
succeed, the counter write of the second not reaching the cache: the counter reads 2 and the
fourth request, in minute 30, succeeds, a new challenge is stored and handed to the
notifier.  The same happens with every write accepted when the first call finds a counter
of -1. -/
theorem otp_throttle_counterexample :
    ((sendRun demoService "+51987654321" world0
        [(0, drawFor "1"), (10 * Minute, drawLost "2"), (20 * Minute, drawFor "3")]).map
      fun o => o.result) = [.ok (), .ok (), .ok ()] ∧
    (sendsFrom demoService "+51987654321" world0
        [(0, drawFor "1"), (10 * Minute, drawLost "2"), (20 * Minute, drawFor "3")]).redis.GetInt
      (30 * Minute) (otpRateKey "+51987654321") = (2, false) ∧
    (demoService.SendWhatsAppOTP
        (sendsFrom demoService "+51987654321" world0
          [(0, drawFor "1"), (10 * Minute, drawLost "2"), (20 * Minute, drawFor "3")])
        (30 * Minute) (drawFor "4") "+51987654321").result = .ok () ∧
    (demoService.SendWhatsAppOTP
        (sendsFrom demoService "+51987654321" world0
          [(0, drawFor "1"), (10 * Minute, drawLost "2"), (20 * Minute, drawFor "3")])
        (30 * Minute) (drawFor "4") "+51987654321").events
      = [.otpPersisted
          { ID := "otp-4", Phone := "+51987654321", Code := "123456", CodeHash := "h(123456)",
            Purpose := "login", ExpiresAt := 35 * Minute, MaxAttempts := 3 },
         .otpSent "+51987654321" "123456"] ∧
    ((sendRun demoService "+51987654321" worldNegativeCount
        [(0, drawFor "1"), (10 * Minute, drawFor "2"), (20 * Minute, drawFor "3")]).map
      fun o => o.result) = [.ok (), .ok (), .ok ()] ∧
    (demoService.SendWhatsAppOTP
        (sendsFrom demoService "+51987654321" worldNegativeCount
          [(0, drawFor "1"), (10 * Minute, drawFor "2"), (20 * Minute, drawFor "3")])
        (30 * Minute) (drawFor "4") "+51987654321").result = .ok () := by
  refine ⟨by decide, by decide, by decide, by decide, by decide, by decide⟩

/-! ### What is persisted -/

/-- C13, at the first request for the phone of `ana`: the record that `SendWhatsAppOTP`
hands to the ledger carries the drawn code `"123456"` in its `Code` field next to the hash,
and the row the ledger stores holds the code in column `code`. -/
theorem otp_record_holds_plaintext :
    (demoService.SendWhatsAppOTP world0 0 (drawFor "1") "+51987654321").events
      = [.otpPersisted
          { ID := "otp-1", Phone := "+51987654321", Code := "123456", CodeHash := "h(123456)",
            Purpose := "login", ExpiresAt := 5 * Minute, MaxAttempts := 3 },
         .otpSent "+51987654321" "123456"] ∧
    ((demoService.SendWhatsAppOTP world0 0 (drawFor "1") "+51987654321").world.db.otpCodes.map
        fun o => (o.Code, o.CodeHash)) = [("123456", "h(123456)")] ∧
    (drawFor "1").code = "123456" := by
  refine ⟨by decide, by decide, by decide⟩

/-- C14, after `ana` logs in with her password: the `TokenHash` of the ledger record that
login created is the very refresh token string that login returned. -/
theorem ledger_stores_raw_refresh_token :
    ((demoService.LoginWithPassword world0 0 demoIDs goodLogin).result.value?.map
        fun resp => resp.RefreshToken) = some anasRefreshToken ∧
    ((demoService.LoginWithPassword world0 0 demoIDs goodLogin).world.db.refreshTokens.map
        fun t => (t.JTI, t.TokenHash)) = [(.text "jti-r", anasRefreshToken)] := by
  refine ⟨by decide, by decide⟩

/-! ### Enumeration safety and cache failure -/

theorem LoginWithPassword_not_blocked_eq (s : authService) (w : World) (now : Int)
    (ids : FreshIDs) (req : LoginRequest) (h : w.redis.blocks now req.Email = false) :
    s.LoginWithPassword w now ids req
      = s.authenticate { w with redis := limited w.redis now req.Email } now ids req := by
  unfold Redis.blocks at h
  simp only [Bool.or_eq_false_iff, decide_eq_false_iff_not] at h
  obtain ⟨hb, ha⟩ := h
  unfold authService.LoginWithPassword limited
  simp only [hb, ha, if_false]

/-- C15: for every cache state in which the caller is not blocked and every email that is
not empty and passes `ValidateEmail`, `LoginWithPassword` returns the same error value,
`ErrInvalidCredentials` with no details, when no user has the email and when the user
exists and the password does not verify against its hash. -/
theorem same_error_for_missing_user_and_wrong_password (s : authService)
    (wa wb : World) (ta tb : Int) (ia ib : FreshIDs) (ra rb : LoginRequest) (e : GoError)
    (user : User)
    (hla : wa.redis.blocks ta ra.Email = false) (hlb : wb.redis.blocks tb rb.Email = false)
    (hea : ra.Email ≠ "") (heb : rb.Email ≠ "")
    (hva : s.utils.ValidateEmail ra.Email = none) (hvb : s.utils.ValidateEmail rb.Email = none)
    (hmissing : s.userRepo.GetUserByEmail wa.db ra.Email = .err e)
    (hfound : s.userRepo.GetUserByEmail wb.db rb.Email = .ok user)
    (hwrong : s.utils.VerifyPassword rb.Password user.PasswordHash = false) :
    (s.LoginWithPassword wa ta ia ra).result = (s.LoginWithPassword wb tb ib rb).result ∧
    (s.LoginWithPassword wa ta ia ra).result = .err (.api ErrInvalidCredentials) ∧
    ErrInvalidCredentials
      = { Code := "INVALID_CREDENTIALS", Message := "Invalid credentials", Details := none,
          Status := 401 } := by
  have ha : (s.LoginWithPassword wa ta ia ra).result = .err (.api ErrInvalidCredentials) := by
    rw [LoginWithPassword_not_blocked_eq s wa ta ia ra hla]
    unfold authService.authenticate
    simp only [hea, if_false, hva, hmissing]
  have hb : (s.LoginWithPassword wb tb ib rb).result = .err (.api ErrInvalidCredentials) := by
    rw [LoginWithPassword_not_blocked_eq s wb tb ib rb hlb]
    unfold authService.authenticate
    simp only [heb, if_false, hvb, hfound, hwrong, if_true]
    split_ifs <;> rfl
  exact ⟨ha.trans hb.symm, ha, rfl⟩

/-- C15 at an empty cache: a login for an email nobody has and a login of `ana` with a
wrong password return the same error. -/
theorem same_error_for_missing_user_and_wrong_password_witness :
    (demoService.LoginWithPassword world0 0 demoIDs ⟨"nobody@example.com", "guess"⟩).result
      = (demoService.LoginWithPassword world0 0 demoIDs ⟨"ana@example.com", "guess"⟩).result ∧
    (demoService.LoginWithPassword world0 0 demoIDs ⟨"nobody@example.com", "guess"⟩).result
      = .err (.api ErrInvalidCredentials) :=
  have h := same_error_for_missing_user_and_wrong_password demoService world0 world0 0 0
    demoIDs demoIDs ⟨"nobody@example.com", "guess"⟩ ⟨"ana@example.com", "guess"⟩
    (.api ErrUserNotFound) ana (by decide) (by decide) (by decide) (by decide) rfl rfl
    (by decide) (by decide) (by decide)
  ⟨h.1, h.2.1⟩

set_option maxRecDepth 8000

/-- C16, with the cache unreachable: a login of `ana` with the right password goes on to
the user lookup and the password comparison and succeeds, and so does the same login when
the block flag of `ana` is set in the cache that cannot be read; with the cache reachable
that login is rejected as blocked. -/
theorem cache_failure_is_not_rate_limited :
    worldCacheDown.redis.Get 0 (blockKey "ana@example.com") = .fail ∧
    (worldCacheDown.redis.Incr 0 (attemptsKey "ana@example.com")).2 = none ∧
    (demoService.LoginWithPassword worldCacheDown 0 demoIDs goodLogin).result.isOk = true ∧
    ((demoService.LoginWithPassword worldCacheDown 0 demoIDs goodLogin).events.take 2)
      = [.userLookup "ana@example.com", .passwordCompare] ∧
    (demoService.LoginWithPassword
        { worldBlockedCacheDown with redis := { worldBlockedCacheDown.redis with up := true } }
        (6 * Second) demoIDs goodLogin).result = .err blockedError ∧
    (demoService.LoginWithPassword worldBlockedCacheDown (6 * Second) demoIDs goodLogin).result.isOk
      = true := by
  refine ⟨by decide, by decide, by decide, by decide, by decide, by decide⟩

/-! ### The refresh-token ledger -/

theorem same_record_of_same_jti (db : DB) (hnodup : (db.refreshTokens.map fun t => t.JTI).Nodup)
    (t t2 : RefreshToken) (ht : t ∈ db.refreshTokens) (ht2 : t2 ∈ db.refreshTokens)
    (hj : t2.JTI = t.JTI) : t2 = t :=
  List.inj_on_of_nodup_map hnodup ht2 ht hj

theorem staysRevoked_map (db : DB) (hnodup : (db.refreshTokens.map fun t => t.JTI).Nodup)
    (f : RefreshToken → RefreshToken) (hJ : ∀ t, (f t).JTI = t.JTI)
    (hR : ∀ t, t.Revoked = true → (f t).Revoked = true) :
    StaysRevoked db { db with refreshTokens := db.refreshTokens.map f } := by
  intro t ht hrev t2 ht2 hj
  simp only [List.mem_map] at ht2
  obtain ⟨t0, ht0, rfl⟩ := ht2
  rw [hJ] at hj
  have := same_record_of_same_jti db hnodup t t0 ht ht0 hj
  subst this
  exact hR _ hrev

theorem staysRevoked_refl (db : DB) (hnodup : (db.refreshTokens.map fun t => t.JTI).Nodup) :
    StaysRevoked db db := by
  intro t ht hrev t2 ht2 hj
  rw [same_record_of_same_jti db hnodup t t2 ht ht2 hj]
  exact hrev

/-- C17 (amended): in a ledger with at most one record per jti, `CreateRefreshToken`,
`RevokeRefreshToken`, `RevokeAllUserTokens` and `CleanupExpiredTokens` never change a record
from revoked to not revoked, and neither does `UpdateRefreshToken` when the record it is
passed says revoked; `UpdateRefreshToken` writes the revoked flag of the record it is passed
to the record of that jti. -/
theorem revoked_stays_revoked (db : DB) (now : Int)
    (hnodup : (db.refreshTokens.map fun t => t.JTI).Nodup) :
    (∀ token, StaysRevoked db (tokenRepository.CreateRefreshToken db now token).1) ∧
    (∀ jti reason, StaysRevoked db (tokenRepository.RevokeRefreshToken db now jti reason).1) ∧
    (∀ userID reason,
      StaysRevoked db (tokenRepository.RevokeAllUserTokens db now userID reason).1) ∧
    StaysRevoked db (tokenRepository.CleanupExpiredTokens db now).1 ∧
    (∀ token, token.Revoked = true →
      StaysRevoked db (tokenRepository.UpdateRefreshToken db now token).1) ∧
    (∀ token, ∀ t2 ∈ (tokenRepository.UpdateRefreshToken db now token).1.refreshTokens,
      t2.JTI = token.JTI → t2.Revoked = token.Revoked) := by
  refine ⟨?_, ?_, ?_, ?_, ?_, ?_⟩
  · intro token
    unfold tokenRepository.CreateRefreshToken
    by_cases hv : tokenRepository.uniqueViolation db token = true
    · rw [if_pos hv]
      exact staysRevoked_refl db hnodup
    · rw [if_neg hv]
      intro t ht hrev t2 ht2 hj
      simp only [List.mem_cons] at ht2
      rcases ht2 with rfl | ht2
      · exfalso
        apply hv
        unfold tokenRepository.uniqueViolation
        rw [List.any_eq_true]
        exact ⟨t, ht, by simpa using hj.symm⟩
      · rw [same_record_of_same_jti db hnodup t t2 ht ht2 hj]
        exact hrev
  · intro jti reason
    unfold tokenRepository.RevokeRefreshToken
    split_ifs
    · apply staysRevoked_map db hnodup
      · intro t; split_ifs <;> rfl
      · intro t hrev; split_ifs
        · rfl
        · exact hrev
    · exact staysRevoked_refl db hnodup
  · intro userID reason
    unfold tokenRepository.RevokeAllUserTokens
    apply staysRevoked_map db hnodup
    · intro t; split_ifs <;> rfl
    · intro t hrev; split_ifs
      · rfl
      · exact hrev
  · unfold tokenRepository.CleanupExpiredTokens
    intro t ht hrev t2 ht2 hj
    simp only [List.mem_filter] at ht2
    rw [same_record_of_same_jti db hnodup t t2 ht ht2.1 hj]
    exact hrev
  · intro token htok
    unfold tokenRepository.UpdateRefreshToken
    split_ifs
    · apply staysRevoked_map db hnodup
      · intro t; split_ifs <;> rfl
      · intro t hrev; split_ifs
        · exact htok
        · exact hrev
    · exact staysRevoked_refl db hnodup
  · intro token t2 ht2 hj
    unfold tokenRepository.UpdateRefreshToken at ht2
    split_ifs at ht2 with hany
    · simp only [List.mem_map] at ht2
      obtain ⟨t0, -, rfl⟩ := ht2
      by_cases h0 : t0.JTI = token.JTI
      · simp only [h0, if_true]
      · rw [if_neg h0] at hj
        exact absurd hj h0
    · exfalso
      apply hany
      rw [List.any_eq_true]
      exact ⟨t2, ht2, by simpa using hj⟩

/-- C17 (amended) at the ledger in which the record of `ana` is revoked: revoking every
token of another user leaves her record revoked. -/
theorem revoked_stays_revoked_witness :
    (worldRevoked.db.refreshTokens.map fun t => t.JTI).Nodup ∧
    StaysRevoked worldRevoked.db
      (tokenRepository.RevokeAllUserTokens worldRevoked.db (2 * Second) "u-2" "cleanup").1 :=
  have hnodup : (worldRevoked.db.refreshTokens.map fun t => t.JTI).Nodup := by decide
  ⟨hnodup, (revoked_stays_revoked worldRevoked.db (2 * Second) hnodup).2.2.1 "u-2" "cleanup"⟩

/-- C17 as stated fails: `UpdateRefreshToken`, passed the record of `ana` with the revoked
flag cleared, changes her revoked ledger record to not revoked. -/
theorem update_unrevokes_record :
    (worldRevoked.db.refreshTokens.map fun t => (t.JTI, t.Revoked)) = [(.text "jti-r", true)] ∧
    (tokenRepository.UpdateRefreshToken worldRevoked.db (2 * Second)
        { ID := "rec-1", JTI := .text "jti-r", UserID := "u-1", TenantID := some "",
          UnitID := some "", TokenHash := anasRefreshToken, ExpiresAt := 604800 * Second,
          Revoked := false }).2 = none ∧
    ((tokenRepository.UpdateRefreshToken worldRevoked.db (2 * Second)
        { ID := "rec-1", JTI := .text "jti-r", UserID := "u-1", TenantID := some "",
          UnitID := some "", TokenHash := anasRefreshToken, ExpiresAt := 604800 * Second,
          Revoked := false }).1.refreshTokens.map fun t => (t.JTI, t.Revoked))
      = [(.text "jti-r", false)] := by
  refine ⟨by decide, by decide, by decide⟩

/-- C18, at the record of `ana`, revoked at second 1 with reason "manual revocation": a
second `RevokeToken` at second 2 returns success and moves the revoked-at timestamp from
second 1 to second 2, and `RevokeRefreshToken` with another reason replaces the reason. -/
theorem repeated_revoke_overwrites :
    (worldRevoked.db.refreshTokens.map fun t => (t.Revoked, t.RevokedAt, t.RevokedReason))
      = [(true, some (1 * Second), some "manual revocation")] ∧
    (demoService.RevokeToken worldRevoked (2 * Second) (.text "jti-r")).2 = none ∧
    ((demoService.RevokeToken worldRevoked (2 * Second) (.text "jti-r")).1.db.refreshTokens.map
        fun t => (t.Revoked, t.RevokedAt, t.RevokedReason))
      = [(true, some (2 * Second), some "manual revocation")] ∧
    ((tokenRepository.RevokeRefreshToken worldRevoked.db (2 * Second) (.text "jti-r")
        "password reset").1.refreshTokens.map fun t => (t.Revoked, t.RevokedAt, t.RevokedReason))
      = [(true, some (2 * Second), some "password reset")] := by
  refine ⟨by decide, by decide, by decide, by decide⟩

/-- C19: `RevokeAllUserTokens(u)` returns success and keeps every ledger record in place;
afterwards every record of user u is revoked, the records of every other user are what
they were, and a record created for u after the call is not revoked. -/
theorem revoke_all_user_tokens_frame (cfg : JWTConfig) (jwt : jwtService) (utils : Utils)
    (w : World) (now later : Int) (u : String) (token : RefreshToken)
    (hu : u ≠ "") (htok : token.UserID = u)
    (hfresh : tokenRepository.uniqueViolation
      ((sqlService cfg jwt utils).RevokeAllUserTokens w now u).1.db token = false) :
    ((sqlService cfg jwt utils).RevokeAllUserTokens w now u).2 = none ∧
    (((sqlService cfg jwt utils).RevokeAllUserTokens w now u).1.db.refreshTokens.map
        fun t => (t.ID, t.JTI, t.UserID))
      = (w.db.refreshTokens.map fun t => (t.ID, t.JTI, t.UserID)) ∧
    (∀ t ∈ ((sqlService cfg jwt utils).RevokeAllUserTokens w now u).1.db.refreshTokens,
      t.UserID = u → t.Revoked = true) ∧
    (((sqlService cfg jwt utils).RevokeAllUserTokens w now u).1.db.refreshTokens.filter
        fun t => !decide (t.UserID = u))
      = (w.db.refreshTokens.filter fun t => !decide (t.UserID = u)) ∧
    (tokenRepository.CreateRefreshToken
        ((sqlService cfg jwt utils).RevokeAllUserTokens w now u).1.db later token).2 = none ∧
    ∃ created, (tokenRepository.CreateRefreshToken
        ((sqlService cfg jwt utils).RevokeAllUserTokens w now u).1.db later token).1.refreshTokens
        = created :: ((sqlService cfg jwt utils).RevokeAllUserTokens w now u).1.db.refreshTokens ∧
      created.JTI = token.JTI ∧ created.UserID = u ∧ created.Revoked = false := by
  have hcall : (sqlService cfg jwt utils).RevokeAllUserTokens w now u
      = ({ w with db := (tokenRepository.RevokeAllUserTokens w.db now u "manual revocation").1 },
         none) := by
    simp [authService.RevokeAllUserTokens, sqlService, sqlTokenRepository, hu,
      tokenRepository.RevokeAllUserTokens]
  rw [hcall] at hfresh ⊢
  refine ⟨rfl, ?_, ?_, ?_, ?_, ?_⟩
  · simp only [tokenRepository.RevokeAllUserTokens, List.map_map]
    apply List.map_congr_left
    intro t _
    simp only [Function.comp]
    split_ifs <;> rfl
  · intro t ht hut
    simp only [tokenRepository.RevokeAllUserTokens, List.mem_map] at ht
    obtain ⟨t0, -, rfl⟩ := ht
    by_cases h0 : t0.UserID = u ∧ t0.Revoked = false
    · simp only [h0, and_self, if_true]
    · simp only [h0, if_false] at hut ⊢
      cases hr : t0.Revoked
      · exact absurd ⟨hut, hr⟩ h0
      · rfl
  · simp only [tokenRepository.RevokeAllUserTokens]
    induction w.db.refreshTokens with
    | nil => rfl
    | cons t rest ih =>
      by_cases hut : t.UserID = u
      · by_cases hr : t.Revoked = false
        · simp [List.filter, hut, hr, ih]
        · simp [List.filter, hut, hr, ih]
      · simp [List.filter, hut, ih]
  · simp only [tokenRepository.CreateRefreshToken, hfresh, Bool.false_eq_true, if_false]
  · simp only [tokenRepository.CreateRefreshToken, hfresh, Bool.false_eq_true, if_false]
    exact ⟨_, rfl, rfl, htok, rfl⟩

/-- C19 at a ledger with one record of `ana` and one of `ben`: after
`RevokeAllUserTokens("u-1")` the record of `ana` is revoked, the record of `ben` is not, and
a record created for `ana` afterwards is not revoked. -/
theorem revoke_all_user_tokens_frame_witness :
    ((((sqlService demoConfig demoJWT demoUtils).RevokeAllUserTokens
        { redis := emptyRedis, db := ledgerTwoUsers } (1 * Second) "u-1").1.db.refreshTokens.map
        fun t => (t.UserID, t.Revoked)) = [("u-2", false), ("u-1", true)]) ∧
    ∃ created, (tokenRepository.CreateRefreshToken
        ((sqlService demoConfig demoJWT demoUtils).RevokeAllUserTokens
          { redis := emptyRedis, db := ledgerTwoUsers } (1 * Second) "u-1").1.db (2 * Second)
        { ID := "rec-3", JTI := .text "jti-ana-2", UserID := "u-1", TenantID := none,
          UnitID := none, TokenHash := .text "fp-ana-2", ExpiresAt := 7 * 24 * Hour }).1.refreshTokens
        = created :: ((sqlService demoConfig demoJWT demoUtils).RevokeAllUserTokens
            { redis := emptyRedis, db := ledgerTwoUsers } (1 * Second) "u-1").1.db.refreshTokens ∧
      created.JTI = .text "jti-ana-2" ∧ created.UserID = "u-1" ∧ created.Revoked = false :=
  have h := revoke_all_user_tokens_frame demoConfig demoJWT demoUtils
    { redis := emptyRedis, db := ledgerTwoUsers } (1 * Second) (2 * Second) "u-1"
    { ID := "rec-3", JTI := .text "jti-ana-2", UserID := "u-1", TenantID := none,
      UnitID := none, TokenHash := .text "fp-ana-2", ExpiresAt := 7 * 24 * Hour }
    (by decide) rfl (by decide)
  ⟨by decide, h.2.2.2.2.2⟩

/-! ### Key rotation -/

/-- C20, at the key manager holding key pair 7 and the token service built from it, as at
start-up: `jwtService.RotateKeys` returns an error and changes nothing; after
`KeyManager.RotateKeys` drew key pair 8 the mock HSM holds only key 8, the running token
service still signs with key 7, and the token service built from the current key of the
manager rejects, one second after issue, a token signed before the rotation. -/
theorem rotation_drops_previous_key :
    (demoKeyManager.GetCurrentPrivateKey 99).2 = 7 ∧
    demoJWT = NewJWTService demoConfig 7 ∧
    demoJWT.RotateKeys
      = (demoJWT, some (.errorf "key rotation not implemented - requires HSM integration")) ∧
    (demoKeyManager.RotateKeys 8).2 = none ∧
    (demoKeyManager.RotateKeys 8).1.hsmClient.keys = [("hsm-key", 8)] ∧
    ((demoKeyManager.RotateKeys 8).1.GetCurrentPrivateKey 99).2 = 8 ∧
    (match (GenerateAccessToken demoJWT.RotateKeys.1 (2000 * Second) "jti-b" "u-1" "t-1" "n-1").1 with
      | .jws t => t.signature.key
      | .text _ => 0) = 7 ∧
    (ValidateToken demoJWT (1001 * Second)
      (GenerateAccessToken demoJWT (1000 * Second) "jti-a" "u-1" "t-1" "n-1").1).isOk = true ∧
    ValidateToken (NewJWTService demoConfig 8) (1001 * Second)
        (GenerateAccessToken demoJWT (1000 * Second) "jti-a" "u-1" "t-1" "n-1").1
      = .err (.api (ErrTokenInvalid.WithDetails
          "token signature is invalid: crypto/rsa: verification error")) := by
  refine ⟨by decide, by decide, by decide, by decide, by decide, by decide, by decide, by decide,
    by decide⟩

/-! ### Password policy -/

/-- The flags of the `service` loop after a run over `l`, started from `f`. -/
theorem service_flags (u : UnicodeTables) (l : List Char) : ∀ f : PasswordFlags,
    (l.foldl (service.flagsStep u) f).hasUpper = (f.hasUpper || l.any u.IsUpper) ∧
    (l.foldl (service.flagsStep u) f).hasLower
      = (f.hasLower || l.any fun c => !u.IsUpper c && u.IsLower c) ∧
    (l.foldl (service.flagsStep u) f).hasNumber
      = (f.hasNumber || l.any fun c => !u.IsUpper c && !u.IsLower c && u.IsDigit c) ∧
    (l.foldl (service.flagsStep u) f).hasSpecial
      = (f.hasSpecial || l.any fun c =>
          !u.IsUpper c && !u.IsLower c && !u.IsDigit c && service.specialChars.contains c) := by
  induction l with
  | nil => intro f; simp
  | cons c l ih =>
    intro f
    simp only [List.foldl_cons, List.any_cons]
    obtain ⟨h1, h2, h3, h4⟩ := ih (service.flagsStep u f c)
    rw [h1, h2, h3, h4]
    unfold service.flagsStep
    cases hU : u.IsUpper c <;> cases hL : u.IsLower c <;> cases hD : u.IsDigit c <;>
      cases hS : service.specialChars.contains c <;> simp

/-- The flags of the `utils` loop after a run over `l`, started from `f`. -/
theorem utils_flags (u : UnicodeTables) (l : List Char) : ∀ f : PasswordFlags,
    (l.foldl (utils.flagsStep u) f).hasUpper = (f.hasUpper || l.any u.IsUpper) ∧
    (l.foldl (utils.flagsStep u) f).hasLower
      = (f.hasLower || l.any fun c => !u.IsUpper c && u.IsLower c) ∧
    (l.foldl (utils.flagsStep u) f).hasNumber
      = (f.hasNumber || l.any fun c => !u.IsUpper c && !u.IsLower c && u.IsNumber c) ∧
    (l.foldl (utils.flagsStep u) f).hasSpecial
      = (f.hasSpecial || l.any fun c =>
          !u.IsUpper c && !u.IsLower c && !u.IsNumber c && (u.IsPunct c || u.IsSymbol c)) := by
  induction l with
  | nil => intro f; simp
  | cons c l ih =>
    intro f
    simp only [List.foldl_cons, List.any_cons]
    obtain ⟨h1, h2, h3, h4⟩ := ih (utils.flagsStep u f c)
    rw [h1, h2, h3, h4]
    unfold utils.flagsStep
    cases hU : u.IsUpper c <;> cases hL : u.IsLower c <;> cases hD : u.IsNumber c <;>
      cases hS : (u.IsPunct c || u.IsSymbol c) <;> simp [hS]

/-- The ASCII tables have the properties asked of the Unicode tables. -/
theorem asciiTables_sound : asciiTables.Sound := by
  refine ⟨?_, ?_, ?_, ?_, ?_⟩
  · intro c h
    simp only [asciiTables, Bool.and_eq_true, decide_eq_true_eq] at h
    simp only [asciiTables, Bool.and_eq_false_iff, decide_eq_false_iff_not]
    omega
  · intro c h
    simp only [asciiTables, Bool.and_eq_true, decide_eq_true_eq] at h
    simp only [asciiTables, Bool.and_eq_false_iff, decide_eq_false_iff_not]
    omega
  · intro c h; exact h
  · intro c h
    have hc : c ∈ asciiPunct ∨ c ∈ asciiSymbol := by
      simpa [asciiTables] using h
    simp only [asciiTables, Bool.and_eq_false_iff, decide_eq_false_iff_not]
    have : 33 ≤ c.toNat ∧ c.toNat ≤ 47 ∨ 58 ≤ c.toNat ∧ c.toNat ≤ 64 ∨
        91 ≤ c.toNat ∧ c.toNat ≤ 96 ∨ 123 ≤ c.toNat ∧ c.toNat ≤ 126 := by
      rcases hc with hc | hc
      · simp only [asciiPunct, List.mem_cons, List.mem_singleton, List.not_mem_nil, or_false] at hc
        rcases hc with h | h | h | h | h | h | h | h | h | h | h | h | h | h | h | h | h | h | h | h
          | h | h | h <;> subst h <;> decide
      · simp only [asciiSymbol, List.mem_cons, List.mem_singleton, List.not_mem_nil, or_false] at hc
        rcases hc with h | h | h | h | h | h | h | h | h <;> subst h <;> decide
    omega
  · intro c _
    exact ⟨rfl, rfl, rfl, rfl, rfl, rfl⟩

/-- On ASCII text the `service` loop does not depend on the tables beyond ASCII. -/
theorem service_fold_ascii (u : UnicodeTables) (hu : u.Sound) (l : List Char)
    (hl : ∀ c ∈ l, c.toNat < 128) : ∀ f : PasswordFlags,
    l.foldl (service.flagsStep u) f = l.foldl (service.flagsStep asciiTables) f := by
  induction l with
  | nil => intro f; rfl
  | cons c l ih =>
    intro f
    have hc := hu.ascii c (hl c (List.mem_cons_self _ _))
    have hstep : service.flagsStep u f c = service.flagsStep asciiTables f c := by
      unfold service.flagsStep
      rw [hc.1, hc.2.1, hc.2.2.1]
    simp only [List.foldl_cons, hstep]
    exact ih (fun d hd => hl d (List.mem_cons_of_mem _ hd)) _

/-- On ASCII text `service.ValidatePassword` does not depend on the tables beyond ASCII. -/
theorem service_ValidatePassword_ascii (u : UnicodeTables) (hu : u.Sound) (p : String)
    (hp : ∀ c ∈ p.data, c.toNat < 128) :
    service.ValidatePassword u p = service.ValidatePassword asciiTables p := by
  unfold service.ValidatePassword
  rw [service_fold_ascii u hu p.data hp]

/-- C21 (as amended): for every password of at most 128 bytes, `service.ValidatePassword`,
the check that `RegisterUser` applies, accepts it exactly when it has at least 8 bytes,
contains an uppercase letter, a lowercase letter, a decimal digit and one of the ten
characters `! @ # $ % ^ & * - _`, and is not in the common-password list; `"Abcdef1!"` is
accepted, `"abcdef1!"` and `"password"` are rejected. -/
theorem registration_password_policy (u : UnicodeTables) (hu : u.Sound) (p : String)
    (_h128 : p.utf8ByteSize ≤ 128) :
    (service.ValidatePassword u p = none ↔
      8 ≤ p.utf8ByteSize ∧ (∃ c ∈ p.data, u.IsUpper c = true) ∧
      (∃ c ∈ p.data, u.IsLower c = true) ∧ (∃ c ∈ p.data, u.IsDigit c = true) ∧
      (∃ c ∈ p.data, c ∈ service.specialChars) ∧ p ∉ service.commonPasswords) ∧
    service.ValidatePassword u "Abcdef1!" = none ∧
    service.ValidatePassword u "abcdef1!" ≠ none ∧
    service.ValidatePassword u "password" ≠ none := by
  refine ⟨?_, ?_, ?_, ?_⟩
  · obtain ⟨h1, h2, h3, h4⟩ := service_flags u p.data {}
    have hspecial : ∀ c, c ∈ service.specialChars →
        u.IsUpper c = false ∧ u.IsLower c = false ∧ u.IsDigit c = false := by
      intro c hc
      have hlt : c.toNat < 128 ∧ (asciiTables.IsPunct c || asciiTables.IsSymbol c) = true := by
        simp only [service.specialChars, List.mem_cons, List.mem_singleton, List.not_mem_nil,
          or_false] at hc
        rcases hc with h | h | h | h | h | h | h | h | h | h <;> subst h <;> decide
      have ha := hu.ascii c hlt.1
      have hs := hu.special_not_alnum c (by rw [ha.2.2.2.2.1, ha.2.2.2.2.2]; exact hlt.2)
      refine ⟨hs.1, hs.2.1, ?_⟩
      cases hd : u.IsDigit c
      · rfl
      · rw [hu.digit_number c hd] at hs; exact absurd hs.2.2 (by simp)
    have hU : (p.data.foldl (service.flagsStep u) {}).hasUpper = true ↔
        ∃ c ∈ p.data, u.IsUpper c = true := by
      rw [h1]; simp
    have hL : (p.data.foldl (service.flagsStep u) {}).hasLower = true ↔
        ∃ c ∈ p.data, u.IsLower c = true := by
      rw [h2]
      simp only [Bool.false_or, List.any_eq_true, Bool.and_eq_true, Bool.not_eq_true']
      constructor
      · rintro ⟨c, hc, _, h⟩; exact ⟨c, hc, h⟩
      · rintro ⟨c, hc, h⟩; exact ⟨c, hc, hu.lower_not_upper c h, h⟩
    have hD : (p.data.foldl (service.flagsStep u) {}).hasNumber = true ↔
        ∃ c ∈ p.data, u.IsDigit c = true := by
      rw [h3]
      simp only [Bool.false_or, List.any_eq_true, Bool.and_eq_true, Bool.not_eq_true']
      constructor
      · rintro ⟨c, hc, _, h⟩; exact ⟨c, hc, h⟩
      · rintro ⟨c, hc, h⟩
        exact ⟨c, hc, hu.number_not_letter c (hu.digit_number c h), h⟩
    have hS : (p.data.foldl (service.flagsStep u) {}).hasSpecial = true ↔
        ∃ c ∈ p.data, c ∈ service.specialChars := by
      rw [h4]
      simp only [Bool.false_or, List.any_eq_true, Bool.and_eq_true, Bool.not_eq_true',
        List.contains_iff_exists_mem_beq, beq_iff_eq, exists_eq_right']
      constructor
      · rintro ⟨c, hc, _, h⟩; exact ⟨c, hc, by simpa using h⟩
      · rintro ⟨c, hc, h⟩
        have := hspecial c h
        exact ⟨c, hc, ⟨⟨this.1, this.2.1⟩, this.2.2⟩, by simpa using h⟩
    have hC : service.commonPasswords.contains p = true ↔ p ∈ service.commonPasswords := by
      simp
    rw [← hU, ← hL, ← hD, ← hS, ← hC]
    unfold service.ValidatePassword
    by_cases hlen : p.utf8ByteSize < 8
    · rw [if_pos hlen]
      constructor
      · intro h; exact absurd h (by simp)
      · intro h; omega
    · rw [if_neg hlen]
      simp only []
      cases (p.data.foldl (service.flagsStep u) {}).hasUpper <;>
        cases (p.data.foldl (service.flagsStep u) {}).hasLower <;>
        cases (p.data.foldl (service.flagsStep u) {}).hasNumber <;>
        cases (p.data.foldl (service.flagsStep u) {}).hasSpecial <;>
        cases service.commonPasswords.contains p <;> (simp; try omega)
  · rw [service_ValidatePassword_ascii u hu _ (by decide)]; decide
  · rw [service_ValidatePassword_ascii u hu _ (by decide)]; decide
  · rw [service_ValidatePassword_ascii u hu _ (by decide)]; decide

/-- C21 (amended) at the ASCII tables and the password `"Password1!"`, which the check
accepts. -/
theorem registration_password_policy_witness :
    asciiTables.Sound ∧ "Password1!".utf8ByteSize ≤ 128 ∧
    service.ValidatePassword asciiTables "Password1!" = none :=
  ⟨asciiTables_sound, by decide,
   (registration_password_policy asciiTables asciiTables_sound "Password1!" (by decide)).1.mpr
     (by decide)⟩

/-- C21 as stated fails: the password `"Abcdef1?"` has eight characters, an uppercase
letter, a lowercase letter, a digit and the punctuation character `?`, and is in no list, yet
the check of `RegisterUser` rejects it for lack of a special character. -/
theorem punctuation_outside_the_class_rejected :
    service.ValidatePassword asciiTables "Abcdef1?"
      = some { Reason := "Debe contener al menos un carácter especial." } ∧
    "Abcdef1?".length = 8 ∧ asciiTables.IsPunct '?' = true ∧
    asciiTables.IsUpper 'A' = true ∧ asciiTables.IsLower 'b' = true ∧
    asciiTables.IsDigit '1' = true ∧ "Abcdef1?" ∉ service.commonPasswords := by
  decide

/-- C22: `utils.ValidatePassword(p)` returns nil exactly when the byte length of `p` is
between 8 and 128, the lower-cased `p` is not in `weakPasswords`, and `p` contains an
uppercase, a lowercase, a numeric and a punctuation-or-symbol character; otherwise the error
is MISSING_REQUIRED for the empty string, INVALID_FORMAT for more than 128 bytes, and
WEAK_PASSWORD in every other case. -/
theorem utils_password_policy (u : UnicodeTables) (hu : u.Sound) (p : String) :
    (utils.ValidatePassword u p = none ↔
      8 ≤ p.utf8ByteSize ∧ p.utf8ByteSize ≤ 128 ∧ u.ToLower p ∉ utils.weakPasswords ∧
      (∃ c ∈ p.data, u.IsUpper c = true) ∧ (∃ c ∈ p.data, u.IsLower c = true) ∧
      (∃ c ∈ p.data, u.IsNumber c = true) ∧
      (∃ c ∈ p.data, (u.IsPunct c || u.IsSymbol c) = true)) ∧
    (p = "" → ∃ d, utils.ValidatePassword u p = some (.api (ErrMissingRequired.WithDetails d))) ∧
    (128 < p.utf8ByteSize →
      ∃ d, utils.ValidatePassword u p = some (.api (ErrInvalidFormat.WithDetails d))) ∧
    (p ≠ "" → p.utf8ByteSize ≤ 128 → utils.ValidatePassword u p ≠ none →
      ∃ d, utils.ValidatePassword u p = some (.api (ErrWeakPassword.WithDetails d))) := by
  obtain ⟨h1, h2, h3, h4⟩ := utils_flags u p.data {}
  have hU : (p.data.foldl (utils.flagsStep u) {}).hasUpper = true ↔
      ∃ c ∈ p.data, u.IsUpper c = true := by
    rw [h1]; simp
  have hL : (p.data.foldl (utils.flagsStep u) {}).hasLower = true ↔
      ∃ c ∈ p.data, u.IsLower c = true := by
    rw [h2]
    simp only [Bool.false_or, List.any_eq_true, Bool.and_eq_true, Bool.not_eq_true']
    constructor
    · rintro ⟨c, hc, _, h⟩; exact ⟨c, hc, h⟩
    · rintro ⟨c, hc, h⟩; exact ⟨c, hc, hu.lower_not_upper c h, h⟩
  have hD : (p.data.foldl (utils.flagsStep u) {}).hasNumber = true ↔
      ∃ c ∈ p.data, u.IsNumber c = true := by
    rw [h3]
    simp only [Bool.false_or, List.any_eq_true, Bool.and_eq_true, Bool.not_eq_true']
    constructor
    · rintro ⟨c, hc, _, h⟩; exact ⟨c, hc, h⟩
    · rintro ⟨c, hc, h⟩; exact ⟨c, hc, hu.number_not_letter c h, h⟩
  have hS : (p.data.foldl (utils.flagsStep u) {}).hasSpecial = true ↔
      ∃ c ∈ p.data, (u.IsPunct c || u.IsSymbol c) = true := by
    rw [h4]
    simp only [Bool.false_or, List.any_eq_true, Bool.and_eq_true, Bool.not_eq_true']
    constructor
    · rintro ⟨c, hc, _, h⟩; exact ⟨c, hc, h⟩
    · rintro ⟨c, hc, h⟩
      have := hu.special_not_alnum c h
      exact ⟨c, hc, ⟨⟨this.1, this.2.1⟩, this.2.2⟩, h⟩
  have hW : utils.weakPasswords.contains (u.ToLower p) = true ↔
      u.ToLower p ∈ utils.weakPasswords := by simp
  have hempty : p = "" → p.utf8ByteSize = 0 := by intro h; subst h; decide
  have hM : ∀ f : PasswordFlags, (utils.missingRequirements f).length > 0 ↔
      ¬(f.hasUpper = true ∧ f.hasLower = true ∧ f.hasNumber = true ∧ f.hasSpecial = true) := by
    rintro ⟨a, b, c, d⟩
    cases a <;> cases b <;> cases c <;> cases d <;> simp [utils.missingRequirements]
  rw [← hU, ← hL, ← hD, ← hS, ← hW]
  unfold utils.ValidatePassword utils.minPasswordLength
  by_cases he : p = ""
  · simp only [if_pos he]
    have := hempty he
    refine ⟨?_, fun _ => ⟨_, rfl⟩, fun h => by omega, fun h => absurd he h⟩
    constructor
    · intro h; exact absurd h (by simp)
    · intro h; omega
  · simp only [if_neg he]
    by_cases h8 : p.utf8ByteSize < 8
    · simp only [if_pos h8]
      refine ⟨?_, fun h => absurd h he, fun h => by omega, fun _ _ _ => ⟨_, rfl⟩⟩
      constructor
      · intro h; exact absurd h (by simp)
      · intro h; omega
    · simp only [if_neg h8]
      by_cases h128 : p.utf8ByteSize > 128
      · simp only [if_pos h128]
        refine ⟨?_, fun h => absurd h he, fun _ => ⟨_, rfl⟩, fun _ h => by omega⟩
        constructor
        · intro h; exact absurd h (by simp)
        · intro h; omega
      · simp only [if_neg h128]
        by_cases hw : utils.weakPasswords.contains (u.ToLower p) = true
        · simp only [if_pos hw]
          refine ⟨?_, fun h => absurd h he, fun h => by omega, fun _ _ _ => ⟨_, rfl⟩⟩
          constructor
          · intro h; exact absurd h (by simp)
          · intro h; exact absurd hw h.2.2.1
        · simp only [if_neg hw]
          by_cases hm : (utils.missingRequirements (p.data.foldl (utils.flagsStep u) {})).length > 0
          · simp only [if_pos hm]
            refine ⟨?_, fun h => absurd h he, fun h => by omega, fun _ _ _ => ⟨_, rfl⟩⟩
            constructor
            · intro h; exact absurd h (by simp)
            · intro h; exact absurd h.2.2.2 ((hM _).1 hm)
          · simp only [if_neg hm]
            refine ⟨?_, fun h => absurd h he, fun h => by omega, fun _ _ h => absurd rfl h⟩
            constructor
            · intro _
              have := not_not.1 (fun h => hm ((hM _).2 h))
              exact ⟨by omega, by omega, hw, this⟩
            · intro _; trivial

/-- C22 at the ASCII tables and the password `"MySecurePass123!"`, which the check
accepts. -/
theorem utils_password_policy_witness :
    asciiTables.Sound ∧ utils.ValidatePassword asciiTables "MySecurePass123!" = none :=
  ⟨asciiTables_sound,
   (utils_password_policy asciiTables asciiTables_sound "MySecurePass123!").1.mpr (by decide)⟩

/-! ### Registration -/

/-- C23: `eva@example.com` is registered under tenant `1111..` only; `EmailExistsInTenant`
reports that tenant `2222..` does not have it, yet `RegisterUser` for tenant `2222..` fails
with EMAIL_ALREADY_EXISTS and stores nothing. -/
theorem register_same_email_other_tenant_rejected :
    userRepository.EmailExistsInTenant worldTenants.db "eva@example.com"
        "22222222-2222-2222-2222-222222222222" = .ok false ∧
    (demoService.RegisterUser asciiTables worldTenants 0 "u-4" otherTenantRequest).2
      = .err (.api (ErrEmailAlreadyExists.WithDetails "EMAIL_ALREADY_EXISTS")) ∧
    (demoService.RegisterUser asciiTables worldTenants 0 "u-4" otherTenantRequest).1.db
      = worldTenants.db := by
  decide

/-- The same registration with an email that no user has succeeds and stores the user with
an empty tenant. -/
theorem register_fresh_email_stored :
    ((demoService.RegisterUser asciiTables worldTenants 0 "u-4"
        { otherTenantRequest with Email := "new@example.com" }).2.value?.map fun u =>
          (u.Email, u.TenantID, u.Status)) = some ("new@example.com", "", "inactive") ∧
    ((demoService.RegisterUser asciiTables worldTenants 0 "u-4"
        { otherTenantRequest with Email := "new@example.com" }).1.db.users.map fun u => u.ID)
      = ["u-4", "u-3"] := by
  decide

/-! ### Error wrapping -/

/-- C24 (as amended): for every error that is not an `APIError`, `WrapError` has the code
INTERNAL_SERVER_ERROR, the message `Internal server error` and the status 500, whatever the
error is, and its details are the text of the error. -/
theorem WrapError_generic_kind_with_text (err : GoError) (h : IsAPIError err = none) :
    (WrapError err).Code = "INTERNAL_SERVER_ERROR" ∧
    (WrapError err).Message = "Internal server error" ∧
    (WrapError err).Status = 500 ∧
    (WrapError err).Details = some err.Error := by
  unfold WrapError
  rw [h]
  exact ⟨rfl, rfl, rfl, rfl⟩

/-- C24 (amended) at a driver error: the details are its text. -/
theorem WrapError_generic_kind_with_text_witness :
    IsAPIError (.errorf "pq: relation users does not exist") = none ∧
    (WrapError (.errorf "pq: relation users does not exist")).Details
      = some "pq: relation users does not exist" :=
  ⟨rfl, (WrapError_generic_kind_with_text (.errorf "pq: relation users does not exist") rfl).2.2.2⟩

/-- C24 as stated fails: two errors that are not `APIError`s are wrapped into different
values, the details of each carry its own text. -/
theorem WrapError_details_depend_on_error :
    IsAPIError (.errorf "dial tcp 10.0.0.5:5432: connect: connection refused") = none ∧
    IsAPIError (.errorf "pq: relation users does not exist") = none ∧
    WrapError (.errorf "dial tcp 10.0.0.5:5432: connect: connection refused")
      ≠ WrapError (.errorf "pq: relation users does not exist") ∧
    (WrapError (.errorf "dial tcp 10.0.0.5:5432: connect: connection refused")).Details
      = some "dial tcp 10.0.0.5:5432: connect: connection refused" := by
  decide

/-! ### Configuration -/

/-- With REDIS_ADDRESS unset or empty, the address is the default text, never built. -/
theorem Load_redis_address_default (env : Env) (h : Getenv env "REDIS_ADDRESS" = "") :
    (Load env).Redis.Address = "localhost:6379" := by
  have hg : getEnv env "REDIS_ADDRESS" "localhost:6379" = "localhost:6379" := by
    unfold getEnv; rw [h]; rfl
  unfold Load
  simp only [hg]
  split <;> simp

/-- C30: REDIS_ADDRESS is not set, REDIS_HOST is `custom-redis` and REDIS_PORT is `6380`;
`Load` returns the host and the port as set and the address `localhost:6379`, not
`custom-redis:6380`. -/
theorem redis_address_not_built_from_host_and_port :
    customRedisEnv.lookup "REDIS_ADDRESS" = none ∧
    (Load customRedisEnv).Redis.Host = "custom-redis" ∧
    (Load customRedisEnv).Redis.Port = 6380 ∧
    (Load customRedisEnv).Redis.Address = "localhost:6379" ∧
    (Load customRedisEnv).Redis.Address
      ≠ (Load customRedisEnv).Redis.Host ++ ":" ++ toString (Load customRedisEnv).Redis.Port ∧
    (Load customRedisEnv).Database.URL
      = "postgres://postgres:@localhost:5432/smartedify_auth?sslmode=require" := by
  decide

/-! ### One-time code generation -/

/-- The character of a decimal digit. -/
theorem digitChar_toNat (m : Nat) (h : m < 10) : (Nat.digitChar m).toNat = 48 + m := by
  interval_cases m <;> rfl

/-- The value of a run of digits followed by one more digit. -/
theorem foldl_digits_append (ds : List Char) (c : Char) :
    (ds ++ [c]).foldl (fun a c => 10 * a + (c.toNat - 48)) 0
      = 10 * ds.foldl (fun a c => 10 * a + (c.toNat - 48)) 0 + (c.toNat - 48) := by
  rw [List.foldl_append]; rfl

/-- The run of characters that `Nat.toDigitsCore` writes at base 10 when the fuel is above
the number: it writes the number, has no more characters than the number has places, and
holds digit characters only. -/
theorem toDigitsCore_run : ∀ (fuel n : Nat) (acc : List Char), n < fuel →
    ∃ run : List Char, Nat.toDigitsCore 10 fuel n acc = run ++ acc ∧
      run.foldl (fun a c => 10 * a + (c.toNat - 48)) 0 = n ∧
      (∀ k, 0 < k → n < 10 ^ k → run.length ≤ k) ∧
      ∀ c ∈ run, 48 ≤ c.toNat ∧ c.toNat ≤ 57 := by
  intro fuel
  induction fuel with
  | zero => intro n acc h; omega
  | succ m ih =>
    intro n acc hn
    have hlast := digitChar_toNat (n % 10) (Nat.mod_lt _ (by decide))
    simp only [Nat.toDigitsCore]
    split
    · refine ⟨[Nat.digitChar (n % 10)], rfl, ?_, ?_, ?_⟩
      · simp only [List.foldl_cons, List.foldl_nil]; omega
      · intro k hk _; simp only [List.length_singleton]; omega
      · intro c hc
        rw [List.mem_singleton.1 hc]; omega
    · obtain ⟨run, hrun, hvalue, hlength, hdigit⟩ :=
        ih (n / 10) (Nat.digitChar (n % 10) :: acc) (by omega)
      refine ⟨run ++ [Nat.digitChar (n % 10)], by rw [hrun]; simp, ?_, ?_, ?_⟩
      · rw [foldl_digits_append, hvalue]; omega
      · intro k hk hlt
        rw [List.length_append, List.length_singleton]
        cases k with
        | zero => omega
        | succ j =>
          have hj : 0 < j := by
            cases j with
            | zero => omega
            | succ i => omega
          have hq : n / 10 < 10 ^ j := by
            rw [Nat.pow_succ] at hlt
            exact Nat.div_lt_of_lt_mul (by rw [Nat.mul_comm]; exact hlt)
          have := hlength j hj hq
          omega
      · intro c hc
        rcases List.mem_append.1 hc with hc | hc
        · exact hdigit c hc
        · rw [List.mem_singleton.1 hc]; omega

/-- The bound that the loop of `GenerateOTP` computes. -/
theorem otp_max_eq (n : Nat) : (List.range n).foldl (fun m _ => m * 10) 1 = 10 ^ n := by
  induction n with
  | zero => rfl
  | succ n ih => rw [List.range_succ, List.foldl_append, ih]; rfl

/-- The value of a run of zeros followed by digits. -/
theorem foldl_zeros (k : Nat) (ds : List Char) :
    (List.replicate k '0' ++ ds).foldl (fun a c => 10 * a + (c.toNat - 48)) 0
      = ds.foldl (fun a c => 10 * a + (c.toNat - 48)) 0 := by
  induction k with
  | zero => rfl
  | succ k ih => rw [List.replicate_succ, List.cons_append, List.foldl_cons]; exact ih

/-- C25: with the number `n` below `10 ^ L` as the random draw, `GenerateOTP(length)`
returns a string of exactly `L` decimal digits that writes `n`, where `L` is `length` from
4 to 8 and 6 for every other `length`. -/
theorem GenerateOTP_digits (rand : Nat → Nat) (length : Int) (n : Nat)
    (hdraw : rand (10 ^ otpLength length) = n) (hn : n < 10 ^ otpLength length) :
    ∃ s, GenerateOTP rand length = .ok s ∧ s.length = otpLength length ∧
      (∀ c ∈ s.data, 48 ≤ c.toNat ∧ c.toNat ≤ 57) ∧ decimalValue s = n := by
  have hL : (if length < 4 ∨ length > 8 then (6 : Int) else length).toNat = otpLength length := by
    unfold otpLength
    by_cases h : 4 ≤ length ∧ length ≤ 8
    · rw [if_pos h, if_neg (by omega)]
    · rw [if_neg h, if_pos (by omega)]; rfl
  have hpos : 0 < otpLength length := by
    unfold otpLength
    split <;> omega
  unfold GenerateOTP
  simp only [hL, otp_max_eq, hdraw]
  obtain ⟨ds, h1, h3, h4, h2⟩ := toDigitsCore_run (n + 1) n [] (Nat.lt_succ_self n)
  have hds : Nat.toDigits 10 n = ds := by
    unfold Nat.toDigits; rw [h1, List.append_nil]
  have hlen := h4 _ hpos hn
  refine ⟨_, rfl, ?_, ?_, ?_⟩
  · unfold padDecimal
    rw [hds]
    simp only [String.length, List.length_append, List.length_replicate]
    omega
  · intro c hc
    unfold padDecimal at hc
    rw [hds] at hc
    simp only [List.mem_append, List.mem_replicate] at hc
    rcases hc with ⟨_, hc⟩ | hc
    · subst hc; decide
    · exact h2 c hc
  · unfold decimalValue padDecimal
    rw [hds]
    simp only
    rw [foldl_zeros, h3]

/-- C25 at the draw 42 for a code of 6 digits: the code is `000042`. -/
theorem GenerateOTP_digits_witness :
    (42 : Nat) < 10 ^ otpLength 6 ∧ GenerateOTP (fun _ => 42) 6 = .ok "000042" ∧
    ∃ s, GenerateOTP (fun _ => 42) 6 = .ok s ∧ s.length = otpLength 6 ∧
      (∀ c ∈ s.data, 48 ≤ c.toNat ∧ c.toNat ≤ 57) ∧ decimalValue s = 42 :=
  ⟨by decide, by decide, GenerateOTP_digits (fun _ => 42) 6 42 rfl (by decide)⟩

/-! ### Base64 without padding -/

/-- Every 6-bit group of a byte string is below 64. -/
theorem encodeSextets_lt (src : List Byte) : ∀ v ∈ encodeSextets src, v < 64 := by
  induction src using encodeSextets.induct with
  | case1 a b c rest ih =>
    intro v hv
    simp only [encodeSextets, List.mem_cons] at hv
    rcases hv with h | h | h | h | h
    · have := a.isLt; omega
    · have := b.isLt; omega
    · have := c.isLt; omega
    · omega
    · exact ih v h
  | case2 a b =>
    intro v hv
    simp only [encodeSextets, List.mem_cons, List.mem_singleton, List.not_mem_nil, or_false] at hv
    have := a.isLt
    have := b.isLt
    rcases hv with h | h | h <;> omega
  | case3 a =>
    intro v hv
    simp only [encodeSextets, List.mem_cons, List.mem_singleton, List.not_mem_nil, or_false] at hv
    have := a.isLt
    rcases hv with h | h <;> omega
  | case4 =>
    intro v hv
    simp [encodeSextets] at hv

/-- The groups of a byte string give the byte string back. -/
theorem decodeSextets_encodeSextets (src : List Byte) :
    decodeSextets (encodeSextets src) = some src := by
  induction src using encodeSextets.induct with
  | case1 a b c rest ih =>
    simp only [encodeSextets, decodeSextets, ih, Option.map_some']
    have ha := a.isLt
    have hb := b.isLt
    have hc := c.isLt
    have e1 : toByte (a.val / 4 * 4 + (a.val % 4 * 16 + b.val / 16) / 16) = a := by
      apply Fin.ext; simp only [toByte]; omega
    have e2 : toByte ((a.val % 4 * 16 + b.val / 16) % 16 * 16 + (b.val % 16 * 4 + c.val / 64) / 4)
        = b := by
      apply Fin.ext; simp only [toByte]; omega
    have e3 : toByte ((b.val % 16 * 4 + c.val / 64) % 4 * 64 + c.val % 64) = c := by
      apply Fin.ext; simp only [toByte]; omega
    rw [e1, e2, e3]
  | case2 a b =>
    simp only [encodeSextets, decodeSextets]
    have ha := a.isLt
    have hb := b.isLt
    have e1 : toByte (a.val / 4 * 4 + (a.val % 4 * 16 + b.val / 16) / 16) = a := by
      apply Fin.ext; simp only [toByte]; omega
    have e2 : toByte ((a.val % 4 * 16 + b.val / 16) % 16 * 16 + b.val % 16 * 4 / 4) = b := by
      apply Fin.ext; simp only [toByte]; omega
    rw [e1, e2]
  | case3 a =>
    simp only [encodeSextets, decodeSextets]
    have ha := a.isLt
    have e1 : toByte (a.val / 4 * 4 + a.val % 4 * 16 / 16) = a := by
      apply Fin.ext; simp only [toByte]; omega
    rw [e1]
  | case4 => simp [encodeSextets, decodeSextets]

/-- In the standard alphabet a character gives its 6-bit value back and is neither `$` nor
a line break. -/
theorem std_char_value : ∀ i : Fin 64,
    RawStdEncoding.value (RawStdEncoding.char i.val) = some i.val ∧
    RawStdEncoding.char i.val ≠ '$' ∧
    (!(RawStdEncoding.char i.val == '\r' || RawStdEncoding.char i.val == '\n')) = true := by
  decide

/-- In the URL alphabet a character gives its 6-bit value back and is no line break. -/
theorem url_char_value : ∀ i : Fin 64,
    RawURLEncoding.value (RawURLEncoding.char i.val) = some i.val ∧
    (!(RawURLEncoding.char i.val == '\r' || RawURLEncoding.char i.val == '\n')) = true := by
  decide

/-- Decoding the characters of 6-bit values gives the values back. -/
theorem values_map_char (enc : Encoding)
    (h : ∀ i : Fin 64, enc.value (enc.char i.val) = some i.val) (vs : List Nat)
    (hvs : ∀ v ∈ vs, v < 64) : enc.values (vs.map enc.char) = some vs := by
  induction vs with
  | nil => rfl
  | cons v vs ih =>
    have hv := h ⟨v, hvs v (List.mem_cons_self _ _)⟩
    simp only [List.map_cons, Encoding.values, hv,
      ih (fun w hw => hvs w (List.mem_cons_of_mem _ hw))]

/-- A filter that every element passes changes nothing. -/
theorem filter_map_char (enc : Encoding) (p : Char → Bool)
    (h : ∀ i : Fin 64, p (enc.char i.val) = true) (vs : List Nat) (hvs : ∀ v ∈ vs, v < 64) :
    (vs.map enc.char).filter p = vs.map enc.char := by
  rw [List.filter_eq_self]
  intro c hc
  rw [List.mem_map] at hc
  obtain ⟨v, hv, rfl⟩ := hc
  exact h ⟨v, hvs v hv⟩

/-- The round trip of `RawStdEncoding`. -/
theorem std_decode_encode (src : List Byte) :
    RawStdEncoding.DecodeString (RawStdEncoding.EncodeToString src) = some src := by
  unfold Encoding.DecodeString Encoding.EncodeToString
  simp only
  rw [filter_map_char RawStdEncoding _ (fun i => (std_char_value i).2.2) _ (encodeSextets_lt src),
    values_map_char RawStdEncoding (fun i => (std_char_value i).1) _ (encodeSextets_lt src)]
  exact decodeSextets_encodeSextets src

/-- The round trip of `RawURLEncoding`. -/
theorem url_decode_encode (src : List Byte) :
    RawURLEncoding.DecodeString (RawURLEncoding.EncodeToString src) = some src := by
  unfold Encoding.DecodeString Encoding.EncodeToString
  simp only
  rw [filter_map_char RawURLEncoding _ (fun i => (url_char_value i).2) _ (encodeSextets_lt src),
    values_map_char RawURLEncoding (fun i => (url_char_value i).1) _ (encodeSextets_lt src)]
  exact decodeSextets_encodeSextets src

/-- No `$` in the standard encoding of a byte string. -/
theorem std_encode_no_dollar (src : List Byte) :
    '$' ∉ (RawStdEncoding.EncodeToString src).data := by
  unfold Encoding.EncodeToString
  simp only [List.mem_map, not_exists, not_and]
  intro v hv h
  exact (std_char_value ⟨v, encodeSextets_lt src v hv⟩).2.1 h

/-- A text without the separator is one part. -/
theorem splitChar_of_not_mem (sep : Char) (l : List Char) (h : sep ∉ l) :
    splitChar sep l = [l] := by
  induction l with
  | nil => rfl
  | cons c cs ih =>
    have hc : c ≠ sep := fun e => h (e ▸ List.mem_cons_self _ _)
    have hcs : sep ∉ cs := fun e => h (List.mem_cons_of_mem _ e)
    simp only [splitChar, if_neg hc, ih hcs]

/-- Two texts without the separator, joined by it, split into the two. -/
theorem splitChar_join (sep : Char) (l r : List Char) (hl : sep ∉ l) (hr : sep ∉ r) :
    splitChar sep (l ++ sep :: r) = [l, r] := by
  induction l with
  | nil => simp only [List.nil_append, splitChar, if_true, splitChar_of_not_mem sep r hr]
  | cons c cs ih =>
    have hc : c ≠ sep := fun e => hl (e ▸ List.mem_cons_self _ _)
    have hcs : sep ∉ cs := fun e => hl (List.mem_cons_of_mem _ e)
    rw [List.cons_append, splitChar, if_neg hc, ih hcs]

/-- A string is the string of its characters. -/
theorem mk_data (s : String) : String.mk s.data = s := rfl

/-! ### One-time code hashes -/

/-- C26: for every OTP string and every salt (of 16 bytes or any other length), `VerifyOTP`
accepts the OTP against the hash that `HashOTP` produces for it with that salt. -/
theorem VerifyOTP_accepts_HashOTP (a : Argon2) (salt : List Byte) (otp : String) :
    ∃ h, HashOTP a salt otp = .ok h ∧ VerifyOTP a otp h = true ∧
      splitChar '$' h.data = [(RawStdEncoding.EncodeToString salt).data,
        (RawStdEncoding.EncodeToString (a.IDKey otp salt 1 (32 * 1024) 2 32)).data] := by
  refine ⟨_, rfl, ?_, ?_⟩
  · unfold VerifyOTP
    have hs : splitChar '$' (RawStdEncoding.EncodeToString salt ++ "$" ++
        RawStdEncoding.EncodeToString (a.IDKey otp salt 1 (32 * 1024) 2 32)).data
        = [(RawStdEncoding.EncodeToString salt).data,
           (RawStdEncoding.EncodeToString (a.IDKey otp salt 1 (32 * 1024) 2 32)).data] := by
      simp only [String.data_append, List.append_assoc]
      exact splitChar_join '$' _ _ (std_encode_no_dollar _) (std_encode_no_dollar _)
    simp only [hs, mk_data, std_decode_encode, decide_True]
  · simp only [String.data_append, List.append_assoc]
    exact splitChar_join '$' _ _ (std_encode_no_dollar _) (std_encode_no_dollar _)


/-- The hash of `"123456"` with the salt `01 02 03` under the stand-in for Argon2id, and what
`VerifyOTP` says of it: the code itself passes, another code and a hash without the
separator do not. -/
theorem HashOTP_VerifyOTP_run :
    HashOTP toyArgon2 [1, 2, 3] "123456" = .ok "AQID$AQIDMTIzNDU2" ∧
    VerifyOTP toyArgon2 "123456" "AQID$AQIDMTIzNDU2" = true ∧
    VerifyOTP toyArgon2 "654321" "AQID$AQIDMTIzNDU2" = false ∧
    VerifyOTP toyArgon2 "123456" "AQIDAQIDMTIzNDU2" = false := by
  decide

/-! ### The key set -/

/-- The bytes of a number, lowest first, write the number. -/
theorem bytesLE_value (fuel : Nat) : ∀ n, n ≤ fuel →
    (bytesLE fuel n).foldr (fun b a => 256 * a + b.val) 0 = n := by
  induction fuel with
  | zero => intro n h; simp only [bytesLE, List.foldr_nil]; omega
  | succ fuel ih =>
    intro n h
    by_cases h0 : n = 0
    · simp only [bytesLE, if_pos h0, List.foldr_nil]; omega
    · simp only [bytesLE, if_neg h0, List.foldr_cons, ih (n / 256) (by omega), toByte]
      omega

/-- Without bytes the number is zero. -/
theorem bytesLE_eq_nil (fuel n : Nat) (h : n ≤ fuel) (he : bytesLE fuel n = []) : n = 0 := by
  cases fuel with
  | zero => omega
  | succ fuel =>
    by_cases h0 : n = 0
    · exact h0
    · simp [bytesLE, if_neg h0] at he

/-- The highest byte of a number is not zero. -/
theorem bytesLE_getLast (fuel : Nat) : ∀ n, n ≤ fuel → (bytesLE fuel n).getLast? ≠ some 0 := by
  induction fuel with
  | zero => intro n _; simp [bytesLE]
  | succ fuel ih =>
    intro n h
    by_cases h0 : n = 0
    · simp [bytesLE, if_pos h0]
    · simp only [bytesLE, if_neg h0]
      cases hr : bytesLE fuel (n / 256) with
      | nil =>
        have := bytesLE_eq_nil fuel (n / 256) (by omega) hr
        simp only [List.getLast?_singleton, ne_eq, Option.some.injEq]
        intro hb
        have := congrArg Fin.val hb
        simp only [toByte, Fin.val_zero] at this
        omega
      | cons c cs =>
        rw [List.getLast?_cons_cons, ← hr]
        exact ih (n / 256) (by omega)

/-- The big-endian bytes of a number write the number. -/
theorem beValue_Bytes (n : Nat) : beValue (Bytes n) = n := by
  unfold beValue Bytes
  rw [List.foldl_reverse]
  exact bytesLE_value n n (Nat.le_refl n)

/-- The big-endian bytes of a number do not start with a zero byte. -/
theorem Bytes_head (n : Nat) : (Bytes n).head? ≠ some 0 := by
  unfold Bytes
  rw [List.head?_reverse]
  exact bytesLE_getLast n n (Nat.le_refl n)

/-- C27: for every RSA public key held by the service, `GenerateJWKS` returns exactly one
key, with kty RSA, use sig, alg RS256, the key id of the service, and n and e the unpadded
base64url text of the big-endian bytes of the modulus and of the public exponent: they decode
to bytes that write the two numbers, without a leading zero byte; the exponent 65537 gives
AQAB. -/
theorem GenerateJWKS_single_rsa_key (s : jwtService) (publicKey : RSAPublicKey) :
    ∃ jwk, GenerateJWKS s publicKey = .ok { Keys := [jwk] } ∧
      jwk.KeyType = "RSA" ∧ jwk.Use = "sig" ∧ jwk.Algorithm = "RS256" ∧ jwk.KeyID = s.keyID ∧
      jwk.N = RawURLEncoding.EncodeToString (Bytes publicKey.N) ∧
      jwk.E = RawURLEncoding.EncodeToString (Bytes publicKey.E.natAbs) ∧
      (RawURLEncoding.DecodeString jwk.N).map beValue = some publicKey.N ∧
      (RawURLEncoding.DecodeString jwk.E).map beValue = some publicKey.E.natAbs ∧
      (Bytes publicKey.N).head? ≠ some 0 ∧ (Bytes publicKey.E.natAbs).head? ≠ some 0 ∧
      ((GenerateJWKS s { publicKey with E := 65537 }).value?.map fun r => r.Keys.map fun k => k.E)
        = some ["AQAB"] := by
  refine ⟨_, rfl, rfl, rfl, rfl, rfl, rfl, rfl, ?_, ?_, Bytes_head _, Bytes_head _, ?_⟩
  · simp only [url_decode_encode, Option.map_some', beValue_Bytes]
  · simp only [url_decode_encode, Option.map_some', beValue_Bytes]
  · have h : RawURLEncoding.EncodeToString (Bytes (65537 : Int).natAbs) = "AQAB" := by decide
    simp only [GenerateJWKS, Result.value?, Option.map_some', List.map_cons, List.map_nil, h]


/-- The key set for the modulus 3233 (bytes `0C A1`) and the exponent 65537. -/
theorem GenerateJWKS_run :
    GenerateJWKS demoJWT { N := 3233, E := 65537 }
      = .ok { Keys := [{ KeyType := "RSA", KeyID := "key-1", Use := "sig", Algorithm := "RS256",
                         N := "DKE", E := "AQAB" }] } := by
  decide

/-! ### The mock user repository -/

/-- C28: `eva` is locked with `LockUser` and then `ResetFailedLogins` is called.  In the SQL
repository the user is left with `FailedLogins = 0` and `LockedUntil = nil`; in the mock
repository `FailedLogins` is 0 and `LockedUntil` still holds the end of the lock. -/
theorem mock_reset_keeps_locked_until :
    (MockUserRepository.ResetFailedLogins mockLocked (2 * Second) "u-3").2 = none ∧
    ((MockUserRepository.GetUserByID
        (MockUserRepository.ResetFailedLogins mockLocked (2 * Second) "u-3").1 "u-3").value?.map
      fun u => (u.FailedLogins, u.LockedUntil)) = some (0, some (1 * Second + 15 * Minute)) ∧
    (userRepository.ResetFailedLogins sqlLocked (2 * Second) "u-3").2 = none ∧
    ((userRepository.GetUserByID
        (userRepository.ResetFailedLogins sqlLocked (2 * Second) "u-3").1 "u-3").value?.map
      fun u => (u.FailedLogins, u.LockedUntil)) = some (0, none) := by
  decide

/-- C29: after `CreateUser(eva)` the two maps agree; `UpdateUser` then gives the stored user
a new email and leaves the index as it was, so the maps no longer agree:
`GetUserByEmailAndTenant` finds no user under the new email, and under the old email it
returns the user whose email is the new one. -/
theorem mock_update_leaves_index_stale :
    mockWithEva.Consistent ∧
    (MockUserRepository.UpdateUser mockWithEva (1 * Second)
      { eva with Email := "eva.luna@example.com" }).2 = none ∧
    ¬ mockRenamed.Consistent ∧
    ((MockUserRepository.GetUserByID mockRenamed "u-3").value?.map fun u => (u.Email, u.TenantID))
      = some ("eva.luna@example.com", "11111111-1111-1111-1111-111111111111") ∧
    MockUserRepository.GetUserByEmailAndTenant mockRenamed "eva.luna@example.com"
        "11111111-1111-1111-1111-111111111111" = .err (.api ErrUserNotFound) ∧
    ((MockUserRepository.GetUserByEmailAndTenant mockRenamed "eva@example.com"
        "11111111-1111-1111-1111-111111111111").value?.map fun u => u.Email)
      = some "eva.luna@example.com" := by
  decide

end SmartEdify
